import Mathlib

/-! # SecurityMCP-Hub: the FOFA and ZoomEye MCP adapters

A shallow embedding of `servers/fofa-mcp` and `servers/zoomeye-mcp`:
the line-by-line JSON-RPC loop of `main`, `sendError`, the tool handlers, and the
provider clients `FofaClient` and `ZoomEyeClient`.

Conventions of the embedding.

* A Go `interface{}` value decoded from JSON is held as the JSON value itself (`Json`);
  a JSON number is held as the exact rational value of the `float64` it decodes to.
* A Go `map[string]interface{}` is held as the list of its members in the order they
  were written; reading a key takes the last member with that key (`Object.get`),
  as a Go map holds what was stored last.
* The network is explicit state: `Net` records every HTTP request issued, and the
  reply to a request is given by the environment (`Lib.roundTrip`).
* Library functions whose result the adapters only pass on (JSON syntax analysis,
  pretty printing, base64, decoding of a provider body into a typed struct) are
  fields of the environment.
* A Go `(T, error)` result is `Except String T`, the string being `err.Error()`.
* Go `int` is `Int`: the adapters only compare and copy integers. The one place
  where the width of `int` matters is the conversion `int(f)` of a JSON number, which
  `goInt` models with its overflow.
-/

namespace SecurityMCPHub

/-! ## JSON values and Go values decoded from them -/

/-- A JSON value. `num q` holds the exact value of the float64 the number decodes to. -/
inductive Json where
  | null
  | bool (b : Bool)
  | num (q : ℚ)
  | str (s : String)
  | arr (xs : List Json)
  | obj (kvs : List (String × Json))

/-- A Go `map[string]interface{}`: its members in the order written. The nil map and
the empty map are both `[]` (the adapters only read maps). -/
abbrev Object := List (String × Json)

/-- The map read `m[k]`: the member stored last under `k`, `none` when there is none. -/
def Object.get : Object → String → Option Json
  | [], _ => none
  | (k', v) :: rest, k =>
    match Object.get rest k with
    | some w => some w
    | none => if k' = k then some v else none

/-- The type assertion `v.(string)` on the result of a map read. -/
def assertString : Option Json → Option String
  | some (.str s) => some s
  | _ => none

/-- The type assertion `v.(float64)` on the result of a map read. -/
def assertFloat64 : Option Json → Option ℚ
  | some (.num q) => some q
  | _ => none

/-- The type assertion `v.(bool)` on the result of a map read. -/
def assertBool : Option Json → Option Bool
  | some (.bool b) => some b
  | _ => none

/-- The integer part of a number: the fraction is dropped (rounding toward zero). -/
def truncate (f : ℚ) : Int := Int.tdiv f.num f.den

/-- The least value of the Go type `int` (64 bits). -/
def minInt : Int := -9223372036854775808

/-- The greatest value of the Go type `int` (64 bits). -/
def maxInt : Int := 9223372036854775807

/-- The conversion `int(f)` of a float64. A value whose integer part fits the type
`int` is converted to that integer part. For a value beyond the range Go leaves the
result to the implementation; the value taken here is the one the amd64 compiler
yields, the most negative `int` (so `int(1e19)` is negative). -/
def goInt (f : ℚ) : Int :=
  if minInt ≤ truncate f ∧ truncate f ≤ maxInt then truncate f else minInt

/-- The Go function strconv.Itoa. -/
def Itoa (n : Int) : String := toString n

namespace strings

/-- The Go function strings.ToLower, on the letters A to Z. Letters outside ASCII are
left as they are: Go maps none of them to a letter of "cert" or "banner", which is
all the adapters look for in the result. -/
def ToLower (s : String) : String := String.mk (s.data.map Char.toLower)

/-- Whether the characters `p` begin the characters `s`. -/
def startsWith : List Char → List Char → Bool
  | _, [] => true
  | [], _ :: _ => false
  | c :: cs, p :: ps => c == p && startsWith cs ps

/-- Whether `sub` occurs in `s` at some position. -/
def containsAt : List Char → List Char → Bool
  | [], sub => startsWith [] sub
  | c :: cs, sub => startsWith (c :: cs) sub || containsAt cs sub

/-- The Go function strings.Contains. -/
def Contains (s substr : String) : Bool := containsAt s.data substr.data

end strings

/-! ## The network -/

/-- An HTTP request as the clients build it. `query` holds the `url.Values` before
`Encode`; `body` holds the JSON value whose encoding is the request body. -/
structure HttpRequest where
  method : String
  url : String
  query : List (String × String)
  header : List (String × String)
  body : Option Object

/-- What `c.Client.Do(req)` followed by `io.ReadAll(resp.Body)` yields. -/
inductive HttpReply where
  /-- The call to Do returned an error. -/
  | failure (err : String)
  /-- The call to Do returned a response with this status; reading its body failed. -/
  | unreadable (status : Nat) (err : String)
  /-- The call to Do returned a response with this status and this body. -/
  | response (status : Nat) (body : String)

/-- The value a request carries for the query parameter `name` (`url.Values.Get`). -/
def HttpRequest.queryValue (req : HttpRequest) (name : String) : Option String :=
  (req.query.find? (fun kv => kv.1 = name)).map (fun kv => kv.2)

/-- The member `name` of the JSON body of a request. -/
def HttpRequest.bodyMember (req : HttpRequest) (name : String) : Option Json :=
  req.body.bind (fun m => Object.get m name)

/-- The requests issued so far, oldest first. -/
structure Net where
  sent : List HttpRequest

/-- The library and the environment of an adapter process. -/
structure Lib where
  /-- JSON syntax analysis of a text (the scanner of encoding/json): the value, or
  the message of the syntax error. -/
  parse : String → Except String Json
  /-- The call `json.MarshalIndent(v, "", "  ")`, as a string. -/
  marshalIndent : Json → String
  /-- The call `base64.StdEncoding.EncodeToString([]byte(s))`. -/
  base64 : String → String
  /-- The call `url.QueryEscape(s)`. -/
  queryEscape : String → String
  /-- The reply of the provider to a request, given the requests issued before it. -/
  roundTrip : List HttpRequest → HttpRequest → HttpReply

/-- The call `c.Client.Do(req)` with the body read: the request is recorded and the
environment replies. -/
def Net.Do (E : Lib) (net : Net) (req : HttpRequest) : HttpReply × Net :=
  (E.roundTrip net.sent req, { sent := net.sent ++ [req] })

/-- What every client method does with the reply (fofa_client.go lines 134 to 147,
the same text in each method of both clients): the body of a reply with status 200,
or the failure. The failure of `http.NewRequest` has no counterpart here: the method
is a constant and the URL is the base URL followed by a constant path (and, for a
host lookup, an escaped host), which always parses. -/
def okBody : HttpReply → Except String String
  | .failure err => .error ("请求失败: " ++ err)
  | .unreadable _ err => .error ("读取响应失败: " ++ err)
  | .response status body =>
    if status ≠ 200 then
      .error ("API返回错误状态码: " ++ Itoa status ++ ", 响应: " ++ body)
    else .ok body

/-! ## fofa-mcp/src/fofa_client.go -/

namespace fofa

structure FofaClient where
  Email : String
  Key : String
  BaseURL : String

structure QueryParams where
  Query : String
  Page : Int
  Size : Int
  Fields : String
  Full : Bool
  IsDomain : Bool

structure SearchResponse where
  Error : Bool
  ErrMsg : String
  Size : Int
  Page : Int
  Mode : String
  Query : String
  Results : List (List String)

structure StatsResponse where
  Error : Bool
  ErrMsg : String
  Distinct : List (String × Int)
  Aggs : Object

/-- The type `HostInfoResponse`, a `map[string]interface{}`. -/
abbrev HostInfoResponse := Object

/-- Decoding of a provider body into the typed structs of the client
(`json.Unmarshal(body, &searchResp)`, `json.Unmarshal(body, &statsResp)`). -/
structure Decoders where
  search : String → Except String SearchResponse
  stats : String → Except String StatsResponse

def NewFofaClient (email key : String) : FofaClient :=
  { Email := email, Key := key, BaseURL := "https://fofa.info" }

def FofaClient.encodeQuery (E : Lib) (_c : FofaClient) (query : String) : String :=
  E.base64 query

/-- Lines 74 to 101 of `Search`: validation and defaults of the parameters. -/
def FofaClient.Search.validate (params : QueryParams) : QueryParams :=
  let params := if params.Page < 1 then { params with Page := 1 } else params
  let params := if params.Size < 1 then { params with Size := 100 } else params
  let hasCertOrBanner :=
    if params.Fields ≠ "" then
      let fieldsLower := strings.ToLower params.Fields
      strings.Contains fieldsLower "cert" || strings.Contains fieldsLower "banner"
    else false
  let params :=
    if hasCertOrBanner then
      if params.Size > 2000 then { params with Size := 2000 } else params
    else
      if params.Size > 10000 then { params with Size := 10000 } else params
  if params.Fields = "" then { params with Fields := "host,ip,port,protocol" } else params

/-- Lines 103 to 132 of `Search`: the request built from the validated parameters. -/
def FofaClient.Search.request (E : Lib) (c : FofaClient) (params : QueryParams) : HttpRequest :=
  let apiURL := c.BaseURL ++ "/api/v1/search/all"
  let queryBase64 := c.encodeQuery E params.Query
  let queryValues := [("email", c.Email), ("key", c.Key), ("qbase64", queryBase64),
    ("page", Itoa params.Page), ("size", Itoa params.Size), ("fields", params.Fields)]
  let queryValues := if params.Full then queryValues ++ [("full", "true")] else queryValues
  let queryValues := if params.IsDomain then queryValues ++ [("is_domain", "true")] else queryValues
  { method := "GET", url := apiURL, query := queryValues,
    header := [("User-Agent", "fofa-mcp/1.0")], body := none }

/-- The method `Search`. -/
def FofaClient.Search (E : Lib) (D : Decoders) (c : FofaClient) (params : QueryParams)
    (net : Net) : Except String SearchResponse × Net :=
  let params := FofaClient.Search.validate params
  let req := FofaClient.Search.request E c params
  let (reply, net) := net.Do E req
  match okBody reply with
  | .error err => (.error err, net)
  | .ok body =>
    match D.search body with
    | .error err => (.error ("解析响应失败: " ++ err), net)
    | .ok searchResp =>
      if searchResp.Error then (.error ("FOFA API错误: " ++ searchResp.ErrMsg), net)
      else (.ok searchResp, net)

/-- Lines 164 to 183 of `Stats`: the request. -/
def FofaClient.Stats.request (E : Lib) (c : FofaClient) (query fields : String) : HttpRequest :=
  let apiURL := c.BaseURL ++ "/api/v1/search/stats"
  let queryBase64 := c.encodeQuery E query
  let queryValues := [("email", c.Email), ("key", c.Key), ("qbase64", queryBase64)]
  let queryValues := if fields ≠ "" then queryValues ++ [("fields", fields)] else queryValues
  { method := "GET", url := apiURL, query := queryValues,
    header := [("User-Agent", "fofa-mcp/1.0")], body := none }

/-- The method `Stats`. -/
def FofaClient.Stats (E : Lib) (D : Decoders) (c : FofaClient) (query fields : String)
    (net : Net) : Except String StatsResponse × Net :=
  let req := FofaClient.Stats.request E c query fields
  let (reply, net) := net.Do E req
  match okBody reply with
  | .error err => (.error err, net)
  | .ok body =>
    match D.stats body with
    | .error err => (.error ("解析响应失败: " ++ err), net)
    | .ok statsResp =>
      if statsResp.Error then (.error ("FOFA API错误: " ++ statsResp.ErrMsg), net)
      else (.ok statsResp, net)

/-- Lines 214 to 227 of `GetHostInfo`: the request. -/
def FofaClient.GetHostInfo.request (E : Lib) (c : FofaClient) (host : String) : HttpRequest :=
  let apiURL := c.BaseURL ++ "/api/v1/host/" ++ E.queryEscape host
  let queryValues := [("email", c.Email), ("key", c.Key)]
  { method := "GET", url := apiURL, query := queryValues,
    header := [("User-Agent", "fofa-mcp/1.0")], body := none }

/-- The call `json.Unmarshal(body, &hostResp)` of `GetHostInfo`: a JSON object fills
the map, `null` leaves it nil, any other value is a type error. -/
def unmarshalHostInfo (E : Lib) (body : String) : Except String HostInfoResponse :=
  match E.parse body with
  | .error err => .error err
  | .ok (.obj kvs) => .ok kvs
  | .ok .null => .ok []
  | .ok (.bool _) => .error "json: cannot unmarshal bool into Go value of type src.HostInfoResponse"
  | .ok (.num _) => .error "json: cannot unmarshal number into Go value of type src.HostInfoResponse"
  | .ok (.str _) => .error "json: cannot unmarshal string into Go value of type src.HostInfoResponse"
  | .ok (.arr _) => .error "json: cannot unmarshal array into Go value of type src.HostInfoResponse"

/-- The method `GetHostInfo`. -/
def FofaClient.GetHostInfo (E : Lib) (c : FofaClient) (host : String)
    (net : Net) : Except String HostInfoResponse × Net :=
  let req := FofaClient.GetHostInfo.request E c host
  let (reply, net) := net.Do E req
  match okBody reply with
  | .error err => (.error err, net)
  | .ok body =>
    match unmarshalHostInfo E body with
    | .error err => (.error ("解析响应失败: " ++ err), net)
    | .ok hostResp =>
      if assertBool (Object.get hostResp "error") = some true then
        let errMsg := match assertString (Object.get hostResp "errmsg") with
          | some msg => msg
          | none => ""
        (.error ("FOFA API错误: " ++ errMsg), net)
      else (.ok hostResp, net)

end fofa

/-! ## server.go: the envelopes, the same in both adapters -/

/-- The struct `MCPRequest`. `Params` is the raw message: the JSON value of the member,
`none` when the request has no such member (the raw message is empty). -/
structure MCPRequest where
  JSONRPC : String
  ID : Json
  Method : String
  Params : Option Json

structure MCPError where
  Code : Int
  Message : String

structure Tool where
  Name : String
  Description : String
  InputSchema : Object

/-- The struct `CallToolRequest` (an unnamed struct of the same shape in fofa-mcp). -/
structure CallToolRequest where
  Name : String
  Arguments : Object

structure CallToolResult where
  Content : List Object
  IsError : Bool

/-- The values the loop stores in the `interface{}` field `Result`. -/
inductive ResultValue where
  /-- A `map[string]interface{}` literal (initialize). -/
  | object (m : Object)
  /-- The map with the single member "tools", a `[]Tool` (tools/list). -/
  | tools (ts : List Tool)
  /-- A `CallToolResult` (tools/call). -/
  | callToolResult (r : CallToolResult)

/-- The struct `MCPResponse`. A nil `Result` or `Error` is `none`. -/
structure MCPResponse where
  JSONRPC : String
  ID : Json
  Result : Option ResultValue
  Error : Option MCPError

/-! ## Decoding of a request line and of the tools/call payload -/

/-- The name encoding/json gives the kind of a JSON value in a type error. -/
def Json.kind : Json → String
  | .null => "null"
  | .bool _ => "bool"
  | .num _ => "number"
  | .str _ => "string"
  | .arr _ => "array"
  | .obj _ => "object"

/-- Case folding of one character of an object key, as encoding/json folds it when it
looks for a struct field whose name is in lower-case ASCII: the long s and the Kelvin
sign fold to s and k. -/
def foldRune (c : Char) : Char :=
  if c = Char.ofNat 0x17F then 's'
  else if c = Char.ofNat 0x212A then 'k'
  else c.toLower

/-- Whether the object key `key` selects the struct field tagged `name`. -/
def keyIs (key name : String) : Bool := key.data.map foldRune == name.data

/-- Decoding of the members of a JSON object into a struct, one member after the
other in the order written; the first type error is the error returned. -/
def unmarshalMembers {α : Type} (set : α → String → Json → Except String α) :
    α → List (String × Json) → Except String α
  | a, [] => .ok a
  | a, (k, v) :: rest =>
    match set a k v with
    | .error err => .error err
    | .ok a => unmarshalMembers set a rest

/-- Decoding of a JSON value into a `string` field: `null` leaves the field as it is. -/
def unmarshalString (field : String) (old : String) : Json → Except String String
  | .str s => .ok s
  | .null => .ok old
  | v => .error ("json: cannot unmarshal " ++ v.kind ++ " into Go struct field " ++ field
      ++ " of type string")

/-- One member of a request object stored into the struct `MCPRequest`
(tags `jsonrpc`, `id`, `method`, `params`); members of any other name are skipped. -/
def MCPRequest.setMember (request : MCPRequest) (key : String) (v : Json) :
    Except String MCPRequest :=
  if keyIs key "jsonrpc" then
    match unmarshalString "MCPRequest.jsonrpc" request.JSONRPC v with
    | .error err => .error err
    | .ok s => .ok { request with JSONRPC := s }
  else if keyIs key "id" then .ok { request with ID := v }
  else if keyIs key "method" then
    match unmarshalString "MCPRequest.method" request.Method v with
    | .error err => .error err
    | .ok s => .ok { request with Method := s }
  else if keyIs key "params" then .ok { request with Params := some v }
  else .ok request

/-- The call `json.Unmarshal(scanner.Bytes(), &request)` on a zero `MCPRequest`. -/
def unmarshalRequest (E : Lib) (line : String) : Except String MCPRequest :=
  let request : MCPRequest := { JSONRPC := "", ID := .null, Method := "", Params := none }
  match E.parse line with
  | .error err => .error err
  | .ok .null => .ok request
  | .ok (.obj kvs) => unmarshalMembers MCPRequest.setMember request kvs
  | .ok v => .error ("json: cannot unmarshal " ++ v.kind ++ " into Go value of type main.MCPRequest")

/-- One member of a tools/call payload stored into the call request (tags `name`,
`arguments`). An object under `arguments` adds its members to the map; `null` sets
the map to nil. `struct` is the name of the struct in the type error. -/
def CallToolRequest.setMember (struct : String) (call : CallToolRequest) (key : String)
    (v : Json) : Except String CallToolRequest :=
  if keyIs key "name" then
    match unmarshalString (struct ++ ".name") call.Name v with
    | .error err => .error err
    | .ok s => .ok { call with Name := s }
  else if keyIs key "arguments" then
    match v with
    | .obj m => .ok { call with Arguments := call.Arguments ++ m }
    | .null => .ok { call with Arguments := [] }
    | v => .error ("json: cannot unmarshal " ++ v.kind ++ " into Go struct field " ++ struct
        ++ ".arguments of type map[string]interface \x7b\x7d")
  else .ok call

/-- The call `json.Unmarshal(request.Params, &callRequest)` on a zero call request.
An empty raw message is a syntax error. `struct` and `goType` name the struct in a
type error. -/
def unmarshalCall (struct goType : String) (params : Option Json) :
    Except String CallToolRequest :=
  let callRequest : CallToolRequest := { Name := "", Arguments := [] }
  match params with
  | none => .error "unexpected end of JSON input"
  | some .null => .ok callRequest
  | some (.obj kvs) => unmarshalMembers (CallToolRequest.setMember struct) callRequest kvs
  | some v => .error ("json: cannot unmarshal " ++ v.kind ++ " into Go value of type " ++ goType)

/-! ## Encoding of a response line -/

/-- The JSON encoding of a `Tool`. -/
def Tool.toJson (t : Tool) : Json :=
  .obj [("name", .str t.Name), ("description", .str t.Description),
    ("inputSchema", .obj t.InputSchema)]

/-- The JSON encoding of a `CallToolResult`: `isError` is tagged omitempty. (A nil
`Content` is the empty list here; the loop never encodes the zero result, which it
replaces by the failure result.) -/
def CallToolResult.toJson (r : CallToolResult) : Json :=
  .obj ([("content", .arr (r.Content.map Json.obj))]
    ++ (if r.IsError then [("isError", .bool true)] else []))

/-- The JSON encoding of the value held in `Result`. -/
def ResultValue.toJson : ResultValue → Json
  | .object m => .obj m
  | .tools ts => .obj [("tools", .arr (ts.map Tool.toJson))]
  | .callToolResult r => r.toJson

/-- The members of the line `encoder.Encode(response)` writes, by the struct tags of
`MCPResponse`: `jsonrpc` and `id` always (`id` is not tagged omitempty, a nil id is
written as null), `result` and `error` only when not nil. -/
def MCPResponse.encode (response : MCPResponse) : Object :=
  [("jsonrpc", .str response.JSONRPC), ("id", response.ID)]
  ++ (match response.Result with
      | some v => [("result", v.toJson)]
      | none => [])
  ++ (match response.Error with
      | some e => [("error", .obj [("code", .num e.Code), ("message", .str e.Message)])]
      | none => [])

/-- The function `sendError` (the same in both adapters). `encoder` is the output
written so far, one response per line. -/
def sendError (encoder : List MCPResponse) (id : Json) (code : Int) (message data : String) :
    List MCPResponse :=
  let response : MCPResponse :=
    { JSONRPC := "2.0", ID := id, Result := none,
      Error := some { Code := code, Message := message } }
  let response :=
    if data ≠ "" then
      { response with Error := some { Code := code, Message := message ++ ": " ++ data } }
    else response
  encoder ++ [response]

/-- Lines 211 to 232 of `main` (the same in both adapters): a failure of the handler
becomes a result with the error flag, and the response is encoded. -/
def finishCall (encoder : List MCPResponse) (response : MCPResponse)
    (outcome : Except String CallToolResult × Net) : Net × List MCPResponse :=
  let result : CallToolResult :=
    match outcome.1 with
    | .error err =>
      { Content := [[("type", .str "text"), ("text", .str ("错误: " ++ err))]], IsError := true }
    | .ok result => result
  (outcome.2, encoder ++ [{ response with Result := some (.callToolResult result) }])

/-- The result of `initialize` for the server called `name`. -/
def initializeResult (name : String) : Object :=
  [("protocolVersion", .str "2024-11-05"),
   ("capabilities", .obj [("tools", .obj [])]),
   ("serverInfo", .obj [("name", .str name), ("version", .str "1.0.0")])]

/-- The content of a successful tool result: one text block holding the indented
JSON of `response`. -/
def textResult (E : Lib) (response : Object) : CallToolResult :=
  { Content := [[("type", .str "text"), ("text", .str (E.marshalIndent (.obj response)))]],
    IsError := false }

/-! ## fofa-mcp/server.go -/

namespace fofa

/-- The tools of `tools/list`. -/
def tools : List Tool :=
  [ { Name := "fofa_search"
      Description := "在FOFA中搜索资产。支持自定义查询语句、分页、返回字段等所有参数。所有参数都可以由大模型自主配置，包括查询语句、页码、每页数量、返回字段等。\n\n支持50个返回字段，包括基础字段（ip,port,host等）、地理位置字段（country,region,city等）、证书字段（cert.*）、协议字段（banner,protocol等）、产品字段（product,product.version等）等。字段权限取决于FOFA账号版本。\n\n重要限制：当fields参数包含cert或banner字段时，size参数最大值自动限制为2000（而非10000）。"
      InputSchema :=
        [("type", .str "object"),
         ("properties", .obj
           [("query", .obj
              [("type", .str "string"),
               ("description", .str "FOFA查询语句，例如：app=\"Apache\" && country=\"CN\"。可以根据需要构建任意查询语句")]),
            ("page", .obj
              [("type", .str "integer"),
               ("description", .str "页码，从1开始，默认为1。可以根据需要设置任意页码进行翻页"),
               ("default", .num 1)]),
            ("size", .obj
              [("type", .str "integer"),
               ("description", .str "每页返回数量，范围1-10000，默认为100。可以根据需要设置任意数量。重要限制：当fields参数包含cert或banner字段时，size最大值限制为2000"),
               ("default", .num 100)]),
            ("fields", .obj
              [("type", .str "string"),
               ("description", .str "返回字段，逗号分隔，例如：host,ip,port,protocol,title。支持所有FOFA API字段，可根据需要选择任意字段组合。\n\n完整字段列表（共50个字段）：\n【无权限字段（1-33）】：ip,port,protocol,country,country_name,region,city,longitude,latitude,asn,org,host,domain,os,server,icp,title,jarm,header,banner,cert,base_protocol,link,cert.issuer.org,cert.issuer.cn,cert.subject.org,cert.subject.cn,tls.ja3s,tls.version,cert.sn,cert.not_before,cert.not_after,cert.domain\n【个人版及以上（34-36）】：header_hash,banner_hash,banner_fid\n【专业版及以上（37-40）】：cname,lastupdatetime,product,product_category\n【商业版本及以上（41-47）】：product.version,icon_hash,cert.is_valid,cname_domain,body,cert.is_match,cert.is_equal\n【企业会员（48-50）】：icon,fid,structinfo\n\n重要提示：\n- 当查询包含cert或banner字段时，size参数值最大为2000\n- 字段权限取决于您的FOFA账号版本，超出权限的字段将返回空值\n- 可以根据实际需求灵活组合任意字段"),
               ("default", .str "host,ip,port,protocol")]),
            ("full", .obj
              [("type", .str "boolean"),
               ("description", .str "是否返回全量数据，默认为false"),
               ("default", .bool false)]),
            ("is_domain", .obj
              [("type", .str "boolean"),
               ("description", .str "是否为域名查询，默认为false"),
               ("default", .bool false)])]),
         ("required", .arr [.str "query"])] },
    { Name := "fofa_stats"
      Description := "获取FOFA查询结果的统计信息。支持自定义查询语句和统计字段。"
      InputSchema :=
        [("type", .str "object"),
         ("properties", .obj
           [("query", .obj
              [("type", .str "string"),
               ("description", .str "FOFA查询语句")]),
            ("fields", .obj
              [("type", .str "string"),
               ("description", .str "要统计的字段，逗号分隔，例如：country,server,protocol。可以根据需要选择任意字段进行统计")])]),
         ("required", .arr [.str "query"])] },
    { Name := "fofa_host_info"
      Description := "获取指定主机的详细信息，包括IP、ASN、组织、国家、协议等。"
      InputSchema :=
        [("type", .str "object"),
         ("properties", .obj
           [("host", .obj
              [("type", .str "string"),
               ("description", .str "主机地址，可以是IP或域名")])]),
         ("required", .arr [.str "host"])] } ]

/-- The Go type of the unnamed struct `callRequest` of `main`, as a type error prints it. -/
def callRequestType : String :=
  "struct \x7b Name string \"json:\\\"name\\\"\"; Arguments map[string]interface \x7b\x7d \"json:\\\"arguments\\\"\" \x7d"

/-- Lines 261 to 285 of `handleFofaSearch`: the parameters handed to `client.Search`,
the defaults overwritten by the optional arguments. -/
def handleFofaSearch.params (query : String) (args : Object) : QueryParams :=
  let params : QueryParams :=
    { Query := query, Page := 1, Size := 100, Fields := "host,ip,port,protocol",
      Full := false, IsDomain := false }
  let params := match assertFloat64 (Object.get args "page") with
    | some page => { params with Page := goInt page }
    | none => params
  let params := match assertFloat64 (Object.get args "size") with
    | some size => { params with Size := goInt size }
    | none => params
  let params := match assertString (Object.get args "fields") with
    | some fields => if fields ≠ "" then { params with Fields := fields } else params
    | none => params
  let params := match assertBool (Object.get args "full") with
    | some full => { params with Full := full }
    | none => params
  match assertBool (Object.get args "is_domain") with
    | some isDomain => { params with IsDomain := isDomain }
    | none => params

/-- The function `handleFofaSearch`. -/
def handleFofaSearch (E : Lib) (D : Decoders) (client : FofaClient) (args : Object)
    (net : Net) : Except String CallToolResult × Net :=
  match assertString (Object.get args "query") with
  | none => (.error "query参数是必需的", net)
  | some query =>
    if query = "" then (.error "query参数是必需的", net)
    else
      let params := handleFofaSearch.params query args
      match client.Search E D params net with
      | (.error err, net) => (.error err, net)
      | (.ok result, net) =>
        let response : Object :=
          [("success", .bool true), ("query", .str result.Query), ("page", .num result.Page),
           ("size", .num result.Size), ("mode", .str result.Mode),
           ("total", .num result.Results.length),
           ("results", .arr (result.Results.map (fun row => .arr (row.map Json.str))))]
        (.ok (textResult E response), net)

/-- The function `handleFofaStats`. -/
def handleFofaStats (E : Lib) (D : Decoders) (client : FofaClient) (args : Object)
    (net : Net) : Except String CallToolResult × Net :=
  match assertString (Object.get args "query") with
  | none => (.error "query参数是必需的", net)
  | some query =>
    if query = "" then (.error "query参数是必需的", net)
    else
      let fields := match assertString (Object.get args "fields") with
        | some f => f
        | none => ""
      match client.Stats E D query fields net with
      | (.error err, net) => (.error err, net)
      | (.ok result, net) =>
        let response : Object :=
          [("success", .bool true),
           ("distinct", .obj (result.Distinct.map (fun kv => (kv.1, .num kv.2)))),
           ("aggs", .obj result.Aggs)]
        (.ok (textResult E response), net)

/-- Lines 365 to 371 of `handleFofaHostInfo`: every field of the reply but `error`
and `errmsg` is stored into the response. -/
def copyHostFields (response : Object) (result : HostInfoResponse) : Object :=
  result.foldl (fun response kv =>
    if kv.1 ≠ "error" ∧ kv.1 ≠ "errmsg" then response ++ [kv] else response) response

/-- The function `handleFofaHostInfo`. -/
def handleFofaHostInfo (E : Lib) (client : FofaClient) (args : Object)
    (net : Net) : Except String CallToolResult × Net :=
  match assertString (Object.get args "host") with
  | none => (.error "host参数是必需的", net)
  | some host =>
    if host = "" then (.error "host参数是必需的", net)
    else
      match client.GetHostInfo E host net with
      | (.error err, net) => (.error err, net)
      | (.ok result, net) =>
        let response : Object := [("success", .bool true)]
        let response := copyHostFields response result
        (.ok (textResult E response), net)

/-- The body of the loop of `main` (lines 70 to 232): one input line is read, and the
state after it is the network and the output written so far. -/
def main.iteration (E : Lib) (D : Decoders) (fofaClient : FofaClient)
    (state : Net × List MCPResponse) (line : String) : Net × List MCPResponse :=
  let (net, encoder) := state
  match unmarshalRequest E line with
  | .error err => (net, sendError encoder .null (-32700) "Parse error" err)
  | .ok request =>
    let response : MCPResponse :=
      { JSONRPC := "2.0", ID := request.ID, Result := none, Error := none }
    if request.Method = "initialize" then
      (net, encoder ++ [{ response with Result := some (.object (initializeResult "fofa-mcp")) }])
    else if request.Method = "tools/list" then
      (net, encoder ++ [{ response with Result := some (.tools tools) }])
    else if request.Method = "tools/call" then
      match unmarshalCall "" callRequestType request.Params with
      | .error err => (net, sendError encoder request.ID (-32602) "Invalid params" err)
      | .ok callRequest =>
        if callRequest.Name = "fofa_search" then
          finishCall encoder response (handleFofaSearch E D fofaClient callRequest.Arguments net)
        else if callRequest.Name = "fofa_stats" then
          finishCall encoder response (handleFofaStats E D fofaClient callRequest.Arguments net)
        else if callRequest.Name = "fofa_host_info" then
          finishCall encoder response (handleFofaHostInfo E fofaClient callRequest.Arguments net)
        else
          (net, sendError encoder request.ID (-32601) "Method not found"
            ("Unknown tool: " ++ callRequest.Name))
    else
      (net, sendError encoder request.ID (-32601) "Method not found"
        ("Unknown method: " ++ request.Method))

/-- The loop of `main` over the lines standard input delivers (a failure of the
scanner itself ends the process and is not a line). Writing a response to standard
output is taken to succeed. -/
def main.loop (E : Lib) (D : Decoders) (fofaClient : FofaClient)
    (state : Net × List MCPResponse) (lines : List String) : Net × List MCPResponse :=
  lines.foldl (main.iteration E D fofaClient) state

/-- The function `main`: without both credentials the process exits at once;
otherwise it serves the lines of standard input. -/
def main (E : Lib) (D : Decoders) (email key : String) (lines : List String) :
    Except String (Net × List MCPResponse) :=
  if email = "" ∨ key = "" then .error "请设置环境变量 FOFA_EMAIL 和 FOFA_KEY"
  else
    let fofaClient := NewFofaClient email key
    .ok (main.loop E D fofaClient ({ sent := [] }, []) lines)

end fofa

/-! ## zoomeye-mcp/src/zoomeye_client.go -/

namespace zoomeye

structure ZoomEyeClient where
  APIKey : String
  BaseURL : String

structure Subscription where
  Plan : String
  EndDate : String
  Points : String
  ZoomEyePoints : String

structure UserData where
  Username : String
  Email : String
  Phone : String
  CreatedAt : String
  Subscription : Subscription

structure UserInfoResponse where
  Code : Int
  Message : String
  Data : UserData

structure SearchParams where
  QBase64 : String
  Fields : String
  SubType : String
  Page : Int
  PageSize : Int
  Facets : String
  IgnoreCache : Bool

structure SearchResponse where
  Code : Int
  Message : String
  Total : Int
  Query : String
  Data : List Object

/-- Decoding of a provider body into the typed structs of the client
(`json.Unmarshal(body, &userInfoResp)`, `json.Unmarshal(body, &searchResp)`). -/
structure Decoders where
  userInfo : String → Except String UserInfoResponse
  search : String → Except String SearchResponse

def NewZoomEyeClient (apiKey : String) : ZoomEyeClient :=
  { APIKey := apiKey, BaseURL := "https://api.zoomeye.org" }

def ZoomEyeClient.EncodeQuery (E : Lib) (_c : ZoomEyeClient) (query : String) : String :=
  E.base64 query

/-- The headers both methods set. -/
def ZoomEyeClient.header (c : ZoomEyeClient) : List (String × String) :=
  [("API-KEY", c.APIKey), ("Content-Type", "application/json"),
   ("User-Agent", "zoomeye-mcp/1.0")]

/-- The method `GetUserInfo`. -/
def ZoomEyeClient.GetUserInfo (E : Lib) (D : Decoders) (c : ZoomEyeClient)
    (net : Net) : Except String UserInfoResponse × Net :=
  let apiURL := c.BaseURL ++ "/v2/userinfo"
  let req : HttpRequest :=
    { method := "POST", url := apiURL, query := [], header := c.header, body := none }
  let (reply, net) := net.Do E req
  match okBody reply with
  | .error err => (.error err, net)
  | .ok body =>
    match D.userInfo body with
    | .error err => (.error ("解析响应失败: " ++ err), net)
    | .ok userInfoResp =>
      if userInfoResp.Code ≠ 60000 then
        (.error ("ZoomEye API错误: " ++ userInfoResp.Message ++ " (code: "
          ++ Itoa userInfoResp.Code ++ ")"), net)
      else (.ok userInfoResp, net)

/-- Lines 116 to 131 of `Search`: validation and defaults of the parameters. -/
def ZoomEyeClient.Search.validate (params : SearchParams) : SearchParams :=
  let params := if params.Page < 1 then { params with Page := 1 } else params
  let params := if params.PageSize < 1 then { params with PageSize := 10 } else params
  let params := if params.PageSize > 10000 then { params with PageSize := 10000 } else params
  let params := if params.SubType = "" then { params with SubType := "v4" } else params
  if params.Fields = "" then { params with Fields := "ip,port,domain,update_time" } else params

/-- Lines 133 to 169 of `Search`: the request built from the validated parameters. -/
def ZoomEyeClient.Search.request (c : ZoomEyeClient) (params : SearchParams) : HttpRequest :=
  let apiURL := c.BaseURL ++ "/v2/search"
  let requestBody : Object := [("qbase64", .str params.QBase64), ("page", .num params.Page)]
  let requestBody :=
    if params.Fields ≠ "" then requestBody ++ [("fields", .str params.Fields)] else requestBody
  let requestBody :=
    if params.SubType ≠ "" then requestBody ++ [("sub_type", .str params.SubType)]
    else requestBody
  let requestBody :=
    if params.PageSize > 0 then requestBody ++ [("pagesize", .num params.PageSize)]
    else requestBody
  let requestBody :=
    if params.Facets ≠ "" then requestBody ++ [("facets", .str params.Facets)] else requestBody
  let requestBody :=
    if params.IgnoreCache then requestBody ++ [("ignore_cache", .bool true)] else requestBody
  { method := "POST", url := apiURL, query := [], header := c.header, body := some requestBody }

/-- The method `Search`. -/
def ZoomEyeClient.Search (E : Lib) (D : Decoders) (c : ZoomEyeClient) (params : SearchParams)
    (net : Net) : Except String SearchResponse × Net :=
  let params := ZoomEyeClient.Search.validate params
  let req := ZoomEyeClient.Search.request c params
  let (reply, net) := net.Do E req
  match okBody reply with
  | .error err => (.error err, net)
  | .ok body =>
    match D.search body with
    | .error err => (.error ("解析响应失败: " ++ err), net)
    | .ok searchResp =>
      if searchResp.Code ≠ 60000 then
        (.error ("ZoomEye API错误: " ++ searchResp.Message ++ " (code: "
          ++ Itoa searchResp.Code ++ ")"), net)
      else (.ok searchResp, net)

/-! ## zoomeye-mcp/server.go -/

/-- The tools of `tools/list`. -/
def tools : List Tool :=
  [ { Name := "zoomeye_userinfo"
      Description := "获取 ZoomEye 用户信息，包括用户名、邮箱、订阅计划、积分等详细信息。\n\n返回信息包括：\n- 用户基本信息（用户名、邮箱、电话、创建时间）\n- 订阅信息（计划类型、结束日期、普通积分、权益积分）\n\n可用于查询当前账号状态和可用积分。"
      InputSchema :=
        [("type", .str "object"),
         ("properties", .obj [])] },
    { Name := "zoomeye_search"
      Description := "在 ZoomEye 中搜索网络资产。支持自定义查询语句、分页、返回字段等所有参数。所有参数都可以由大模型自主配置。\n\n支持的功能：\n- 自定义查询语句（会自动进行 Base64 编码）\n- 分页查询（支持任意页码）\n- 自定义返回字段（支持所有 ZoomEye API 字段）\n- 数据类型选择（v4、v6、web）\n- 统计功能（facets）\n- 缓存控制（ignore_cache）\n\n支持的返回字段包括：\n- 基础字段：ip, port, domain, url, hostname, os, service, title, version, device, rdns, product, banner, update_time\n- 地理位置：continent.name, country.name, province.name, city.name, lon, lat, zipcode\n- 网络信息：asn, protocol, isp.name, organization.name\n- SSL/TLS：ssl, ssl.jarm, ssl.ja3s\n- HTTP 信息：header, header_hash, body, body_hash, header.server.name, header.server.version\n- 其他：iconhash_md5, robots_md5, security_md5, idc, honeypot, primary_industry, sub_industry, rank\n\n字段权限取决于 ZoomEye 账号版本（免费版、专业版、商业版等）。"
      InputSchema :=
        [("type", .str "object"),
         ("properties", .obj
           [("query", .obj
              [("type", .str "string"),
               ("description", .str "ZoomEye 查询语句，例如：title=\"cisco vpn\" 或 app=\"nginx\" && country=\"CN\"。查询语句会自动进行 Base64 编码，可以根据需要构建任意查询语句")]),
            ("page", .obj
              [("type", .str "integer"),
               ("description", .str "页码，从1开始，默认为1。可以根据需要设置任意页码进行翻页"),
               ("default", .num 1)]),
            ("pagesize", .obj
              [("type", .str "integer"),
               ("description", .str "每页返回数量，范围1-10000，默认为10。可以根据需要设置任意数量"),
               ("default", .num 10)]),
            ("fields", .obj
              [("type", .str "string"),
               ("description", .str "返回字段，逗号分隔，例如：ip,port,domain,update_time。支持所有 ZoomEye API 字段，可根据需要选择任意字段组合。\n\n常用字段：\n- 基础：ip, port, domain, url, hostname, os, service, title, version, device, rdns, product, banner, update_time\n- 地理位置：continent.name, country.name, province.name, city.name, lon, lat, zipcode\n- 网络：asn, protocol, isp.name, organization.name\n- SSL/TLS：ssl, ssl.jarm, ssl.ja3s\n- HTTP：header, header_hash, body, body_hash, header.server.name, header.server.version\n- 其他：iconhash_md5, robots_md5, security_md5, idc, honeypot, primary_industry, sub_industry, rank\n\n字段权限取决于您的 ZoomEye 账号版本，超出权限的字段将返回空值。"),
               ("default", .str "ip,port,domain,update_time")]),
            ("sub_type", .obj
              [("type", .str "string"),
               ("description", .str "数据类型，支持 v4（IPv4）、v6（IPv6）和 web（Web资产），默认为 v4"),
               ("enum", .arr [.str "v4", .str "v6", .str "web"]),
               ("default", .str "v4")]),
            ("facets", .obj
              [("type", .str "string"),
               ("description", .str "统计项，如果有多个，用逗号分隔。支持：country, subdivisions, city, product, service, device, os, port。例如：country,product,port")]),
            ("ignore_cache", .obj
              [("type", .str "boolean"),
               ("description", .str "是否忽略缓存，默认为 false。支持商业版及以上用户"),
               ("default", .bool false)])]),
         ("required", .arr [.str "query"])] } ]

/-- The function `handleZoomEyeUserInfo`. -/
def handleZoomEyeUserInfo (E : Lib) (D : Decoders) (client : ZoomEyeClient)
    (net : Net) : Except String CallToolResult × Net :=
  match client.GetUserInfo E D net with
  | (.error err, net) => (.error err, net)
  | (.ok result, net) =>
    let response : Object :=
      [("success", .bool true), ("code", .num result.Code), ("message", .str result.Message),
       ("data", .obj
         [("username", .str result.Data.Username), ("email", .str result.Data.Email),
          ("phone", .str result.Data.Phone), ("created_at", .str result.Data.CreatedAt),
          ("subscription", .obj
            [("plan", .str result.Data.Subscription.Plan),
             ("end_date", .str result.Data.Subscription.EndDate),
             ("points", .str result.Data.Subscription.Points),
             ("zoomeye_points", .str result.Data.Subscription.ZoomEyePoints)])])]
    (.ok (textResult E response), net)

/-- Lines 294 to 321 of `handleZoomEyeSearch`: the parameters handed to
`client.Search`, the defaults overwritten by the optional arguments. `Facets` is not
set in the literal and starts empty. -/
def handleZoomEyeSearch.params (qbase64 : String) (args : Object) : SearchParams :=
  let params : SearchParams :=
    { QBase64 := qbase64, Page := 1, PageSize := 10, SubType := "v4",
      Fields := "ip,port,domain,update_time", IgnoreCache := false, Facets := "" }
  let params := match assertFloat64 (Object.get args "page") with
    | some page => { params with Page := goInt page }
    | none => params
  let params := match assertFloat64 (Object.get args "pagesize") with
    | some pagesize => { params with PageSize := goInt pagesize }
    | none => params
  let params := match assertString (Object.get args "fields") with
    | some fields => if fields ≠ "" then { params with Fields := fields } else params
    | none => params
  let params := match assertString (Object.get args "sub_type") with
    | some subType => if subType ≠ "" then { params with SubType := subType } else params
    | none => params
  let params := match assertString (Object.get args "facets") with
    | some facets => if facets ≠ "" then { params with Facets := facets } else params
    | none => params
  match assertBool (Object.get args "ignore_cache") with
    | some ignoreCache => { params with IgnoreCache := ignoreCache }
    | none => params

/-- The function `handleZoomEyeSearch`. -/
def handleZoomEyeSearch (E : Lib) (D : Decoders) (client : ZoomEyeClient) (args : Object)
    (net : Net) : Except String CallToolResult × Net :=
  match assertString (Object.get args "query") with
  | none => (.error "query参数是必需的", net)
  | some query =>
    if query = "" then (.error "query参数是必需的", net)
    else
      let qbase64 := E.base64 query
      let params := handleZoomEyeSearch.params qbase64 args
      match client.Search E D params net with
      | (.error err, net) => (.error err, net)
      | (.ok result, net) =>
        let response : Object :=
          [("success", .bool true), ("code", .num result.Code), ("message", .str result.Message),
           ("total", .num result.Total), ("query", .str result.Query),
           ("count", .num result.Data.length), ("data", .arr (result.Data.map Json.obj))]
        (.ok (textResult E response), net)

/-- The body of the loop of `main` (lines 70 to 224): one input line is read, and the
state after it is the network and the output written so far. -/
def main.iteration (E : Lib) (D : Decoders) (zoomeyeClient : ZoomEyeClient)
    (state : Net × List MCPResponse) (line : String) : Net × List MCPResponse :=
  let (net, encoder) := state
  match unmarshalRequest E line with
  | .error err => (net, sendError encoder .null (-32700) "Parse error" err)
  | .ok request =>
    let response : MCPResponse :=
      { JSONRPC := "2.0", ID := request.ID, Result := none, Error := none }
    if request.Method = "initialize" then
      (net, encoder ++
        [{ response with Result := some (.object (initializeResult "zoomeye-mcp")) }])
    else if request.Method = "tools/list" then
      (net, encoder ++ [{ response with Result := some (.tools tools) }])
    else if request.Method = "tools/call" then
      match unmarshalCall "CallToolRequest" "main.CallToolRequest" request.Params with
      | .error err => (net, sendError encoder request.ID (-32602) "Invalid params" err)
      | .ok callRequest =>
        if callRequest.Name = "zoomeye_userinfo" then
          finishCall encoder response (handleZoomEyeUserInfo E D zoomeyeClient net)
        else if callRequest.Name = "zoomeye_search" then
          finishCall encoder response
            (handleZoomEyeSearch E D zoomeyeClient callRequest.Arguments net)
        else
          (net, sendError encoder request.ID (-32601) "Method not found"
            ("Unknown tool: " ++ callRequest.Name))
    else
      (net, sendError encoder request.ID (-32601) "Method not found"
        ("Unknown method: " ++ request.Method))

/-- The loop of `main` over the lines standard input delivers (a failure of the
scanner itself ends the process and is not a line). Writing a response to standard
output is taken to succeed. -/
def main.loop (E : Lib) (D : Decoders) (zoomeyeClient : ZoomEyeClient)
    (state : Net × List MCPResponse) (lines : List String) : Net × List MCPResponse :=
  lines.foldl (main.iteration E D zoomeyeClient) state

/-- The function `main`: without the API key the process exits at once; otherwise it
serves the lines of standard input. -/
def main (E : Lib) (D : Decoders) (apiKey : String) (lines : List String) :
    Except String (Net × List MCPResponse) :=
  if apiKey = "" then .error "请设置环境变量 ZOOMEYE_API_KEY"
  else
    let zoomeyeClient := NewZoomEyeClient apiKey
    .ok (main.loop E D zoomeyeClient ({ sent := [] }, []) lines)

end zoomeye

/-! ## The loop body of both adapters, in one piece

`route` is the body of the loop with the server name, the catalogue, the decoder of
the payload and the dispatch table as parameters, and with the response returned
instead of appended to the output. The theorems below show that the loop body of each
adapter is `route` at its own parameters, and reason about `route`. -/

/-- The response `sendError` writes. -/
def errorResponse (id : Json) (code : Int) (message data : String) : MCPResponse :=
  { JSONRPC := "2.0", ID := id, Result := none,
    Error := some { Code := code, Message := if data ≠ "" then message ++ ": " ++ data
                                              else message } }

/-- The response of a branch that sets `response.Result`. -/
def resultResponse (id : Json) (v : ResultValue) : MCPResponse :=
  { JSONRPC := "2.0", ID := id, Result := some v, Error := none }

/-- The result the loop stores for a failed handler (lines 212 to 220). -/
def toolFailure (err : String) : CallToolResult :=
  { Content := [[("type", .str "text"), ("text", .str ("错误: " ++ err))]], IsError := true }

/-- The result the loop stores for the outcome of a handler. -/
def callResult : Except String CallToolResult → CallToolResult
  | .error err => toolFailure err
  | .ok result => result

/-- A tool handler with its client and decoders fixed. -/
abbrev Handler := Object → Net → Except String CallToolResult × Net

/-- The loop body with its parameters made explicit. -/
def route (E : Lib) (server : String) (catalogue : List Tool)
    (decodeCall : Option Json → Except String CallToolRequest)
    (dispatch : String → Option Handler) (net : Net) (line : String) : Net × MCPResponse :=
  match unmarshalRequest E line with
  | .error err => (net, errorResponse .null (-32700) "Parse error" err)
  | .ok request =>
    if request.Method = "initialize" then
      (net, resultResponse request.ID (.object (initializeResult server)))
    else if request.Method = "tools/list" then
      (net, resultResponse request.ID (.tools catalogue))
    else if request.Method = "tools/call" then
      match decodeCall request.Params with
      | .error err => (net, errorResponse request.ID (-32602) "Invalid params" err)
      | .ok callRequest =>
        match dispatch callRequest.Name with
        | some handler =>
          ((handler callRequest.Arguments net).2,
            resultResponse request.ID
              (.callToolResult (callResult (handler callRequest.Arguments net).1)))
        | none =>
          (net, errorResponse request.ID (-32601) "Method not found"
            ("Unknown tool: " ++ callRequest.Name))
    else
      (net, errorResponse request.ID (-32601) "Method not found"
        ("Unknown method: " ++ request.Method))

/-- The dispatch table of fofa-mcp (the switch of lines 199 to 209). -/
def fofa.dispatch (E : Lib) (D : fofa.Decoders) (fofaClient : fofa.FofaClient) :
    String → Option Handler := fun name =>
  if name = "fofa_search" then some (fofa.handleFofaSearch E D fofaClient)
  else if name = "fofa_stats" then some (fofa.handleFofaStats E D fofaClient)
  else if name = "fofa_host_info" then some (fofa.handleFofaHostInfo E fofaClient)
  else none

/-- The dispatch table of zoomeye-mcp (the switch of lines 195 to 203). -/
def zoomeye.dispatch (E : Lib) (D : zoomeye.Decoders) (zoomeyeClient : zoomeye.ZoomEyeClient) :
    String → Option Handler := fun name =>
  if name = "zoomeye_userinfo" then
    some (fun _ net => zoomeye.handleZoomEyeUserInfo E D zoomeyeClient net)
  else if name = "zoomeye_search" then some (zoomeye.handleZoomEyeSearch E D zoomeyeClient)
  else none

/-- The loop body of fofa-mcp as an instance of `route`. -/
def fofa.route (E : Lib) (D : fofa.Decoders) (fofaClient : fofa.FofaClient) :
    Net → String → Net × MCPResponse :=
  SecurityMCPHub.route E "fofa-mcp" fofa.tools (unmarshalCall "" fofa.callRequestType)
    (fofa.dispatch E D fofaClient)

/-- The loop body of zoomeye-mcp as an instance of `route`. -/
def zoomeye.route (E : Lib) (D : zoomeye.Decoders) (zoomeyeClient : zoomeye.ZoomEyeClient) :
    Net → String → Net × MCPResponse :=
  SecurityMCPHub.route E "zoomeye-mcp" zoomeye.tools
    (unmarshalCall "CallToolRequest" "main.CallToolRequest") (zoomeye.dispatch E D zoomeyeClient)

/-! ## What a response carries -/

/-- The response carries a result and no error object; the result encodes as a JSON
object with at least one member. -/
def MCPResponse.resultOnly (response : MCPResponse) : Prop :=
  response.Error = none
    ∧ ∃ (v : ResultValue) (m : Object), response.Result = some v ∧ v.toJson = .obj m ∧ m ≠ []

/-- The response carries an error object and no result. -/
def MCPResponse.errorOnly (response : MCPResponse) : Prop :=
  response.Result = none ∧ ∃ e : MCPError, response.Error = some e

/-! ## A small environment for the examples -/

/-- A request line: initialize with the integer id 7. -/
def exInitialize : String :=
  "\x7b\"jsonrpc\":\"2.0\",\"id\":7,\"method\":\"initialize\"\x7d"

/-- A request line: initialize with no id member. -/
def exInitializeNoId : String :=
  "\x7b\"jsonrpc\":\"2.0\",\"method\":\"initialize\"\x7d"

/-- A request line: the unknown method ping, with the string id "a". -/
def exPing : String :=
  "\x7b\"jsonrpc\":\"2.0\",\"id\":\"a\",\"method\":\"ping\"\x7d"

/-- A request line: tools/call of the unknown tool whois. -/
def exWhois : String :=
  "\x7b\"jsonrpc\":\"2.0\",\"id\":2,\"method\":\"tools/call\",\"params\":\x7b\"name\":\"whois\",\"arguments\":\x7b\x7d\x7d\x7d"

/-- A request line: tools/call of fofa_search with no arguments. -/
def exSearchNoQuery : String :=
  "\x7b\"jsonrpc\":\"2.0\",\"id\":3,\"method\":\"tools/call\",\"params\":\x7b\"name\":\"fofa_search\",\"arguments\":\x7b\x7d\x7d\x7d"

/-- A request line: tools/call of zoomeye_search with a query that is not a string. -/
def exZoomEyeNoQuery : String :=
  "\x7b\"jsonrpc\":\"2.0\",\"id\":4,\"method\":\"tools/call\",\"params\":\x7b\"name\":\"zoomeye_search\",\"arguments\":\x7b\"query\":5\x7d\x7d\x7d"

/-- A line that is not JSON: it ends inside the object. -/
def exBadLine : String := "\x7b\"jsonrpc\":"

/-- The JSON texts the example environment can read, each with its value. -/
def exTexts : List (String × Json) :=
  [ (exInitialize,
      .obj [("jsonrpc", .str "2.0"), ("id", .num 7), ("method", .str "initialize")]),
    (exInitializeNoId,
      .obj [("jsonrpc", .str "2.0"), ("method", .str "initialize")]),
    (exPing,
      .obj [("jsonrpc", .str "2.0"), ("id", .str "a"), ("method", .str "ping")]),
    (exWhois,
      .obj [("jsonrpc", .str "2.0"), ("id", .num 2), ("method", .str "tools/call"),
        ("params", .obj [("name", .str "whois"), ("arguments", .obj [])])]),
    (exSearchNoQuery,
      .obj [("jsonrpc", .str "2.0"), ("id", .num 3), ("method", .str "tools/call"),
        ("params", .obj [("name", .str "fofa_search"), ("arguments", .obj [])])]),
    (exZoomEyeNoQuery,
      .obj [("jsonrpc", .str "2.0"), ("id", .num 4), ("method", .str "tools/call"),
        ("params", .obj [("name", .str "zoomeye_search"),
          ("arguments", .obj [("query", .num 5)])])]) ]

/-- An environment for the examples: it reads the texts of `exTexts`, reports every
other text as cut short, and has no route to any provider. -/
def exLib : Lib :=
  { parse := fun s =>
      match exTexts.find? (fun kv => kv.1 = s) with
      | some kv => .ok kv.2
      | none => .error "unexpected end of JSON input"
    marshalIndent := fun _ => ""
    base64 := fun s => s
    queryEscape := fun s => s
    roundTrip := fun _ _ => .failure "no route to host" }

/-- Decoders for the examples: every provider body is reported as cut short. -/
def fofa.exDecoders : fofa.Decoders :=
  { search := fun _ => .error "unexpected end of JSON input"
    stats := fun _ => .error "unexpected end of JSON input" }

/-- Decoders for the examples: every provider body is reported as cut short. -/
def zoomeye.exDecoders : zoomeye.Decoders :=
  { userInfo := fun _ => .error "unexpected end of JSON input"
    search := fun _ => .error "unexpected end of JSON input" }

/-- A request line: tools/call of fofa_search with the query x. -/
def exSearchQuery : String :=
  "\x7b\"jsonrpc\":\"2.0\",\"id\":5,\"method\":\"tools/call\",\"params\":\x7b\"name\":\"fofa_search\",\"arguments\":\x7b\"query\":\"x\"\x7d\x7d\x7d"

/-- An environment for the examples: it reads the line `exSearchQuery` and the texts
of `exTexts`, and every provider answers status 503 with the body "busy". -/
def exLib503 : Lib :=
  { parse := fun s =>
      if s = exSearchQuery then
        .ok (.obj [("jsonrpc", .str "2.0"), ("id", .num 5), ("method", .str "tools/call"),
          ("params", .obj [("name", .str "fofa_search"),
            ("arguments", .obj [("query", .str "x")])])])
      else exLib.parse s
    marshalIndent := fun _ => ""
    base64 := fun s => s
    queryEscape := fun s => s
    roundTrip := fun _ _ => .response 503 "busy" }

/-- A request line: tools/list with the id 8. -/
def exToolsList : String :=
  "\x7b\"jsonrpc\":\"2.0\",\"id\":8,\"method\":\"tools/list\"\x7d"

/-- A request line: tools/call with no params member. -/
def exCallNoParams : String :=
  "\x7b\"jsonrpc\":\"2.0\",\"id\":6,\"method\":\"tools/call\"\x7d"

/-- The body of a host lookup: an address, a port list, and the two error fields. -/
def exHostBody : String :=
  "\x7b\"ip\":\"1.2.3.4\",\"error\":false,\"errmsg\":\"\",\"port\":[80,443]\x7d"

/-- An environment for the examples: it reads the lines `exToolsList` and
`exCallNoParams`, the body `exHostBody` and the texts of `exTexts`, and every provider
answers status 200 with the body `exHostBody`. -/
def exLib200 : Lib :=
  { parse := fun s =>
      if s = exToolsList then
        .ok (.obj [("jsonrpc", .str "2.0"), ("id", .num 8), ("method", .str "tools/list")])
      else if s = exCallNoParams then
        .ok (.obj [("jsonrpc", .str "2.0"), ("id", .num 6), ("method", .str "tools/call")])
      else if s = exHostBody then
        .ok (.obj [("ip", .str "1.2.3.4"), ("error", .bool false), ("errmsg", .str ""),
          ("port", .arr [.num 80, .num 443])])
      else exLib.parse s
    marshalIndent := fun _ => ""
    base64 := fun s => s
    queryEscape := fun s => s
    roundTrip := fun _ _ => .response 200 exHostBody }

/-- Lines 288 to 311 of `handleFofaSearch`: what the handler returns for the outcome
of `client.Search`. -/
def fofa.handleFofaSearch.finish (E : Lib)
    (outcome : Except String fofa.SearchResponse × Net) : Except String CallToolResult × Net :=
  match outcome with
  | (.error err, net) => (.error err, net)
  | (.ok result, net) =>
    let response : Object :=
      [("success", .bool true), ("query", .str result.Query), ("page", .num result.Page),
       ("size", .num result.Size), ("mode", .str result.Mode),
       ("total", .num result.Results.length),
       ("results", .arr (result.Results.map (fun row => .arr (row.map Json.str))))]
    (.ok (textResult E response), net)

/-- Lines 324 to 347 of `handleZoomEyeSearch`: what the handler returns for the
outcome of `client.Search`. -/
def zoomeye.handleZoomEyeSearch.finish (E : Lib)
    (outcome : Except String zoomeye.SearchResponse × Net) :
    Except String CallToolResult × Net :=
  match outcome with
  | (.error err, net) => (.error err, net)
  | (.ok result, net) =>
    let response : Object :=
      [("success", .bool true), ("code", .num result.Code), ("message", .str result.Message),
       ("total", .num result.Total), ("query", .str result.Query),
       ("count", .num result.Data.length), ("data", .arr (result.Data.map Json.obj))]
    (.ok (textResult E response), net)

/-- The cap of C17, in the words of the claim: 2000 when the lower-cased fields
contain "cert" or "banner", 10000 otherwise. -/
def fofa.sizeCap (fields : String) : Int :=
  if strings.Contains (strings.ToLower fields) "cert" = true
      ∨ strings.Contains (strings.ToLower fields) "banner" = true then 2000
  else 10000

/-! # Theorems -/

/-! ## Lemmas on the library functions -/

theorem startsWith_iff (s p : List Char) : strings.startsWith s p = true ↔ p <+: s := by
  induction p generalizing s with
  | nil => simp [strings.startsWith]
  | cons x xs ih =>
    cases s with
    | nil => simp [strings.startsWith]
    | cons c cs =>
      simp only [strings.startsWith, Bool.and_eq_true, beq_iff_eq, ih, List.cons_prefix_cons]
      constructor
      · rintro ⟨h1, h2⟩; exact ⟨h1.symm, h2⟩
      · rintro ⟨h1, h2⟩; exact ⟨h1.symm, h2⟩

theorem containsAt_iff (s sub : List Char) : strings.containsAt s sub = true ↔ sub <:+: s := by
  induction s with
  | nil =>
    simp only [strings.containsAt, startsWith_iff, List.prefix_nil, List.infix_nil]
  | cons c cs ih =>
    simp only [strings.containsAt, Bool.or_eq_true, startsWith_iff, ih, List.infix_cons_iff]

/-- The model of strings.Contains holds exactly when the characters of `substr` occur
in `s` as a contiguous block. -/
theorem Contains_iff (s substr : String) :
    strings.Contains s substr = true ↔ substr.data <:+: s.data :=
  containsAt_iff s.data substr.data

/-! ## Lemmas on the clients -/

namespace fofa

theorem Search_sent (E : Lib) (D : Decoders) (c : FofaClient) (params : QueryParams) (net : Net) :
    (FofaClient.Search E D c params net).2.sent
      = net.sent ++ [FofaClient.Search.request E c (FofaClient.Search.validate params)] := by
  unfold FofaClient.Search Net.Do
  simp only
  split
  · rfl
  · split
    · rfl
    · split <;> rfl

theorem handleFofaSearch_sent (E : Lib) (D : Decoders) (client : FofaClient) (args : Object)
    (net : Net) (query : String) (hq : assertString (Object.get args "query") = some query)
    (hne : query ≠ "") :
    (handleFofaSearch E D client args net).2.sent
      = net.sent ++ [FofaClient.Search.request E client
          (FofaClient.Search.validate (handleFofaSearch.params query args))] := by
  unfold handleFofaSearch
  rw [hq]
  simp only [hne, if_false]
  have h := Search_sent E D client (handleFofaSearch.params query args) net
  split
  · next err net1 heq => rw [heq] at h; exact h
  · next result net1 heq => rw [heq] at h; exact h

theorem request_size (E : Lib) (c : FofaClient) (params : QueryParams) :
    (FofaClient.Search.request E c params).queryValue "size" = some (Itoa params.Size) := by
  unfold FofaClient.Search.request HttpRequest.queryValue
  by_cases h1 : params.Full <;> by_cases h2 : params.IsDomain <;>
    simp [h1, h2, List.find?]

theorem request_page (E : Lib) (c : FofaClient) (params : QueryParams) :
    (FofaClient.Search.request E c params).queryValue "page" = some (Itoa params.Page) := by
  unfold FofaClient.Search.request HttpRequest.queryValue
  by_cases h1 : params.Full <;> by_cases h2 : params.IsDomain <;>
    simp [h1, h2, List.find?]

end fofa

namespace fofa

theorem validate_size_cert (params : QueryParams)
    (h : strings.Contains (strings.ToLower params.Fields) "cert" = true
      ∨ strings.Contains (strings.ToLower params.Fields) "banner" = true) :
    (FofaClient.Search.validate params).Size ≤ 2000
      ∧ (2000 < params.Size → (FofaClient.Search.validate params).Size = 2000) := by
  have hne : params.Fields ≠ "" := by
    intro h0
    rw [h0] at h
    revert h
    decide
  unfold FofaClient.Search.validate
  by_cases hp : params.Page < 1 <;> by_cases hs : params.Size < 1 <;>
    by_cases hbig : params.Size > 2000 <;>
    rcases h with h | h <;> simp [hp, hs, hbig, hne, h] <;> omega

end fofa

namespace fofa

theorem validate_size_plain (params : QueryParams)
    (hc : strings.Contains (strings.ToLower params.Fields) "cert" = false)
    (hb : strings.Contains (strings.ToLower params.Fields) "banner" = false) :
    (FofaClient.Search.validate params).Size ≤ 10000
      ∧ (10000 < params.Size → (FofaClient.Search.validate params).Size = 10000) := by
  unfold FofaClient.Search.validate
  by_cases hp : params.Page < 1 <;> by_cases hs : params.Size < 1 <;>
    by_cases hbig : params.Size > 10000 <;> by_cases hf : params.Fields = "" <;>
    simp [hp, hs, hbig, hf, hc, hb] <;> omega

theorem validate_size_floor (params : QueryParams) (h : params.Size < 1) :
    (FofaClient.Search.validate params).Size = 100 := by
  unfold FofaClient.Search.validate
  by_cases hp : params.Page < 1 <;> by_cases hf : params.Fields = "" <;>
    by_cases hc : strings.Contains (strings.ToLower params.Fields) "cert" = true <;>
    by_cases hb : strings.Contains (strings.ToLower params.Fields) "banner" = true <;>
    simp [hp, h, hf, hc, hb]

theorem validate_page (params : QueryParams) :
    (FofaClient.Search.validate params).Page = if params.Page < 1 then 1 else params.Page := by
  unfold FofaClient.Search.validate
  by_cases hp : params.Page < 1 <;> by_cases hs : params.Size < 1 <;>
    by_cases hf : params.Fields = "" <;>
    by_cases hc : strings.Contains (strings.ToLower params.Fields) "cert" = true <;>
    by_cases hb : strings.Contains (strings.ToLower params.Fields) "banner" = true <;>
    by_cases h1 : params.Size > 2000 <;> by_cases h2 : params.Size > 10000 <;>
    simp [hp, hs, hf, hc, hb, h1, h2]

theorem params_Page (query : String) (args : Object) :
    (handleFofaSearch.params query args).Page
      = match assertFloat64 (Object.get args "page") with
        | some page => goInt page
        | none => 1 := by
  unfold handleFofaSearch.params
  cases assertFloat64 (Object.get args "page") <;>
    cases assertFloat64 (Object.get args "size") <;>
    cases assertString (Object.get args "fields") <;>
    cases assertBool (Object.get args "full") <;>
    cases assertBool (Object.get args "is_domain") <;>
    simp <;> split <;> rfl

theorem params_Size (query : String) (args : Object) :
    (handleFofaSearch.params query args).Size
      = match assertFloat64 (Object.get args "size") with
        | some size => goInt size
        | none => 100 := by
  unfold handleFofaSearch.params
  cases assertFloat64 (Object.get args "page") <;>
    cases assertFloat64 (Object.get args "size") <;>
    cases assertString (Object.get args "fields") <;>
    cases assertBool (Object.get args "full") <;>
    cases assertBool (Object.get args "is_domain") <;>
    simp <;> split <;> rfl

end fofa

namespace zoomeye

theorem zoomeye_Search_sent (E : Lib) (D : Decoders) (c : ZoomEyeClient) (params : SearchParams)
    (net : Net) :
    (ZoomEyeClient.Search E D c params net).2.sent
      = net.sent ++ [ZoomEyeClient.Search.request c (ZoomEyeClient.Search.validate params)] := by
  unfold ZoomEyeClient.Search Net.Do
  simp only
  split
  · rfl
  · split
    · rfl
    · split <;> rfl

theorem handleZoomEyeSearch_sent (E : Lib) (D : Decoders) (client : ZoomEyeClient)
    (args : Object) (net : Net) (query : String)
    (hq : assertString (Object.get args "query") = some query) (hne : query ≠ "") :
    (handleZoomEyeSearch E D client args net).2.sent
      = net.sent ++ [ZoomEyeClient.Search.request client
          (ZoomEyeClient.Search.validate (handleZoomEyeSearch.params (E.base64 query) args))] := by
  unfold handleZoomEyeSearch
  rw [hq]
  simp only [hne, if_false]
  have h := zoomeye_Search_sent E D client (handleZoomEyeSearch.params (E.base64 query) args) net
  split
  · next err net1 heq => rw [heq] at h; exact h
  · next result net1 heq => rw [heq] at h; exact h

theorem zoomeye_request_page (c : ZoomEyeClient) (params : SearchParams) :
    (ZoomEyeClient.Search.request c params).bodyMember "page" = some (.num params.Page) := by
  unfold ZoomEyeClient.Search.request HttpRequest.bodyMember
  by_cases h1 : params.Fields = "" <;> by_cases h2 : params.SubType = "" <;>
    by_cases h3 : params.PageSize > 0 <;> by_cases h4 : params.Facets = "" <;>
    by_cases h5 : params.IgnoreCache <;>
    simp [h1, h2, h3, h4, h5, Object.get]

theorem request_pagesize (c : ZoomEyeClient) (params : SearchParams) (h3 : 0 < params.PageSize) :
    (ZoomEyeClient.Search.request c params).bodyMember "pagesize"
      = some (.num params.PageSize) := by
  unfold ZoomEyeClient.Search.request HttpRequest.bodyMember
  by_cases h1 : params.Fields = "" <;> by_cases h2 : params.SubType = "" <;>
    by_cases h4 : params.Facets = "" <;>
    by_cases h5 : params.IgnoreCache <;>
    simp [h1, h2, h3, h4, h5, Object.get]

theorem zoomeye_validate_page (params : SearchParams) :
    (ZoomEyeClient.Search.validate params).Page = if params.Page < 1 then 1 else params.Page := by
  unfold ZoomEyeClient.Search.validate
  by_cases hp : params.Page < 1 <;> by_cases hs : params.PageSize < 1 <;>
    by_cases hf : params.Fields = "" <;> by_cases ht : params.SubType = "" <;>
    by_cases h2 : params.PageSize > 10000 <;>
    simp [hp, hs, hf, ht, h2]

theorem validate_pagesize (params : SearchParams) :
    (ZoomEyeClient.Search.validate params).PageSize
      = if params.PageSize < 1 then 10
        else if params.PageSize > 10000 then 10000 else params.PageSize := by
  unfold ZoomEyeClient.Search.validate
  by_cases hp : params.Page < 1 <;> by_cases hs : params.PageSize < 1 <;>
    by_cases hf : params.Fields = "" <;> by_cases ht : params.SubType = "" <;>
    by_cases h2 : params.PageSize > 10000 <;>
    simp [hp, hs, hf, ht, h2]

theorem zoomeye_params_Page (qbase64 : String) (args : Object) :
    (handleZoomEyeSearch.params qbase64 args).Page
      = match assertFloat64 (Object.get args "page") with
        | some page => goInt page
        | none => 1 := by
  unfold handleZoomEyeSearch.params
  cases assertFloat64 (Object.get args "page") <;>
    cases assertFloat64 (Object.get args "pagesize") <;>
    cases assertString (Object.get args "fields") <;>
    cases assertString (Object.get args "sub_type") <;>
    cases assertString (Object.get args "facets") <;>
    cases assertBool (Object.get args "ignore_cache") <;>
    simp <;> repeat (split <;> try rfl)

theorem params_PageSize (qbase64 : String) (args : Object) :
    (handleZoomEyeSearch.params qbase64 args).PageSize
      = match assertFloat64 (Object.get args "pagesize") with
        | some pagesize => goInt pagesize
        | none => 10 := by
  unfold handleZoomEyeSearch.params
  cases assertFloat64 (Object.get args "page") <;>
    cases assertFloat64 (Object.get args "pagesize") <;>
    cases assertString (Object.get args "fields") <;>
    cases assertString (Object.get args "sub_type") <;>
    cases assertString (Object.get args "facets") <;>
    cases assertBool (Object.get args "ignore_cache") <;>
    simp <;> repeat (split <;> try rfl)

end zoomeye

/-! ## Lemmas on the conversion `int(f)` -/

/-- Within the range of `int` the conversion is the integer part. -/
theorem goInt_of_range (f : ℚ) (h1 : minInt ≤ truncate f) (h2 : truncate f ≤ maxInt) :
    goInt f = truncate f := by
  unfold goInt
  rw [if_pos ⟨h1, h2⟩]

/-- A value whose integer part is below 1 converts to an `int` below 1. -/
theorem goInt_lt_one (f : ℚ) (h : truncate f < 1) : goInt f < 1 := by
  unfold goInt
  split
  · exact h
  · decide

/-- A value whose integer part is at least 1 and fits `int` converts to it. -/
theorem goInt_of_pos (f : ℚ) (n : Int) (hn : 0 ≤ n) (h1 : n ≤ truncate f)
    (h2 : truncate f ≤ maxInt) : goInt f = truncate f := by
  apply goInt_of_range f _ h2
  have hmin : minInt ≤ 0 := by decide
  omega

/-! ## C1 to C4: the clamps of the search parameters -/

/-- C1, as stated, fails: the size 1e19 is greater than 2000, the fields "cert" contain
"cert", and the request carries size 100, not 2000 (the conversion `int(size)`
overflows to a negative `int`, which `Search` replaces by the default). -/
theorem fofa_search_size_cap_cert_banner_counterexample :
    strings.Contains (strings.ToLower "cert") "cert" = true
    ∧ 2000 < truncate 10000000000000000000
    ∧ ∃ req : HttpRequest,
        (fofa.handleFofaSearch exLib fofa.exDecoders (fofa.NewFofaClient "e" "k")
          [("query", .str "x"), ("size", .num 10000000000000000000), ("fields", .str "cert")]
          { sent := [] }).2.sent = [req]
        ∧ req.queryValue "size" = some "100"
        ∧ req.queryValue "size" ≠ some (Itoa 2000) :=
  ⟨by decide, by decide, _, rfl, by decide, by decide⟩

/-- C1, amended. A fofa_search call with a usable query whose effective fields (the
`Fields` handed to the client: the `fields` argument, or the default when it is
absent or empty), lower-cased, contain "cert" or "banner" is not rejected: exactly
one request goes to the provider, and the `size` it carries is at most 2000, and is
2000 whenever the requested size, as an integer within the range of `int`, is above
2000: whenever the `Size` handed to the client is, and so whenever the `size`
argument is a number whose integer part is above 2000 and fits `int`. -/
theorem fofa_search_size_cap_cert_banner (E : Lib) (D : fofa.Decoders)
    (client : fofa.FofaClient) (args : Object) (net : Net) (query : String)
    (hq : assertString (Object.get args "query") = some query) (hne : query ≠ "")
    (hcb : strings.Contains (strings.ToLower (fofa.handleFofaSearch.params query args).Fields)
          "cert" = true
      ∨ strings.Contains (strings.ToLower (fofa.handleFofaSearch.params query args).Fields)
          "banner" = true) :
    ∃ (req : HttpRequest) (size : Int),
      (fofa.handleFofaSearch E D client args net).2.sent = net.sent ++ [req]
      ∧ req.queryValue "size" = some (Itoa size)
      ∧ size ≤ 2000
      ∧ (2000 < (fofa.handleFofaSearch.params query args).Size → size = 2000)
      ∧ (∀ q : ℚ, assertFloat64 (Object.get args "size") = some q →
          2000 < truncate q → truncate q ≤ maxInt → size = 2000) := by
  have hv := fofa.validate_size_cert _ hcb
  refine ⟨_, _, fofa.handleFofaSearch_sent E D client args net query hq hne,
    fofa.request_size E client _, hv.1, hv.2, ?_⟩
  intro q hs hbig hrange
  apply hv.2
  rw [fofa.params_Size, hs]
  simp only
  rw [goInt_of_pos q 2000 (by decide) (by omega) hrange]
  exact hbig

/-- C1, amended, at size 10000 with fields "host,cert.sn" and at size 5000 with fields
"IP,Banner": the request carries size 2000. -/
theorem fofa_search_size_cap_cert_banner_witness :
    (∃ req : HttpRequest,
      (fofa.handleFofaSearch exLib fofa.exDecoders (fofa.NewFofaClient "e" "k")
        [("query", .str "x"), ("size", .num 10000), ("fields", .str "host,cert.sn")]
        { sent := [] }).2.sent = [] ++ [req]
      ∧ req.queryValue "size" = some (Itoa 2000))
    ∧ (∃ req : HttpRequest,
      (fofa.handleFofaSearch exLib fofa.exDecoders (fofa.NewFofaClient "e" "k")
        [("query", .str "x"), ("size", .num 5000), ("fields", .str "IP,Banner")]
        { sent := [] }).2.sent = [] ++ [req]
      ∧ req.queryValue "size" = some (Itoa 2000)) := by
  obtain ⟨req, size, h1, h2, _, _, h5⟩ :=
    fofa_search_size_cap_cert_banner exLib fofa.exDecoders (fofa.NewFofaClient "e" "k")
      [("query", .str "x"), ("size", .num 10000), ("fields", .str "host,cert.sn")]
      { sent := [] } "x" (by rfl) (by decide) (by decide)
  obtain ⟨req2, size2, k1, k2, _, _, k5⟩ :=
    fofa_search_size_cap_cert_banner exLib fofa.exDecoders (fofa.NewFofaClient "e" "k")
      [("query", .str "x"), ("size", .num 5000), ("fields", .str "IP,Banner")]
      { sent := [] } "x" (by rfl) (by decide) (by decide)
  exact ⟨⟨req, h1, by rw [h2, h5 10000 (by rfl) (by decide) (by decide)]⟩,
    ⟨req2, k1, by rw [k2, k5 5000 (by rfl) (by decide) (by decide)]⟩⟩

/-- C2, as stated, fails: the size 1e19 is greater than 10000, no `fields` argument is
given (the default holds neither "cert" nor "banner"), and the request carries size
100, not 10000 (the conversion `int(size)` overflows to a negative `int`, which
`Search` replaces by the default). -/
theorem fofa_search_size_cap_plain_counterexample :
    strings.Contains (strings.ToLower "host,ip,port,protocol") "cert" = false
    ∧ strings.Contains (strings.ToLower "host,ip,port,protocol") "banner" = false
    ∧ 10000 < truncate 10000000000000000000
    ∧ ∃ req : HttpRequest,
        (fofa.handleFofaSearch exLib fofa.exDecoders (fofa.NewFofaClient "e" "k")
          [("query", .str "x"), ("size", .num 10000000000000000000)]
          { sent := [] }).2.sent = [req]
        ∧ req.queryValue "fields" = some "host,ip,port,protocol"
        ∧ req.queryValue "size" = some "100"
        ∧ req.queryValue "size" ≠ some (Itoa 10000) :=
  ⟨by decide, by decide, by decide, _, rfl, by decide, by decide, by decide⟩

/-- C2, amended. A fofa_search call with a usable query whose effective fields (the
default "host,ip,port,protocol" when `fields` is absent or empty) contain neither
"cert" nor "banner" in any letter case sends exactly one request, whose size is at
most 10000 and is exactly 10000 whenever the requested size, as an integer within the
range of `int`, is above 10000: whenever the `Size` handed to the client is, and so
whenever the `size` argument is a number whose integer part is above 10000 and fits
`int`. -/
theorem fofa_search_size_cap_plain (E : Lib) (D : fofa.Decoders)
    (client : fofa.FofaClient) (args : Object) (net : Net) (query : String)
    (hq : assertString (Object.get args "query") = some query) (hne : query ≠ "")
    (hc : strings.Contains (strings.ToLower (fofa.handleFofaSearch.params query args).Fields)
          "cert" = false)
    (hb : strings.Contains (strings.ToLower (fofa.handleFofaSearch.params query args).Fields)
          "banner" = false) :
    ∃ (req : HttpRequest) (size : Int),
      (fofa.handleFofaSearch E D client args net).2.sent = net.sent ++ [req]
      ∧ req.queryValue "size" = some (Itoa size)
      ∧ size ≤ 10000
      ∧ (10000 < (fofa.handleFofaSearch.params query args).Size → size = 10000)
      ∧ (∀ q : ℚ, assertFloat64 (Object.get args "size") = some q →
          10000 < truncate q → truncate q ≤ maxInt → size = 10000) := by
  have hv := fofa.validate_size_plain _ hc hb
  refine ⟨_, _, fofa.handleFofaSearch_sent E D client args net query hq hne,
    fofa.request_size E client _, hv.1, hv.2, ?_⟩
  intro q hs hbig hrange
  apply hv.2
  rw [fofa.params_Size, hs]
  simp only
  rw [goInt_of_pos q 10000 (by decide) (by omega) hrange]
  exact hbig

/-- C2, amended, at size 50000 with no `fields` argument: the request carries size
10000. -/
theorem fofa_search_size_cap_plain_witness :
    ∃ req : HttpRequest,
      (fofa.handleFofaSearch exLib fofa.exDecoders (fofa.NewFofaClient "e" "k")
        [("query", .str "x"), ("size", .num 50000)] { sent := [] }).2.sent = [] ++ [req]
      ∧ req.queryValue "size" = some (Itoa 10000) := by
  obtain ⟨req, size, h1, h2, _, _, h5⟩ :=
    fofa_search_size_cap_plain exLib fofa.exDecoders (fofa.NewFofaClient "e" "k")
      [("query", .str "x"), ("size", .num 50000)] { sent := [] } "x" (by rfl) (by decide)
      (by decide) (by decide)
  exact ⟨req, h1, by rw [h2, h5 50000 (by rfl) (by decide) (by decide)]⟩

/-- C3, as stated, fails: with size 0 the fofa_search request carries size 100, not 1,
and with pagesize -5 the zoomeye_search request carries pagesize 10, not 1. -/
theorem result_count_floor_counterexample :
    (goInt 0 < 1
      ∧ ∃ req : HttpRequest,
          (fofa.handleFofaSearch exLib fofa.exDecoders (fofa.NewFofaClient "e" "k")
            [("query", .str "x"), ("size", .num 0)] { sent := [] }).2.sent = [req]
          ∧ req.queryValue "size" = some "100"
          ∧ req.queryValue "size" ≠ some (Itoa 1))
    ∧ (goInt (-5) < 1
      ∧ ∃ req : HttpRequest,
          (zoomeye.handleZoomEyeSearch exLib zoomeye.exDecoders (zoomeye.NewZoomEyeClient "k")
            [("query", .str "x"), ("pagesize", .num (-5))] { sent := [] }).2.sent = [req]
          ∧ req.bodyMember "pagesize" = some (.num 10)
          ∧ req.bodyMember "pagesize" ≠ some (.num 1)) := by
  refine ⟨⟨by decide, _, rfl, by decide, by decide⟩, ⟨by decide, _, rfl, rfl, ?_⟩⟩
  intro h
  have h2 : some (Json.num 10) = some (Json.num 1) := h
  injection h2 with h3
  injection h3 with h4
  norm_num at h4

/-- C3, amended. A search call with a usable query whose result-count argument
(`size` of fofa_search, `pagesize` of zoomeye_search) is a number that truncates to an
integer below 1 sends exactly one request, and that request carries the default of the
tool: size 100 for fofa_search, pagesize 10 for zoomeye_search. (The hypothesis is on
the `int` the argument converts to; by `goInt_lt_one` it holds of every number whose
integer part is below 1.) -/
theorem result_count_floor_is_default (E : Lib) (Df : fofa.Decoders) (Dz : zoomeye.Decoders)
    (cf : fofa.FofaClient) (cz : zoomeye.ZoomEyeClient) (args : Object) (net : Net)
    (query : String) (hq : assertString (Object.get args "query") = some query)
    (hne : query ≠ "") :
    (∀ q : ℚ, assertFloat64 (Object.get args "size") = some q → goInt q < 1 →
      ∃ req : HttpRequest,
        (fofa.handleFofaSearch E Df cf args net).2.sent = net.sent ++ [req]
        ∧ req.queryValue "size" = some (Itoa 100))
    ∧ (∀ q : ℚ, assertFloat64 (Object.get args "pagesize") = some q → goInt q < 1 →
      ∃ req : HttpRequest,
        (zoomeye.handleZoomEyeSearch E Dz cz args net).2.sent = net.sent ++ [req]
        ∧ req.bodyMember "pagesize" = some (.num 10)) := by
  constructor
  · intro q hs hlt
    refine ⟨_, fofa.handleFofaSearch_sent E Df cf args net query hq hne, ?_⟩
    rw [fofa.request_size, fofa.validate_size_floor]
    rw [fofa.params_Size, hs]
    exact hlt
  · intro q hs hlt
    refine ⟨_, zoomeye.handleZoomEyeSearch_sent E Dz cz args net query hq hne, ?_⟩
    have hsz : (zoomeye.ZoomEyeClient.Search.validate
        (zoomeye.handleZoomEyeSearch.params (E.base64 query) args)).PageSize = 10 := by
      rw [zoomeye.validate_pagesize, zoomeye.params_PageSize, hs]
      simp [hlt]
    rw [zoomeye.request_pagesize _ _ (by rw [hsz]; decide), hsz]
    rfl

/-- C3, amended, at size 0 and pagesize -5. -/
theorem result_count_floor_is_default_witness :
    (∃ req : HttpRequest,
        (fofa.handleFofaSearch exLib fofa.exDecoders (fofa.NewFofaClient "e" "k")
          [("query", .str "x"), ("size", .num 0), ("pagesize", .num (-5))]
          { sent := [] }).2.sent = [] ++ [req]
        ∧ req.queryValue "size" = some (Itoa 100))
    ∧ (∃ req : HttpRequest,
        (zoomeye.handleZoomEyeSearch exLib zoomeye.exDecoders (zoomeye.NewZoomEyeClient "k")
          [("query", .str "x"), ("size", .num 0), ("pagesize", .num (-5))]
          { sent := [] }).2.sent = [] ++ [req]
        ∧ req.bodyMember "pagesize" = some (.num 10)) :=
  have h := result_count_floor_is_default exLib fofa.exDecoders zoomeye.exDecoders
    (fofa.NewFofaClient "e" "k") (zoomeye.NewZoomEyeClient "k")
    [("query", .str "x"), ("size", .num 0), ("pagesize", .num (-5))] { sent := [] } "x"
    (by rfl) (by decide)
  ⟨h.1 0 (by rfl) (by decide), h.2 (-5) (by rfl) (by decide)⟩

/-- C4, as stated, fails: the page 1e19 is 1 or more, and both adapters send page 1,
not the page unchanged (the conversion `int(page)` overflows to a negative `int`,
which `Search` replaces by 1). -/
theorem page_floor_counterexample :
    1 ≤ truncate 10000000000000000000
    ∧ (∃ req : HttpRequest,
        (fofa.handleFofaSearch exLib fofa.exDecoders (fofa.NewFofaClient "e" "k")
          [("query", .str "x"), ("page", .num 10000000000000000000)]
          { sent := [] }).2.sent = [req]
        ∧ req.queryValue "page" = some "1"
        ∧ req.queryValue "page" ≠ some (Itoa (truncate 10000000000000000000)))
    ∧ (∃ req : HttpRequest,
        (zoomeye.handleZoomEyeSearch exLib zoomeye.exDecoders (zoomeye.NewZoomEyeClient "k")
          [("query", .str "x"), ("page", .num 10000000000000000000)]
          { sent := [] }).2.sent = [req]
        ∧ req.bodyMember "page" = some (.num 1)
        ∧ req.bodyMember "page" ≠ some (.num (truncate 10000000000000000000))) := by
  refine ⟨by decide, ⟨_, rfl, by decide, by decide⟩, ⟨_, rfl, rfl, ?_⟩⟩
  intro h
  have h2 : some (Json.num 1) = some (Json.num (truncate 10000000000000000000)) := h
  injection h2 with h3
  injection h3 with h4
  have h5 : truncate 10000000000000000000 = 10000000000000000000 := by decide
  rw [h5] at h4
  norm_num at h4

/-- C4, amended. A search call of either adapter with a usable query and a numeric
`page` argument sends exactly one request; when the integer part of the argument is
below 1 the request carries page 1, and when it is 1 or more and within the range of
`int` the request carries that integer unchanged. -/
theorem page_floor (E : Lib) (Df : fofa.Decoders) (Dz : zoomeye.Decoders)
    (cf : fofa.FofaClient) (cz : zoomeye.ZoomEyeClient) (args : Object) (net : Net)
    (query : String) (q : ℚ) (hq : assertString (Object.get args "query") = some query)
    (hne : query ≠ "") (hp : assertFloat64 (Object.get args "page") = some q) :
    ∃ reqf reqz : HttpRequest,
      (fofa.handleFofaSearch E Df cf args net).2.sent = net.sent ++ [reqf]
      ∧ (zoomeye.handleZoomEyeSearch E Dz cz args net).2.sent = net.sent ++ [reqz]
      ∧ (truncate q < 1 →
          reqf.queryValue "page" = some (Itoa 1) ∧ reqz.bodyMember "page" = some (.num 1))
      ∧ (1 ≤ truncate q → truncate q ≤ maxInt →
          reqf.queryValue "page" = some (Itoa (truncate q))
          ∧ reqz.bodyMember "page" = some (.num (truncate q))) := by
  refine ⟨_, _, fofa.handleFofaSearch_sent E Df cf args net query hq hne,
    zoomeye.handleZoomEyeSearch_sent E Dz cz args net query hq hne, ?_, ?_⟩
  · intro hlt
    have hlt1 := goInt_lt_one q hlt
    rw [fofa.request_page, zoomeye.zoomeye_request_page, fofa.validate_page,
      zoomeye.zoomeye_validate_page, fofa.params_Page, zoomeye.zoomeye_params_Page, hp]
    simp [hlt1]
  · intro hge hrange
    have heq := goInt_of_pos q 1 (by decide) hge hrange
    have hnot : ¬ truncate q < 1 := by omega
    rw [fofa.request_page, zoomeye.zoomeye_request_page, fofa.validate_page,
      zoomeye.zoomeye_validate_page, fofa.params_Page, zoomeye.zoomeye_params_Page, hp]
    simp [heq, hnot]

/-- C4, amended, at page 0 (sent as 1) and at page 3 (sent as 3). -/
theorem page_floor_witness :
    (∃ reqf reqz : HttpRequest,
      (fofa.handleFofaSearch exLib fofa.exDecoders (fofa.NewFofaClient "e" "k")
        [("query", .str "x"), ("page", .num 0)] { sent := [] }).2.sent = [] ++ [reqf]
      ∧ (zoomeye.handleZoomEyeSearch exLib zoomeye.exDecoders (zoomeye.NewZoomEyeClient "k")
        [("query", .str "x"), ("page", .num 0)] { sent := [] }).2.sent = [] ++ [reqz]
      ∧ reqf.queryValue "page" = some (Itoa 1) ∧ reqz.bodyMember "page" = some (.num 1))
    ∧ (∃ reqf reqz : HttpRequest,
      (fofa.handleFofaSearch exLib fofa.exDecoders (fofa.NewFofaClient "e" "k")
        [("query", .str "x"), ("page", .num 3)] { sent := [] }).2.sent = [] ++ [reqf]
      ∧ (zoomeye.handleZoomEyeSearch exLib zoomeye.exDecoders (zoomeye.NewZoomEyeClient "k")
        [("query", .str "x"), ("page", .num 3)] { sent := [] }).2.sent = [] ++ [reqz]
      ∧ reqf.queryValue "page" = some (Itoa 3)
      ∧ reqz.bodyMember "page" = some (.num (3 : Int))) := by
  obtain ⟨reqf, reqz, h1, h2, h3, _⟩ :=
    page_floor exLib fofa.exDecoders zoomeye.exDecoders
      (fofa.NewFofaClient "e" "k") (zoomeye.NewZoomEyeClient "k")
      [("query", .str "x"), ("page", .num 0)] { sent := [] } "x" 0 (by rfl) (by decide) (by rfl)
  obtain ⟨kf, kz, k1, k2, _, k4⟩ :=
    page_floor exLib fofa.exDecoders zoomeye.exDecoders
      (fofa.NewFofaClient "e" "k") (zoomeye.NewZoomEyeClient "k")
      [("query", .str "x"), ("page", .num 3)] { sent := [] } "x" 3 (by rfl) (by decide) (by rfl)
  exact ⟨⟨reqf, reqz, h1, h2, h3 (by decide)⟩,
    ⟨kf, kz, k1, k2, k4 (by decide) (by decide)⟩⟩

/-! ## The loop bodies are instances of `route` -/

theorem sendError_eq (encoder : List MCPResponse) (id : Json) (code : Int)
    (message data : String) :
    sendError encoder id code message data = encoder ++ [errorResponse id code message data] := by
  unfold sendError errorResponse
  by_cases h : data = "" <;> simp [h]

theorem finishCall_eq (encoder : List MCPResponse) (id : Json)
    (outcome : Except String CallToolResult × Net) :
    finishCall encoder { JSONRPC := "2.0", ID := id, Result := none, Error := none } outcome
      = (outcome.2, encoder ++ [resultResponse id (.callToolResult (callResult outcome.1))]) := by
  unfold finishCall resultResponse callResult toolFailure
  rcases outcome with ⟨o, n⟩
  cases o <;> rfl

theorem fofa.iteration_eq_route (E : Lib) (D : fofa.Decoders) (c : fofa.FofaClient)
    (net : Net) (encoder : List MCPResponse) (line : String) :
    fofa.main.iteration E D c (net, encoder) line
      = ((fofa.route E D c net line).1, encoder ++ [(fofa.route E D c net line).2]) := by
  unfold fofa.main.iteration fofa.route SecurityMCPHub.route fofa.dispatch
  simp only [sendError_eq, finishCall_eq]
  split
  · rfl
  · split
    · rfl
    · split
      · rfl
      · split
        · split
          · rfl
          · split
            · simp [*]
            · split
              · simp [*]
              · split
                · simp [*]
                · simp [*]
        · rfl

theorem zoomeye.zoomeye_iteration_eq_route (E : Lib) (D : zoomeye.Decoders) (c : zoomeye.ZoomEyeClient)
    (net : Net) (encoder : List MCPResponse) (line : String) :
    zoomeye.main.iteration E D c (net, encoder) line
      = ((zoomeye.route E D c net line).1, encoder ++ [(zoomeye.route E D c net line).2]) := by
  unfold zoomeye.main.iteration zoomeye.route SecurityMCPHub.route zoomeye.dispatch
  simp only [sendError_eq, finishCall_eq]
  split
  · rfl
  · split
    · rfl
    · split
      · rfl
      · split
        · split
          · rfl
          · split
            · simp [*]
            · split
              · simp [*]
              · simp [*]
        · rfl

/-! ## Lemmas on `route` -/

section Route

variable (E : Lib) (server : String) (catalogue : List Tool)
  (decodeCall : Option Json → Except String CallToolRequest)
  (dispatch : String → Option Handler) (net : Net) (line : String)

theorem route_parse_failure (err : String) (h : unmarshalRequest E line = .error err) :
    route E server catalogue decodeCall dispatch net line
      = (net, errorResponse .null (-32700) "Parse error" err) := by
  unfold route
  rw [h]

theorem route_id (request : MCPRequest) (h : unmarshalRequest E line = .ok request) :
    (route E server catalogue decodeCall dispatch net line).2.ID = request.ID := by
  unfold route
  rw [h]
  simp only
  split
  · rfl
  · split
    · rfl
    · split
      · split
        · rfl
        · split <;> rfl
      · rfl

theorem route_unknown_method (request : MCPRequest) (h : unmarshalRequest E line = .ok request)
    (h1 : request.Method ≠ "initialize") (h2 : request.Method ≠ "tools/list")
    (h3 : request.Method ≠ "tools/call") :
    route E server catalogue decodeCall dispatch net line
      = (net, errorResponse request.ID (-32601) "Method not found"
          ("Unknown method: " ++ request.Method)) := by
  unfold route
  rw [h]
  simp [h1, h2, h3]

theorem route_call (request : MCPRequest) (call : CallToolRequest)
    (h : unmarshalRequest E line = .ok request) (hm : request.Method = "tools/call")
    (hc : decodeCall request.Params = .ok call) :
    route E server catalogue decodeCall dispatch net line
      = match dispatch call.Name with
        | some handler =>
          ((handler call.Arguments net).2,
            resultResponse request.ID
              (.callToolResult (callResult (handler call.Arguments net).1)))
        | none =>
          (net, errorResponse request.ID (-32601) "Method not found"
            ("Unknown tool: " ++ call.Name)) := by
  unfold route
  rw [h]
  simp only [hm, hc]
  simp

end Route

/-! ## Lemmas on the loops -/

theorem fofa.loop_encoder (E : Lib) (D : fofa.Decoders) (c : fofa.FofaClient)
    (lines : List String) (net : Net) (encoder : List MCPResponse) :
    fofa.main.loop E D c (net, encoder) lines
      = ((fofa.main.loop E D c (net, []) lines).1,
          encoder ++ (fofa.main.loop E D c (net, []) lines).2) := by
  induction lines generalizing net encoder with
  | nil => simp [fofa.main.loop]
  | cons line rest ih =>
    have hstep : ∀ enc, fofa.main.loop E D c (net, enc) (line :: rest)
        = fofa.main.loop E D c ((fofa.route E D c net line).1,
            enc ++ [(fofa.route E D c net line).2]) rest := by
      intro enc
      show List.foldl _ _ _ = List.foldl _ _ _
      rw [List.foldl_cons, fofa.iteration_eq_route]
    rw [hstep encoder, hstep [], ih _ (encoder ++ _), ih _ ([] ++ _)]
    simp

theorem zoomeye.zoomeye_loop_encoder (E : Lib) (D : zoomeye.Decoders) (c : zoomeye.ZoomEyeClient)
    (lines : List String) (net : Net) (encoder : List MCPResponse) :
    zoomeye.main.loop E D c (net, encoder) lines
      = ((zoomeye.main.loop E D c (net, []) lines).1,
          encoder ++ (zoomeye.main.loop E D c (net, []) lines).2) := by
  induction lines generalizing net encoder with
  | nil => simp [zoomeye.main.loop]
  | cons line rest ih =>
    have hstep : ∀ enc, zoomeye.main.loop E D c (net, enc) (line :: rest)
        = zoomeye.main.loop E D c ((zoomeye.route E D c net line).1,
            enc ++ [(zoomeye.route E D c net line).2]) rest := by
      intro enc
      show List.foldl _ _ _ = List.foldl _ _ _
      rw [List.foldl_cons, zoomeye.zoomeye_iteration_eq_route]
    rw [hstep encoder, hstep [], ih _ (encoder ++ _), ih _ ([] ++ _)]
    simp

/-! ## C5: the required argument -/

theorem assertString_eq_some (o : Option Json) (s : String) (h : assertString o = some s) :
    o = some (.str s) := by
  unfold assertString at h
  split at h
  · injection h with h; rw [h]
  · cases h

theorem fofa.handleFofaSearch_missing (E : Lib) (D : fofa.Decoders) (c : fofa.FofaClient)
    (args : Object) (net : Net)
    (h : ∀ s, Object.get args "query" = some (.str s) → s = "") :
    fofa.handleFofaSearch E D c args net = (.error "query参数是必需的", net) := by
  unfold fofa.handleFofaSearch
  split
  · rfl
  · next query hq => rw [if_pos (h query (assertString_eq_some _ _ hq))]

theorem fofa.handleFofaStats_missing (E : Lib) (D : fofa.Decoders) (c : fofa.FofaClient)
    (args : Object) (net : Net)
    (h : ∀ s, Object.get args "query" = some (.str s) → s = "") :
    fofa.handleFofaStats E D c args net = (.error "query参数是必需的", net) := by
  unfold fofa.handleFofaStats
  split
  · rfl
  · next query hq => rw [if_pos (h query (assertString_eq_some _ _ hq))]

theorem fofa.handleFofaHostInfo_missing (E : Lib) (c : fofa.FofaClient)
    (args : Object) (net : Net)
    (h : ∀ s, Object.get args "host" = some (.str s) → s = "") :
    fofa.handleFofaHostInfo E c args net = (.error "host参数是必需的", net) := by
  unfold fofa.handleFofaHostInfo
  split
  · rfl
  · next host hq => rw [if_pos (h host (assertString_eq_some _ _ hq))]

theorem zoomeye.handleZoomEyeSearch_missing (E : Lib) (D : zoomeye.Decoders)
    (c : zoomeye.ZoomEyeClient) (args : Object) (net : Net)
    (h : ∀ s, Object.get args "query" = some (.str s) → s = "") :
    zoomeye.handleZoomEyeSearch E D c args net = (.error "query参数是必需的", net) := by
  unfold zoomeye.handleZoomEyeSearch
  split
  · rfl
  · next query hq => rw [if_pos (h query (assertString_eq_some _ _ hq))]

/-- C5. Take a request line that decodes to a tools/call whose payload decodes to a
call of a tool with a required string argument (`query` for fofa_search, fofa_stats
and zoomeye_search, `host` for fofa_host_info). When the argument mapping (the nil
mapping included) holds no non-empty string under that key, the handler returns its
failure with the network untouched, so no request is issued, the network after the
line is the network before it, and the one response written has no error object and
a result whose error flag is true. -/
theorem required_argument_check (E : Lib) (Df : fofa.Decoders) (Dz : zoomeye.Decoders)
    (cf : fofa.FofaClient) (cz : zoomeye.ZoomEyeClient) (net : Net)
    (encoder : List MCPResponse) (line : String) (request : MCPRequest)
    (call : CallToolRequest) (tool key : String)
    (hreq : unmarshalRequest E line = .ok request) (hm : request.Method = "tools/call")
    (hname : call.Name = tool)
    (hmiss : ∀ s, Object.get call.Arguments key = some (.str s) → s = "") :
    (unmarshalCall "" fofa.callRequestType request.Params = .ok call →
      (tool, key) ∈ [("fofa_search", "query"), ("fofa_stats", "query"),
        ("fofa_host_info", "host")] →
      ∃ (handler : Handler) (err : String) (result : CallToolResult) (resp : MCPResponse),
        fofa.dispatch E Df cf tool = some handler
        ∧ handler call.Arguments net = (.error err, net)
        ∧ fofa.main.iteration E Df cf (net, encoder) line = (net, encoder ++ [resp])
        ∧ resp.Error = none ∧ resp.Result = some (.callToolResult result)
        ∧ result.IsError = true ∧ Object.get resp.encode "error" = none)
    ∧ (unmarshalCall "CallToolRequest" "main.CallToolRequest" request.Params = .ok call →
      (tool, key) = ("zoomeye_search", "query") →
      ∃ (handler : Handler) (err : String) (result : CallToolResult) (resp : MCPResponse),
        zoomeye.dispatch E Dz cz tool = some handler
        ∧ handler call.Arguments net = (.error err, net)
        ∧ zoomeye.main.iteration E Dz cz (net, encoder) line = (net, encoder ++ [resp])
        ∧ resp.Error = none ∧ resp.Result = some (.callToolResult result)
        ∧ result.IsError = true ∧ Object.get resp.encode "error" = none) := by
  constructor
  · intro hcall hmem
    have hroute := route_call E "fofa-mcp" fofa.tools (unmarshalCall "" fofa.callRequestType)
      (fofa.dispatch E Df cf) net line request call hreq hm hcall
    simp only [List.mem_cons, Prod.mk.injEq, List.mem_singleton, List.not_mem_nil,
      or_false] at hmem
    rw [fofa.iteration_eq_route]
    unfold fofa.route
    rw [hroute, hname]
    rcases hmem with ⟨ht, hk⟩ | ⟨ht, hk⟩ | ⟨ht, hk⟩ <;> subst ht <;> subst hk
    · refine ⟨fofa.handleFofaSearch E Df cf, "query参数是必需的",
        toolFailure "query参数是必需的", resultResponse request.ID (.callToolResult
          (toolFailure "query参数是必需的")), by simp [fofa.dispatch],
        fofa.handleFofaSearch_missing E Df cf _ net hmiss, ?_, rfl, rfl, rfl, rfl⟩
      simp [fofa.dispatch, fofa.handleFofaSearch_missing E Df cf _ net hmiss, callResult]
    · refine ⟨fofa.handleFofaStats E Df cf, "query参数是必需的",
        toolFailure "query参数是必需的", resultResponse request.ID (.callToolResult
          (toolFailure "query参数是必需的")), by simp [fofa.dispatch],
        fofa.handleFofaStats_missing E Df cf _ net hmiss, ?_, rfl, rfl, rfl, rfl⟩
      simp [fofa.dispatch, fofa.handleFofaStats_missing E Df cf _ net hmiss, callResult]
    · refine ⟨fofa.handleFofaHostInfo E cf, "host参数是必需的",
        toolFailure "host参数是必需的", resultResponse request.ID (.callToolResult
          (toolFailure "host参数是必需的")), by simp [fofa.dispatch],
        fofa.handleFofaHostInfo_missing E cf _ net hmiss, ?_, rfl, rfl, rfl, rfl⟩
      simp [fofa.dispatch, fofa.handleFofaHostInfo_missing E cf _ net hmiss, callResult]
  · intro hcall hmem
    have hroute := route_call E "zoomeye-mcp" zoomeye.tools
      (unmarshalCall "CallToolRequest" "main.CallToolRequest")
      (zoomeye.dispatch E Dz cz) net line request call hreq hm hcall
    simp only [Prod.mk.injEq] at hmem
    rw [zoomeye.zoomeye_iteration_eq_route]
    unfold zoomeye.route
    rw [hroute, hname]
    rcases hmem with ⟨ht, hk⟩
    subst ht; subst hk
    refine ⟨zoomeye.handleZoomEyeSearch E Dz cz, "query参数是必需的",
      toolFailure "query参数是必需的", resultResponse request.ID (.callToolResult
        (toolFailure "query参数是必需的")), by simp [zoomeye.dispatch],
      zoomeye.handleZoomEyeSearch_missing E Dz cz _ net hmiss, ?_, rfl, rfl, rfl, rfl⟩
    simp [zoomeye.dispatch, zoomeye.handleZoomEyeSearch_missing E Dz cz _ net hmiss,
      callResult]

/-- C5, at a fofa_search call with an empty argument mapping and at a zoomeye_search
call whose query is the number 5: no request is issued and the response is a result
with the error flag. -/
theorem required_argument_check_witness :
    (∃ (handler : Handler) (err : String) (result : CallToolResult) (resp : MCPResponse),
      fofa.dispatch exLib fofa.exDecoders (fofa.NewFofaClient "e" "k") "fofa_search"
        = some handler
      ∧ handler [] { sent := [] } = (.error err, { sent := [] })
      ∧ fofa.main.iteration exLib fofa.exDecoders (fofa.NewFofaClient "e" "k")
          ({ sent := [] }, []) exSearchNoQuery = ({ sent := [] }, [] ++ [resp])
      ∧ resp.Error = none ∧ resp.Result = some (.callToolResult result)
      ∧ result.IsError = true ∧ Object.get resp.encode "error" = none)
    ∧ (∃ (handler : Handler) (err : String) (result : CallToolResult) (resp : MCPResponse),
      zoomeye.dispatch exLib zoomeye.exDecoders (zoomeye.NewZoomEyeClient "k") "zoomeye_search"
        = some handler
      ∧ handler [("query", .num 5)] { sent := [] } = (.error err, { sent := [] })
      ∧ zoomeye.main.iteration exLib zoomeye.exDecoders (zoomeye.NewZoomEyeClient "k")
          ({ sent := [] }, []) exZoomEyeNoQuery = ({ sent := [] }, [] ++ [resp])
      ∧ resp.Error = none ∧ resp.Result = some (.callToolResult result)
      ∧ result.IsError = true ∧ Object.get resp.encode "error" = none) :=
  ⟨(required_argument_check exLib fofa.exDecoders zoomeye.exDecoders
      (fofa.NewFofaClient "e" "k") (zoomeye.NewZoomEyeClient "k") { sent := [] } []
      exSearchNoQuery
      { JSONRPC := "2.0", ID := .num 3, Method := "tools/call",
        Params := some (.obj [("name", .str "fofa_search"), ("arguments", .obj [])]) }
      { Name := "fofa_search", Arguments := [] } "fofa_search" "query"
      (by rfl) (by rfl) (by rfl) (fun _ h => nomatch h)).1 (by rfl) (by simp),
   (required_argument_check exLib fofa.exDecoders zoomeye.exDecoders
      (fofa.NewFofaClient "e" "k") (zoomeye.NewZoomEyeClient "k") { sent := [] } []
      exZoomEyeNoQuery
      { JSONRPC := "2.0", ID := .num 4, Method := "tools/call",
        Params := some (.obj [("name", .str "zoomeye_search"),
          ("arguments", .obj [("query", .num 5)])]) }
      { Name := "zoomeye_search", Arguments := [("query", .num 5)] } "zoomeye_search" "query"
      (by rfl) (by rfl) (by rfl)
      (fun _ h => nomatch (show some (Json.num 5) = some (Json.str _) from h))).2
      (by rfl) (by rfl)⟩

/-! ## C6 and C7: the identifier -/

theorem setMember_id (request request1 : MCPRequest) (key : String) (v : Json)
    (hkey : keyIs key "id" = false)
    (h : MCPRequest.setMember request key v = .ok request1) : request1.ID = request.ID := by
  unfold MCPRequest.setMember at h
  simp only [hkey, Bool.false_eq_true, if_false] at h
  split at h
  · split at h
    · cases h
    · injection h with h; rw [← h]
  · split at h
    · split at h
      · cases h
      · injection h with h; rw [← h]
    · split at h
      · injection h with h; rw [← h]
      · injection h with h; rw [← h]

theorem unmarshalMembers_id (kvs : List (String × Json)) (request request1 : MCPRequest)
    (hno : ∀ kv ∈ kvs, keyIs kv.1 "id" = false)
    (h : unmarshalMembers MCPRequest.setMember request kvs = .ok request1) :
    request1.ID = request.ID := by
  induction kvs generalizing request with
  | nil =>
    unfold unmarshalMembers at h
    injection h with h; rw [h]
  | cons kv rest ih =>
    obtain ⟨k, v⟩ := kv
    unfold unmarshalMembers at h
    split at h
    · cases h
    · next r2 hset =>
      have h1 := ih r2 (fun kv hkv => hno kv (List.mem_cons_of_mem _ hkv)) h
      have h2 := setMember_id request r2 k v (hno (k, v) (List.mem_cons_self _ _)) hset
      rw [h1, h2]

/-- A line whose JSON value has no member that selects the field `id` decodes to a
request with a nil identifier. -/
theorem unmarshalRequest_no_id (E : Lib) (line : String) (v : Json) (request : MCPRequest)
    (hparse : E.parse line = .ok v)
    (hno : ∀ kvs, v = .obj kvs → ∀ kv ∈ kvs, keyIs kv.1 "id" = false)
    (h : unmarshalRequest E line = .ok request) : request.ID = .null := by
  unfold unmarshalRequest at h
  rw [hparse] at h
  cases v with
  | null => simp only at h; injection h with h; rw [← h]
  | obj kvs => exact unmarshalMembers_id kvs _ request (hno kvs rfl) h
  | bool b => cases h
  | num q => cases h
  | str s => cases h
  | arr xs => cases h

/-- The encoded response always has the member `id`, holding the identifier. -/
theorem encode_id (response : MCPResponse) :
    Object.get response.encode "id" = some response.ID := by
  unfold MCPResponse.encode
  cases response.Result <;> cases response.Error <;> simp [Object.get]

theorem encode_result (response : MCPResponse) :
    Object.get response.encode "result" = response.Result.map ResultValue.toJson := by
  unfold MCPResponse.encode
  cases response.Result <;> cases response.Error <;> simp [Object.get]

theorem encode_error (response : MCPResponse) :
    (Object.get response.encode "error").isSome = response.Error.isSome := by
  unfold MCPResponse.encode
  cases response.Result <;> cases response.Error <;> simp [Object.get]

/-- In either adapter the loop body writes one response per decoded line, carrying
the identifier of the request. -/
theorem iteration_id (E : Lib) (Df : fofa.Decoders) (Dz : zoomeye.Decoders)
    (cf : fofa.FofaClient) (cz : zoomeye.ZoomEyeClient) (net : Net)
    (encoder : List MCPResponse) (line : String) (request : MCPRequest)
    (hreq : unmarshalRequest E line = .ok request) :
    (∃ (net1 : Net) (resp : MCPResponse),
      fofa.main.iteration E Df cf (net, encoder) line = (net1, encoder ++ [resp])
      ∧ resp.ID = request.ID ∧ Object.get resp.encode "id" = some request.ID)
    ∧ (∃ (net1 : Net) (resp : MCPResponse),
      zoomeye.main.iteration E Dz cz (net, encoder) line = (net1, encoder ++ [resp])
      ∧ resp.ID = request.ID ∧ Object.get resp.encode "id" = some request.ID) := by
  constructor
  · refine ⟨_, _, fofa.iteration_eq_route E Df cf net encoder line, ?_, ?_⟩
    · exact route_id E _ _ _ _ net line request hreq
    · rw [encode_id]
      exact congrArg some (route_id E _ _ _ _ net line request hreq)
  · refine ⟨_, _, zoomeye.zoomeye_iteration_eq_route E Dz cz net encoder line, ?_, ?_⟩
    · exact route_id E _ _ _ _ net line request hreq
    · rw [encode_id]
      exact congrArg some (route_id E _ _ _ _ net line request hreq)

/-- C6. For every request line that decodes, in either adapter and whichever branch
the loop body takes, exactly one response is written and its identifier is the
identifier of the request, in the struct and in the encoded line. -/
theorem identifier_echo (E : Lib) (Df : fofa.Decoders) (Dz : zoomeye.Decoders)
    (cf : fofa.FofaClient) (cz : zoomeye.ZoomEyeClient) (net : Net)
    (encoder : List MCPResponse) (line : String) (request : MCPRequest)
    (hreq : unmarshalRequest E line = .ok request) :
    (∃ (net1 : Net) (resp : MCPResponse),
      fofa.main.iteration E Df cf (net, encoder) line = (net1, encoder ++ [resp])
      ∧ resp.ID = request.ID ∧ Object.get resp.encode "id" = some request.ID)
    ∧ (∃ (net1 : Net) (resp : MCPResponse),
      zoomeye.main.iteration E Dz cz (net, encoder) line = (net1, encoder ++ [resp])
      ∧ resp.ID = request.ID ∧ Object.get resp.encode "id" = some request.ID) :=
  iteration_id E Df Dz cf cz net encoder line request hreq

/-- C6, at an initialize request with the integer id 7 and at a request of an unknown
method with the string id "a": the responses carry 7 and "a". -/
theorem identifier_echo_witness :
    (∃ (net1 : Net) (resp : MCPResponse),
      fofa.main.iteration exLib fofa.exDecoders (fofa.NewFofaClient "e" "k")
        ({ sent := [] }, []) exInitialize = (net1, [] ++ [resp])
      ∧ resp.ID = .num 7 ∧ Object.get resp.encode "id" = some (.num 7))
    ∧ (∃ (net1 : Net) (resp : MCPResponse),
      zoomeye.main.iteration exLib zoomeye.exDecoders (zoomeye.NewZoomEyeClient "k")
        ({ sent := [] }, []) exPing = (net1, [] ++ [resp])
      ∧ resp.ID = .str "a" ∧ Object.get resp.encode "id" = some (.str "a")) :=
  ⟨(identifier_echo exLib fofa.exDecoders zoomeye.exDecoders (fofa.NewFofaClient "e" "k")
      (zoomeye.NewZoomEyeClient "k") { sent := [] } [] exInitialize
      { JSONRPC := "2.0", ID := .num 7, Method := "initialize", Params := none } (by rfl)).1,
   (identifier_echo exLib fofa.exDecoders zoomeye.exDecoders (fofa.NewFofaClient "e" "k")
      (zoomeye.NewZoomEyeClient "k") { sent := [] } [] exPing
      { JSONRPC := "2.0", ID := .str "a", Method := "ping", Params := none } (by rfl)).2⟩

/-- C7, as stated, fails: the line of `exInitializeNoId` is a JSON object with the
members jsonrpc and method only, it decodes, and the one response written for it
encodes with a member `id` (holding null), not without one. -/
theorem absent_id_counterexample :
    exLib.parse exInitializeNoId
        = .ok (.obj [("jsonrpc", .str "2.0"), ("method", .str "initialize")])
    ∧ unmarshalRequest exLib exInitializeNoId
        = .ok { JSONRPC := "2.0", ID := .null, Method := "initialize", Params := none }
    ∧ ∃ resp : MCPResponse,
        fofa.main.iteration exLib fofa.exDecoders (fofa.NewFofaClient "e" "k")
          ({ sent := [] }, []) exInitializeNoId = ({ sent := [] }, [resp])
        ∧ Object.get resp.encode "id" = some .null
        ∧ Object.get resp.encode "id" ≠ none :=
  ⟨rfl, rfl, _, rfl, rfl, fun h => nomatch h⟩

/-- C7, amended. For every request line that decodes and whose JSON value has no
member naming the field `id` (in any letter case, as the decoder matches names), the
one response written, in either adapter, encodes with a member `id` whose value is
null: the identifier is present on the wire and null, not absent. -/
theorem absent_id_is_null (E : Lib) (Df : fofa.Decoders) (Dz : zoomeye.Decoders)
    (cf : fofa.FofaClient) (cz : zoomeye.ZoomEyeClient) (net : Net)
    (encoder : List MCPResponse) (line : String) (v : Json) (request : MCPRequest)
    (hparse : E.parse line = .ok v)
    (hno : ∀ kvs, v = .obj kvs → ∀ kv ∈ kvs, keyIs kv.1 "id" = false)
    (hreq : unmarshalRequest E line = .ok request) :
    (∃ (net1 : Net) (resp : MCPResponse),
      fofa.main.iteration E Df cf (net, encoder) line = (net1, encoder ++ [resp])
      ∧ Object.get resp.encode "id" = some .null)
    ∧ (∃ (net1 : Net) (resp : MCPResponse),
      zoomeye.main.iteration E Dz cz (net, encoder) line = (net1, encoder ++ [resp])
      ∧ Object.get resp.encode "id" = some .null) := by
  have hid := unmarshalRequest_no_id E line v request hparse hno hreq
  obtain ⟨⟨n1, r1, h1, _, h1id⟩, ⟨n2, r2, h2, _, h2id⟩⟩ :=
    iteration_id E Df Dz cf cz net encoder line request hreq
  rw [hid] at h1id h2id
  exact ⟨⟨n1, r1, h1, h1id⟩, ⟨n2, r2, h2, h2id⟩⟩

/-- C7, amended, at the initialize request with no id member. -/
theorem absent_id_is_null_witness :
    (∃ (net1 : Net) (resp : MCPResponse),
      fofa.main.iteration exLib fofa.exDecoders (fofa.NewFofaClient "e" "k")
        ({ sent := [] }, []) exInitializeNoId = (net1, [] ++ [resp])
      ∧ Object.get resp.encode "id" = some .null)
    ∧ (∃ (net1 : Net) (resp : MCPResponse),
      zoomeye.main.iteration exLib zoomeye.exDecoders (zoomeye.NewZoomEyeClient "k")
        ({ sent := [] }, []) exInitializeNoId = (net1, [] ++ [resp])
      ∧ Object.get resp.encode "id" = some .null) :=
  absent_id_is_null exLib fofa.exDecoders zoomeye.exDecoders (fofa.NewFofaClient "e" "k")
    (zoomeye.NewZoomEyeClient "k") { sent := [] } [] exInitializeNoId
    (.obj [("jsonrpc", .str "2.0"), ("method", .str "initialize")])
    { JSONRPC := "2.0", ID := .null, Method := "initialize", Params := none }
    (by rfl)
    (by
      intro kvs h kv hkv
      injection h with h
      subst h
      simp only [List.mem_cons, List.mem_singleton, List.not_mem_nil, or_false] at hkv
      rcases hkv with h | h <;> subst h <;> decide)
    (by rfl)

/-! ## C8: result or error, never both, never neither -/

theorem errorResponse_errorOnly (id : Json) (code : Int) (message data : String) :
    (errorResponse id code message data).errorOnly :=
  ⟨rfl, _, rfl⟩

theorem callToolResult_toJson_ne (r : CallToolResult) :
    ∃ m : Object, (ResultValue.callToolResult r).toJson = .obj m ∧ m ≠ [] := by
  refine ⟨_, rfl, ?_⟩
  simp

theorem route_resultOnly_or_errorOnly (E : Lib) (server : String) (catalogue : List Tool)
    (decodeCall : Option Json → Except String CallToolRequest)
    (dispatch : String → Option Handler) (net : Net) (line : String) :
    (route E server catalogue decodeCall dispatch net line).2.resultOnly
      ∨ (route E server catalogue decodeCall dispatch net line).2.errorOnly := by
  unfold route
  split
  · right; exact errorResponse_errorOnly _ _ _ _
  · split
    · left; exact ⟨rfl, _, _, rfl, rfl, by simp [initializeResult]⟩
    · split
      · left; exact ⟨rfl, _, _, rfl, rfl, by simp⟩
      · split
        · split
          · right; exact errorResponse_errorOnly _ _ _ _
          · split
            · left
              obtain ⟨m, hm, hne⟩ := callToolResult_toJson_ne (callResult (_ : Except String CallToolResult))
              exact ⟨rfl, _, m, rfl, hm, hne⟩
            · right; exact errorResponse_errorOnly _ _ _ _
        · right; exact errorResponse_errorOnly _ _ _ _

theorem route_static (E : Lib) (server : String) (catalogue : List Tool)
    (decodeCall : Option Json → Except String CallToolRequest)
    (dispatch : String → Option Handler) (net : Net) (line : String) (request : MCPRequest)
    (h : unmarshalRequest E line = .ok request)
    (hm : request.Method = "initialize" ∨ request.Method = "tools/list") :
    (route E server catalogue decodeCall dispatch net line).2.resultOnly := by
  unfold route
  rw [h]
  simp only
  rcases hm with hm | hm
  · rw [if_pos hm]
    exact ⟨rfl, _, _, rfl, rfl, by simp [initializeResult]⟩
  · rw [hm]
    simp only [String.reduceEq, if_false, if_true]
    exact ⟨rfl, _, _, rfl, rfl, by simp⟩

theorem route_dispatched (E : Lib) (server : String) (catalogue : List Tool)
    (decodeCall : Option Json → Except String CallToolRequest)
    (dispatch : String → Option Handler) (net : Net) (line : String) (request : MCPRequest)
    (call : CallToolRequest) (handler : Handler)
    (h : unmarshalRequest E line = .ok request) (hm : request.Method = "tools/call")
    (hc : decodeCall request.Params = .ok call) (hd : dispatch call.Name = some handler) :
    (route E server catalogue decodeCall dispatch net line).2.resultOnly := by
  rw [route_call E server catalogue decodeCall dispatch net line request call h hm hc, hd]
  obtain ⟨m, hm, hne⟩ := callToolResult_toJson_ne (callResult (handler call.Arguments net).1)
  exact ⟨rfl, _, m, rfl, hm, hne⟩

theorem encode_wire (response : MCPResponse)
    (h : response.resultOnly ∨ response.errorOnly) :
    Bool.xor (Object.get response.encode "result").isSome
      (Object.get response.encode "error").isSome = true := by
  rw [encode_result, encode_error]
  rcases h with ⟨he, v, m, hr, _, _⟩ | ⟨hr, e, he⟩ <;> simp [hr, he]

/-- C8. For every input line, in either adapter, the loop body writes one response,
and that response carries a result and no error object (the result encoding as a
non-empty JSON object), or an error object and no result: exactly one of the two, in
the struct and among the members of the encoded line. What `sendError` writes carries
only the error. The responses for initialize and tools/list, and for a tools/call
that is dispatched to a handler, carry only the result. -/
theorem result_xor_error (E : Lib) (Df : fofa.Decoders) (Dz : zoomeye.Decoders)
    (cf : fofa.FofaClient) (cz : zoomeye.ZoomEyeClient) (net : Net)
    (encoder : List MCPResponse) (line : String) :
    (∃ (net1 : Net) (resp : MCPResponse),
      fofa.main.iteration E Df cf (net, encoder) line = (net1, encoder ++ [resp])
      ∧ (resp.resultOnly ∨ resp.errorOnly)
      ∧ Bool.xor (Object.get resp.encode "result").isSome
          (Object.get resp.encode "error").isSome = true
      ∧ (∀ request, unmarshalRequest E line = .ok request →
          request.Method = "initialize" ∨ request.Method = "tools/list" → resp.resultOnly)
      ∧ (∀ request call handler, unmarshalRequest E line = .ok request →
          request.Method = "tools/call" →
          unmarshalCall "" fofa.callRequestType request.Params = .ok call →
          fofa.dispatch E Df cf call.Name = some handler → resp.resultOnly))
    ∧ (∃ (net1 : Net) (resp : MCPResponse),
      zoomeye.main.iteration E Dz cz (net, encoder) line = (net1, encoder ++ [resp])
      ∧ (resp.resultOnly ∨ resp.errorOnly)
      ∧ Bool.xor (Object.get resp.encode "result").isSome
          (Object.get resp.encode "error").isSome = true
      ∧ (∀ request, unmarshalRequest E line = .ok request →
          request.Method = "initialize" ∨ request.Method = "tools/list" → resp.resultOnly)
      ∧ (∀ request call handler, unmarshalRequest E line = .ok request →
          request.Method = "tools/call" →
          unmarshalCall "CallToolRequest" "main.CallToolRequest" request.Params = .ok call →
          zoomeye.dispatch E Dz cz call.Name = some handler → resp.resultOnly))
    ∧ (∀ (id : Json) (code : Int) (message data : String),
      ∃ resp : MCPResponse,
        sendError encoder id code message data = encoder ++ [resp] ∧ resp.errorOnly) := by
  refine ⟨⟨_, _, fofa.iteration_eq_route E Df cf net encoder line, ?_, ?_, ?_, ?_⟩,
    ⟨_, _, zoomeye.zoomeye_iteration_eq_route E Dz cz net encoder line, ?_, ?_, ?_, ?_⟩, ?_⟩
  · exact route_resultOnly_or_errorOnly E _ _ _ _ net line
  · exact encode_wire _ (route_resultOnly_or_errorOnly E _ _ _ _ net line)
  · intro request h hm
    exact route_static E _ _ _ _ net line request h hm
  · intro request call handler h hm hc hd
    exact route_dispatched E _ _ _ _ net line request call handler h hm hc hd
  · exact route_resultOnly_or_errorOnly E _ _ _ _ net line
  · exact encode_wire _ (route_resultOnly_or_errorOnly E _ _ _ _ net line)
  · intro request h hm
    exact route_static E _ _ _ _ net line request h hm
  · intro request call handler h hm hc hd
    exact route_dispatched E _ _ _ _ net line request call handler h hm hc hd
  · intro id code message data
    exact ⟨_, sendError_eq encoder id code message data, errorResponse_errorOnly _ _ _ _⟩

/-! ## C9: method not found -/

theorem fofa.dispatch_none (E : Lib) (D : fofa.Decoders) (c : fofa.FofaClient) (name : String)
    (h : name ∉ ["fofa_search", "fofa_stats", "fofa_host_info"]) :
    fofa.dispatch E D c name = none := by
  simp only [List.mem_cons, List.mem_singleton, List.not_mem_nil, or_false, not_or] at h
  simp [fofa.dispatch, h.1, h.2.1, h.2.2]

theorem zoomeye.zoomeye_dispatch_none (E : Lib) (D : zoomeye.Decoders) (c : zoomeye.ZoomEyeClient)
    (name : String) (h : name ∉ ["zoomeye_userinfo", "zoomeye_search"]) :
    zoomeye.dispatch E D c name = none := by
  simp only [List.mem_cons, List.mem_singleton, List.not_mem_nil, or_false, not_or] at h
  simp [zoomeye.dispatch, h.1, h.2]

theorem append_ne_empty (pre name : String) (hpre : pre.data ≠ []) : pre ++ name ≠ "" := by
  intro h
  have h2 := congrArg String.data h
  simp only [String.data_append, List.append_eq_nil] at h2
  exact hpre h2.1

/-- C9. Take a request line that decodes, in either adapter. When its method is none
of "initialize", "tools/list", "tools/call", the one response written is the error
with code -32601, no result, the identifier of the request, and the message
"Method not found: Unknown method: " followed by the method name as it came. When it
is a tools/call whose payload decodes to a tool name that is none of the tools the
adapter dispatches, the one response written is the error with code -32601, no
result, and the message "Method not found: Unknown tool: " followed by the tool name
as it came. In both cases the network is untouched. -/
theorem method_not_found (E : Lib) (Df : fofa.Decoders) (Dz : zoomeye.Decoders)
    (cf : fofa.FofaClient) (cz : zoomeye.ZoomEyeClient) (net : Net)
    (encoder : List MCPResponse) (line : String) (request : MCPRequest)
    (hreq : unmarshalRequest E line = .ok request) :
    (request.Method ∉ ["initialize", "tools/list", "tools/call"] →
      fofa.main.iteration E Df cf (net, encoder) line
        = (net, encoder ++
            [{ JSONRPC := "2.0", ID := request.ID, Result := none,
               Error := some { Code := -32601,
                               Message := "Method not found: Unknown method: "
                                 ++ request.Method } }])
      ∧ zoomeye.main.iteration E Dz cz (net, encoder) line
        = (net, encoder ++
            [{ JSONRPC := "2.0", ID := request.ID, Result := none,
               Error := some { Code := -32601,
                               Message := "Method not found: Unknown method: "
                                 ++ request.Method } }]))
    ∧ (request.Method = "tools/call" →
      (∀ call : CallToolRequest,
        unmarshalCall "" fofa.callRequestType request.Params = .ok call →
        call.Name ∉ ["fofa_search", "fofa_stats", "fofa_host_info"] →
        fofa.main.iteration E Df cf (net, encoder) line
          = (net, encoder ++
              [{ JSONRPC := "2.0", ID := request.ID, Result := none,
                 Error := some { Code := -32601,
                                 Message := "Method not found: Unknown tool: "
                                   ++ call.Name } }]))
      ∧ (∀ call : CallToolRequest,
        unmarshalCall "CallToolRequest" "main.CallToolRequest" request.Params = .ok call →
        call.Name ∉ ["zoomeye_userinfo", "zoomeye_search"] →
        zoomeye.main.iteration E Dz cz (net, encoder) line
          = (net, encoder ++
              [{ JSONRPC := "2.0", ID := request.ID, Result := none,
                 Error := some { Code := -32601,
                                 Message := "Method not found: Unknown tool: "
                                   ++ call.Name } }]))) := by
  have hmsg : ∀ (id : Json) (pre name : String),
      errorResponse id (-32601) "Method not found" (pre ++ name)
        = { JSONRPC := "2.0", ID := id, Result := none,
            Error := some { Code := -32601,
                            Message := if pre ++ name ≠ "" then
                                "Method not found" ++ ": " ++ (pre ++ name)
                              else "Method not found" } } := fun _ _ _ => rfl
  have hne : ∀ name : String, "Unknown method: " ++ name ≠ "" :=
    fun name => append_ne_empty _ name (by decide)
  have hne2 : ∀ name : String, "Unknown tool: " ++ name ≠ "" :=
    fun name => append_ne_empty _ name (by decide)
  have happ : ∀ name : String, "Method not found" ++ ": " ++ ("Unknown method: " ++ name)
      = "Method not found: Unknown method: " ++ name := by
    intro name
    rw [← String.append_assoc]
    rfl
  have happ2 : ∀ name : String, "Method not found" ++ ": " ++ ("Unknown tool: " ++ name)
      = "Method not found: Unknown tool: " ++ name := by
    intro name
    rw [← String.append_assoc]
    rfl
  constructor
  · intro hm
    simp only [List.mem_cons, List.mem_singleton, List.not_mem_nil, or_false, not_or] at hm
    rw [fofa.iteration_eq_route, zoomeye.zoomeye_iteration_eq_route]
    unfold fofa.route zoomeye.route
    rw [route_unknown_method E _ _ _ _ net line request hreq hm.1 hm.2.1 hm.2.2,
      route_unknown_method E _ _ _ _ net line request hreq hm.1 hm.2.1 hm.2.2]
    simp only [hmsg, hne, happ, if_true, ne_eq, not_false_eq_true, and_self]
  · intro hm
    constructor
    · intro call hc hn
      rw [fofa.iteration_eq_route]
      unfold fofa.route
      rw [route_call E _ _ _ _ net line request call hreq hm hc,
        fofa.dispatch_none E Df cf call.Name hn]
      simp only [hmsg, hne2, happ2, if_true, ne_eq, not_false_eq_true]
    · intro call hc hn
      rw [zoomeye.zoomeye_iteration_eq_route]
      unfold zoomeye.route
      rw [route_call E _ _ _ _ net line request call hreq hm hc,
        zoomeye.zoomeye_dispatch_none E Dz cz call.Name hn]
      simp only [hmsg, hne2, happ2, if_true, ne_eq, not_false_eq_true]

/-- C9, at a request of the unknown method ping and at a tools/call of the unknown
tool whois. -/
theorem method_not_found_witness :
    (fofa.main.iteration exLib fofa.exDecoders (fofa.NewFofaClient "e" "k")
        ({ sent := [] }, []) exPing
      = ({ sent := [] }, [] ++
          [{ JSONRPC := "2.0", ID := .str "a", Result := none,
             Error := some { Code := -32601,
                             Message := "Method not found: Unknown method: " ++ "ping" } }]))
    ∧ (zoomeye.main.iteration exLib zoomeye.exDecoders (zoomeye.NewZoomEyeClient "k")
        ({ sent := [] }, []) exWhois
      = ({ sent := [] }, [] ++
          [{ JSONRPC := "2.0", ID := .num 2, Result := none,
             Error := some { Code := -32601,
                             Message := "Method not found: Unknown tool: " ++ "whois" } }])) :=
  ⟨((method_not_found exLib fofa.exDecoders zoomeye.exDecoders
      (fofa.NewFofaClient "e" "k") (zoomeye.NewZoomEyeClient "k") { sent := [] } [] exPing
      { JSONRPC := "2.0", ID := .str "a", Method := "ping", Params := none }
      (by rfl)).1 (by decide)).1,
   ((method_not_found exLib fofa.exDecoders zoomeye.exDecoders
      (fofa.NewFofaClient "e" "k") (zoomeye.NewZoomEyeClient "k") { sent := [] } [] exWhois
      { JSONRPC := "2.0", ID := .num 2, Method := "tools/call",
        Params := some (.obj [("name", .str "whois"), ("arguments", .obj [])]) }
      (by rfl)).2 (by rfl)).2 { Name := "whois", Arguments := [] } (by rfl) (by decide)⟩

/-! ## C10: a line that does not decode -/

theorem fofa.loop_append (E : Lib) (D : fofa.Decoders) (c : fofa.FofaClient)
    (state : Net × List MCPResponse) (before after : List String) :
    fofa.main.loop E D c state (before ++ after)
      = fofa.main.loop E D c (fofa.main.loop E D c state before) after := by
  unfold fofa.main.loop
  rw [List.foldl_append]

theorem zoomeye.zoomeye_loop_append (E : Lib) (D : zoomeye.Decoders) (c : zoomeye.ZoomEyeClient)
    (state : Net × List MCPResponse) (before after : List String) :
    zoomeye.main.loop E D c state (before ++ after)
      = zoomeye.main.loop E D c (zoomeye.main.loop E D c state before) after := by
  unfold zoomeye.main.loop
  rw [List.foldl_append]

theorem parseError_message (err : String) :
    ∃ rest : String,
      errorResponse .null (-32700) "Parse error" err
        = { JSONRPC := "2.0", ID := .null, Result := none,
            Error := some { Code := -32700, Message := "Parse error" ++ rest } } := by
  by_cases h : err = ""
  · refine ⟨"", ?_⟩
    simp [errorResponse, h]
  · refine ⟨": " ++ err, ?_⟩
    have happ : "Parse error" ++ ": " ++ err = "Parse error" ++ (": " ++ err) :=
      String.append_assoc _ _ _
    simp only [errorResponse, h, ne_eq, not_false_eq_true, if_true, happ]

/-- C10. Take a line that fails to decode as a request, in either adapter. The loop
body writes exactly one response for it: an error with code -32700, a nil identifier
(null in the encoded line), no result, and a message that begins "Parse error"; the
network is what it was, so no handler ran and no request went to a provider. And for
any lines before and after it, the run with the line and the run without it end in
the same network and write the same responses, but for that one error response at the
place of the line. -/
theorem parse_failure (E : Lib) (Df : fofa.Decoders) (Dz : zoomeye.Decoders)
    (cf : fofa.FofaClient) (cz : zoomeye.ZoomEyeClient) (line err : String)
    (hbad : unmarshalRequest E line = .error err) :
    ∃ (rest : String) (resp : MCPResponse),
      resp = { JSONRPC := "2.0", ID := .null, Result := none,
               Error := some { Code := -32700, Message := "Parse error" ++ rest } }
      ∧ Object.get resp.encode "id" = some .null
      ∧ (∀ (net : Net) (encoder : List MCPResponse),
          fofa.main.iteration E Df cf (net, encoder) line = (net, encoder ++ [resp])
          ∧ zoomeye.main.iteration E Dz cz (net, encoder) line = (net, encoder ++ [resp]))
      ∧ (∀ (state : Net × List MCPResponse) (before after : List String),
          ∃ (net1 : Net) (later : List MCPResponse),
            fofa.main.loop E Df cf state (before ++ line :: after)
              = (net1, (fofa.main.loop E Df cf state before).2 ++ resp :: later)
            ∧ fofa.main.loop E Df cf state (before ++ after)
              = (net1, (fofa.main.loop E Df cf state before).2 ++ later))
      ∧ (∀ (state : Net × List MCPResponse) (before after : List String),
          ∃ (net1 : Net) (later : List MCPResponse),
            zoomeye.main.loop E Dz cz state (before ++ line :: after)
              = (net1, (zoomeye.main.loop E Dz cz state before).2 ++ resp :: later)
            ∧ zoomeye.main.loop E Dz cz state (before ++ after)
              = (net1, (zoomeye.main.loop E Dz cz state before).2 ++ later)) := by
  obtain ⟨rest, hrest⟩ := parseError_message err
  have hf : ∀ (net : Net) (encoder : List MCPResponse),
      fofa.main.iteration E Df cf (net, encoder) line
        = (net, encoder ++ [errorResponse .null (-32700) "Parse error" err]) := by
    intro net encoder
    rw [fofa.iteration_eq_route]
    unfold fofa.route
    rw [route_parse_failure E _ _ _ _ net line err hbad]
  have hz : ∀ (net : Net) (encoder : List MCPResponse),
      zoomeye.main.iteration E Dz cz (net, encoder) line
        = (net, encoder ++ [errorResponse .null (-32700) "Parse error" err]) := by
    intro net encoder
    rw [zoomeye.zoomeye_iteration_eq_route]
    unfold zoomeye.route
    rw [route_parse_failure E _ _ _ _ net line err hbad]
  refine ⟨rest, _, rfl, ?_, ?_, ?_, ?_⟩
  · rw [encode_id]
  · intro net encoder
    rw [hf, hz, hrest]
    exact ⟨rfl, rfl⟩
  · intro state before after
    refine ⟨(fofa.main.loop E Df cf ((fofa.main.loop E Df cf state before).1, []) after).1,
      (fofa.main.loop E Df cf ((fofa.main.loop E Df cf state before).1, []) after).2, ?_, ?_⟩
    · rw [fofa.loop_append]
      show fofa.main.loop E Df cf
        (fofa.main.iteration E Df cf (fofa.main.loop E Df cf state before) line) after = _
      rw [show fofa.main.loop E Df cf state before
        = ((fofa.main.loop E Df cf state before).1, (fofa.main.loop E Df cf state before).2)
        from rfl, hf, fofa.loop_encoder, hrest]
      simp
    · rw [fofa.loop_append]
      rw [show fofa.main.loop E Df cf state before
        = ((fofa.main.loop E Df cf state before).1, (fofa.main.loop E Df cf state before).2)
        from rfl, fofa.loop_encoder]
  · intro state before after
    refine ⟨(zoomeye.main.loop E Dz cz ((zoomeye.main.loop E Dz cz state before).1, []) after).1,
      (zoomeye.main.loop E Dz cz ((zoomeye.main.loop E Dz cz state before).1, []) after).2,
      ?_, ?_⟩
    · rw [zoomeye.zoomeye_loop_append]
      show zoomeye.main.loop E Dz cz
        (zoomeye.main.iteration E Dz cz (zoomeye.main.loop E Dz cz state before) line) after = _
      rw [show zoomeye.main.loop E Dz cz state before
        = ((zoomeye.main.loop E Dz cz state before).1,
            (zoomeye.main.loop E Dz cz state before).2)
        from rfl, hz, zoomeye.zoomeye_loop_encoder, hrest]
      simp
    · rw [zoomeye.zoomeye_loop_append]
      rw [show zoomeye.main.loop E Dz cz state before
        = ((zoomeye.main.loop E Dz cz state before).1,
            (zoomeye.main.loop E Dz cz state before).2)
        from rfl, zoomeye.zoomeye_loop_encoder]

/-- C10, at a line cut short inside the object: one parse error with a null
identifier, and the initialize request after it is answered as if it came alone. -/
theorem parse_failure_witness :
    ∃ (rest : String) (resp : MCPResponse),
      resp = { JSONRPC := "2.0", ID := .null, Result := none,
               Error := some { Code := -32700, Message := "Parse error" ++ rest } }
      ∧ Object.get resp.encode "id" = some .null
      ∧ fofa.main.iteration exLib fofa.exDecoders (fofa.NewFofaClient "e" "k")
          ({ sent := [] }, []) exBadLine = ({ sent := [] }, [] ++ [resp])
      ∧ ∃ (net1 : Net) (later : List MCPResponse),
          fofa.main.loop exLib fofa.exDecoders (fofa.NewFofaClient "e" "k")
              ({ sent := [] }, []) ([] ++ exBadLine :: [exInitialize])
            = (net1, (fofa.main.loop exLib fofa.exDecoders (fofa.NewFofaClient "e" "k")
                ({ sent := [] }, []) []).2 ++ resp :: later)
          ∧ fofa.main.loop exLib fofa.exDecoders (fofa.NewFofaClient "e" "k")
              ({ sent := [] }, []) ([] ++ [exInitialize])
            = (net1, (fofa.main.loop exLib fofa.exDecoders (fofa.NewFofaClient "e" "k")
                ({ sent := [] }, []) []).2 ++ later) := by
  obtain ⟨rest, resp, h1, h2, h3, h4, _⟩ :=
    parse_failure exLib fofa.exDecoders zoomeye.exDecoders (fofa.NewFofaClient "e" "k")
      (zoomeye.NewZoomEyeClient "k") exBadLine "unexpected end of JSON input" (by rfl)
  exact ⟨rest, resp, h1, h2, (h3 { sent := [] } []).1, h4 ({ sent := [] }, []) [] [exInitialize]⟩

/-! ## C11: a failure of a handler is a tool-level result -/

theorem okBody_status (s : Nat) (b : String) (hs : s ≠ 200) :
    okBody (.response s b) = .error ("API返回错误状态码: " ++ Itoa s ++ ", 响应: " ++ b) := by
  simp [okBody, hs]

theorem infix_middle (a x c : String) : x.data <:+: (a ++ x ++ c).data := by
  simp only [String.data_append]
  exact ⟨a.data, c.data, rfl⟩

theorem infix_last (a x : String) : x.data <:+: (a ++ x).data := by
  simp only [String.data_append]
  exact ⟨a.data, [], by simp⟩

theorem fofa.Search_status (E : Lib) (D : fofa.Decoders) (c : fofa.FofaClient)
    (params : fofa.QueryParams) (net : Net) (s : Nat) (b : String) (hs : s ≠ 200)
    (h : ∀ req, E.roundTrip net.sent req = .response s b) :
    (fofa.FofaClient.Search E D c params net).1
      = .error ("API返回错误状态码: " ++ Itoa s ++ ", 响应: " ++ b) := by
  unfold fofa.FofaClient.Search Net.Do
  simp only [h, okBody_status s b hs]

theorem fofa.Stats_status (E : Lib) (D : fofa.Decoders) (c : fofa.FofaClient)
    (query fields : String) (net : Net) (s : Nat) (b : String) (hs : s ≠ 200)
    (h : ∀ req, E.roundTrip net.sent req = .response s b) :
    (fofa.FofaClient.Stats E D c query fields net).1
      = .error ("API返回错误状态码: " ++ Itoa s ++ ", 响应: " ++ b) := by
  unfold fofa.FofaClient.Stats Net.Do
  simp only [h, okBody_status s b hs]

theorem fofa.GetHostInfo_status (E : Lib) (c : fofa.FofaClient)
    (host : String) (net : Net) (s : Nat) (b : String) (hs : s ≠ 200)
    (h : ∀ req, E.roundTrip net.sent req = .response s b) :
    (fofa.FofaClient.GetHostInfo E c host net).1
      = .error ("API返回错误状态码: " ++ Itoa s ++ ", 响应: " ++ b) := by
  unfold fofa.FofaClient.GetHostInfo Net.Do
  simp only [h, okBody_status s b hs]

theorem zoomeye.GetUserInfo_status (E : Lib) (D : zoomeye.Decoders) (c : zoomeye.ZoomEyeClient)
    (net : Net) (s : Nat) (b : String) (hs : s ≠ 200)
    (h : ∀ req, E.roundTrip net.sent req = .response s b) :
    (zoomeye.ZoomEyeClient.GetUserInfo E D c net).1
      = .error ("API返回错误状态码: " ++ Itoa s ++ ", 响应: " ++ b) := by
  unfold zoomeye.ZoomEyeClient.GetUserInfo Net.Do
  simp only [h, okBody_status s b hs]

theorem zoomeye.zoomeye_Search_status (E : Lib) (D : zoomeye.Decoders)
    (c : zoomeye.ZoomEyeClient) (params : zoomeye.SearchParams) (net : Net) (s : Nat)
    (b : String) (hs : s ≠ 200) (h : ∀ req, E.roundTrip net.sent req = .response s b) :
    (zoomeye.ZoomEyeClient.Search E D c params net).1
      = .error ("API返回错误状态码: " ++ Itoa s ++ ", 响应: " ++ b) := by
  unfold zoomeye.ZoomEyeClient.Search Net.Do
  simp only [h, okBody_status s b hs]

/-- A handler passes the failure of its client method on. -/
theorem fofa.handleFofaSearch_error (E : Lib) (D : fofa.Decoders) (c : fofa.FofaClient)
    (args : Object) (net : Net) (query err : String)
    (hq : assertString (Object.get args "query") = some query) (hne : query ≠ "")
    (h : (fofa.FofaClient.Search E D c (fofa.handleFofaSearch.params query args) net).1
      = .error err) :
    (fofa.handleFofaSearch E D c args net).1 = .error err := by
  unfold fofa.handleFofaSearch
  rw [hq]
  simp only [hne, if_false]
  split
  · next e n heq =>
    rw [heq] at h
    have h2 : e = err := Except.error.inj h
    rw [h2]
  · next r n heq => rw [heq] at h; cases h

theorem fofa.handleFofaStats_error (E : Lib) (D : fofa.Decoders) (c : fofa.FofaClient)
    (args : Object) (net : Net) (query err : String)
    (hq : assertString (Object.get args "query") = some query) (hne : query ≠ "")
    (h : ∀ fields, (fofa.FofaClient.Stats E D c query fields net).1 = .error err) :
    (fofa.handleFofaStats E D c args net).1 = .error err := by
  unfold fofa.handleFofaStats
  rw [hq]
  simp only [hne, if_false]
  split
  · next e n heq =>
    have h1 := congrArg Prod.fst heq
    rw [h] at h1
    have h2 : err = e := Except.error.inj h1
    rw [h2]
  · next r n heq =>
    have h1 := congrArg Prod.fst heq
    rw [h] at h1
    cases h1

theorem fofa.handleFofaHostInfo_error (E : Lib) (c : fofa.FofaClient)
    (args : Object) (net : Net) (host err : String)
    (hq : assertString (Object.get args "host") = some host) (hne : host ≠ "")
    (h : (fofa.FofaClient.GetHostInfo E c host net).1 = .error err) :
    (fofa.handleFofaHostInfo E c args net).1 = .error err := by
  unfold fofa.handleFofaHostInfo
  rw [hq]
  simp only [hne, if_false]
  split
  · next e n heq =>
    rw [heq] at h
    have h2 : e = err := Except.error.inj h
    rw [h2]
  · next r n heq => rw [heq] at h; cases h

theorem zoomeye.handleZoomEyeUserInfo_error (E : Lib) (D : zoomeye.Decoders)
    (c : zoomeye.ZoomEyeClient) (net : Net) (err : String)
    (h : (zoomeye.ZoomEyeClient.GetUserInfo E D c net).1 = .error err) :
    (zoomeye.handleZoomEyeUserInfo E D c net).1 = .error err := by
  unfold zoomeye.handleZoomEyeUserInfo
  split
  · next e n heq =>
    rw [heq] at h
    have h2 : e = err := Except.error.inj h
    rw [h2]
  · next r n heq => rw [heq] at h; cases h

theorem zoomeye.handleZoomEyeSearch_error (E : Lib) (D : zoomeye.Decoders)
    (c : zoomeye.ZoomEyeClient) (args : Object) (net : Net) (query err : String)
    (hq : assertString (Object.get args "query") = some query) (hne : query ≠ "")
    (h : ∀ params, (zoomeye.ZoomEyeClient.Search E D c params net).1 = .error err) :
    (zoomeye.handleZoomEyeSearch E D c args net).1 = .error err := by
  unfold zoomeye.handleZoomEyeSearch
  rw [hq]
  simp only [hne, if_false]
  split
  · next e n heq =>
    have h1 := congrArg Prod.fst heq
    rw [h] at h1
    have h2 : err = e := Except.error.inj h1
    rw [h2]
  · next r n heq =>
    have h1 := congrArg Prod.fst heq
    rw [h] at h1
    cases h1

/-- C11. Take a request line that decodes to a tools/call whose payload decodes and
whose tool is dispatched, in either adapter. When the handler returns a failure with
message `err`, the one response written has no error object (none in the encoded
line either) and a result with the error flag true and exactly one content block, of
type "text", whose text is "错误: " followed by `err`. And when the provider answers
with a status `s` other than 200 and body `b`, every handler that reaches its client
fails with one message that contains the decimal `s` and `b`, so the text of the
content block contains them. -/
theorem tool_failure_envelope (E : Lib) (Df : fofa.Decoders) (Dz : zoomeye.Decoders)
    (cf : fofa.FofaClient) (cz : zoomeye.ZoomEyeClient) (net : Net)
    (encoder : List MCPResponse) (line : String) (request : MCPRequest)
    (call : CallToolRequest)
    (hreq : unmarshalRequest E line = .ok request) (hm : request.Method = "tools/call") :
    (∀ (handler : Handler) (err : String) (net1 : Net),
      unmarshalCall "" fofa.callRequestType request.Params = .ok call →
      fofa.dispatch E Df cf call.Name = some handler →
      handler call.Arguments net = (.error err, net1) →
      ∃ resp : MCPResponse,
        fofa.main.iteration E Df cf (net, encoder) line = (net1, encoder ++ [resp])
        ∧ resp.Error = none ∧ Object.get resp.encode "error" = none
        ∧ resp.Result = some (.callToolResult
            { Content := [[("type", .str "text"), ("text", .str ("错误: " ++ err))]],
              IsError := true }))
    ∧ (∀ (handler : Handler) (err : String) (net1 : Net),
      unmarshalCall "CallToolRequest" "main.CallToolRequest" request.Params = .ok call →
      zoomeye.dispatch E Dz cz call.Name = some handler →
      handler call.Arguments net = (.error err, net1) →
      ∃ resp : MCPResponse,
        zoomeye.main.iteration E Dz cz (net, encoder) line = (net1, encoder ++ [resp])
        ∧ resp.Error = none ∧ Object.get resp.encode "error" = none
        ∧ resp.Result = some (.callToolResult
            { Content := [[("type", .str "text"), ("text", .str ("错误: " ++ err))]],
              IsError := true }))
    ∧ (∀ (s : Nat) (b : String), s ≠ 200 →
      (∀ req, E.roundTrip net.sent req = .response s b) →
      ∃ msg : String,
        (Itoa s).data <:+: ("错误: " ++ msg).data ∧ b.data <:+: ("错误: " ++ msg).data
        ∧ (zoomeye.handleZoomEyeUserInfo E Dz cz net).1 = .error msg
        ∧ (∀ (args : Object) (query : String),
            assertString (Object.get args "query") = some query → query ≠ "" →
            (fofa.handleFofaSearch E Df cf args net).1 = .error msg
            ∧ (fofa.handleFofaStats E Df cf args net).1 = .error msg
            ∧ (zoomeye.handleZoomEyeSearch E Dz cz args net).1 = .error msg)
        ∧ (∀ (args : Object) (host : String),
            assertString (Object.get args "host") = some host → host ≠ "" →
            (fofa.handleFofaHostInfo E cf args net).1 = .error msg)) := by
  refine ⟨?_, ?_, ?_⟩
  · intro handler err net1 hc hd hh
    refine ⟨resultResponse request.ID (.callToolResult (toolFailure err)), ?_, rfl, ?_, rfl⟩
    · rw [fofa.iteration_eq_route]
      unfold fofa.route
      rw [route_call E _ _ _ _ net line request call hreq hm hc, hd]
      simp only [hh, callResult]
    · rfl
  · intro handler err net1 hc hd hh
    refine ⟨resultResponse request.ID (.callToolResult (toolFailure err)), ?_, rfl, ?_, rfl⟩
    · rw [zoomeye.zoomeye_iteration_eq_route]
      unfold zoomeye.route
      rw [route_call E _ _ _ _ net line request call hreq hm hc, hd]
      simp only [hh, callResult]
    · rfl
  · intro s b hs hrt
    refine ⟨"API返回错误状态码: " ++ Itoa s ++ ", 响应: " ++ b, ?_, ?_, ?_, ?_, ?_⟩
    · have h1 := infix_middle ("错误: " ++ "API返回错误状态码: ") (Itoa s) (", 响应: " ++ b)
      simpa only [String.append_assoc] using h1
    · have h1 := infix_last ("错误: " ++ "API返回错误状态码: " ++ Itoa s ++ ", 响应: ") b
      simpa only [String.append_assoc] using h1
    · exact zoomeye.handleZoomEyeUserInfo_error E Dz cz net _
        (zoomeye.GetUserInfo_status E Dz cz net s b hs hrt)
    · intro args query hq hne
      exact ⟨fofa.handleFofaSearch_error E Df cf args net query _ hq hne
          (fofa.Search_status E Df cf _ net s b hs hrt),
        fofa.handleFofaStats_error E Df cf args net query _ hq hne
          (fun fields => fofa.Stats_status E Df cf query fields net s b hs hrt),
        zoomeye.handleZoomEyeSearch_error E Dz cz args net query _ hq hne
          (fun params => zoomeye.zoomeye_Search_status E Dz cz params net s b hs hrt)⟩
    · intro args host hq hne
      exact fofa.handleFofaHostInfo_error E cf args net host _ hq hne
        (fofa.GetHostInfo_status E cf host net s b hs hrt)

/-- C11, at a fofa_search call answered by the provider with status 503 and the body
"busy": the response is a result with the error flag and the one text block
"错误: API返回错误状态码: 503, 响应: busy". -/
theorem tool_failure_envelope_witness :
    ∃ resp : MCPResponse,
      fofa.main.iteration exLib503 fofa.exDecoders (fofa.NewFofaClient "e" "k")
          ({ sent := [] }, []) exSearchQuery
        = ((fofa.handleFofaSearch exLib503 fofa.exDecoders (fofa.NewFofaClient "e" "k")
            [("query", .str "x")] { sent := [] }).2, [] ++ [resp])
      ∧ resp.Error = none ∧ Object.get resp.encode "error" = none
      ∧ resp.Result = some (.callToolResult
          { Content := [[("type", .str "text"),
              ("text", .str ("错误: " ++ "API返回错误状态码: 503, 响应: busy"))]],
            IsError := true }) :=
  (tool_failure_envelope exLib503 fofa.exDecoders zoomeye.exDecoders
    (fofa.NewFofaClient "e" "k") (zoomeye.NewZoomEyeClient "k") { sent := [] } []
    exSearchQuery
    { JSONRPC := "2.0", ID := .num 5, Method := "tools/call",
      Params := some (.obj [("name", .str "fofa_search"),
        ("arguments", .obj [("query", .str "x")])]) }
    { Name := "fofa_search", Arguments := [("query", .str "x")] }
    (by rfl) (by rfl)).1
    (fofa.handleFofaSearch exLib503 fofa.exDecoders (fofa.NewFofaClient "e" "k"))
    "API返回错误状态码: 503, 响应: busy"
    (fofa.handleFofaSearch exLib503 fofa.exDecoders (fofa.NewFofaClient "e" "k")
      [("query", .str "x")] { sent := [] }).2
    (by rfl) (by rfl) (by rfl)

/-! ## C12: the catalogue and the dispatch table -/

theorem fofa.dispatch_isSome (E : Lib) (D : fofa.Decoders) (c : fofa.FofaClient)
    (name : String) :
    (fofa.dispatch E D c name).isSome = true
      ↔ name ∈ ["fofa_search", "fofa_stats", "fofa_host_info"] := by
  unfold fofa.dispatch
  by_cases h1 : name = "fofa_search"
  · simp [h1]
  · by_cases h2 : name = "fofa_stats"
    · simp [h2]
    · by_cases h3 : name = "fofa_host_info"
      · simp [h3]
      · simp [h1, h2, h3]

theorem fofa.dispatch_some_iff (E : Lib) (D : fofa.Decoders) (c : fofa.FofaClient)
    (name : String) :
    (∃ handler, fofa.dispatch E D c name = some handler)
      ↔ name ∈ fofa.tools.map (fun t => t.Name) := by
  have hnames : fofa.tools.map (fun t => t.Name)
      = ["fofa_search", "fofa_stats", "fofa_host_info"] := rfl
  rw [hnames, ← fofa.dispatch_isSome E D c name, Option.isSome_iff_exists]

theorem zoomeye.zoomeye_dispatch_isSome (E : Lib) (D : zoomeye.Decoders) (c : zoomeye.ZoomEyeClient)
    (name : String) :
    (zoomeye.dispatch E D c name).isSome = true
      ↔ name ∈ ["zoomeye_userinfo", "zoomeye_search"] := by
  unfold zoomeye.dispatch
  by_cases h1 : name = "zoomeye_userinfo"
  · simp [h1]
  · by_cases h2 : name = "zoomeye_search"
    · simp [h2]
    · simp [h1, h2]

theorem zoomeye.zoomeye_dispatch_some_iff (E : Lib) (D : zoomeye.Decoders) (c : zoomeye.ZoomEyeClient)
    (name : String) :
    (∃ handler, zoomeye.dispatch E D c name = some handler)
      ↔ name ∈ zoomeye.tools.map (fun t => t.Name) := by
  have hnames : zoomeye.tools.map (fun t => t.Name)
      = ["zoomeye_userinfo", "zoomeye_search"] := rfl
  rw [hnames, ← zoomeye.zoomeye_dispatch_isSome E D c name, Option.isSome_iff_exists]

theorem route_tools_list (E : Lib) (server : String) (catalogue : List Tool)
    (decodeCall : Option Json → Except String CallToolRequest)
    (dispatch : String → Option Handler) (net : Net) (line : String) (request : MCPRequest)
    (h : unmarshalRequest E line = .ok request) (hm : request.Method = "tools/list") :
    route E server catalogue decodeCall dispatch net line
      = (net, resultResponse request.ID (.tools catalogue)) := by
  unfold route
  rw [h]
  simp [hm]

/-- C12. In each adapter, every request line that decodes to the method tools/list
is answered, whatever its identifier and payload and whatever the network and the
output before it, by the one same tool array (`fofa.tools`, `zoomeye.tools`), with
the network untouched. The names in that array are fofa_search, fofa_stats,
fofa_host_info (zoomeye_userinfo, zoomeye_search), and they are exactly the names
tools/call dispatches: a decoded tools/call is handed to a handler, whose outcome is
the result of the response, if and only if its tool name is in the array. -/
theorem catalogue_complete_and_stable (E : Lib) (Df : fofa.Decoders) (Dz : zoomeye.Decoders)
    (cf : fofa.FofaClient) (cz : zoomeye.ZoomEyeClient) (net : Net)
    (encoder : List MCPResponse) (line : String) (request : MCPRequest)
    (hreq : unmarshalRequest E line = .ok request) :
    (request.Method = "tools/list" →
      fofa.main.iteration E Df cf (net, encoder) line
        = (net, encoder ++ [{ JSONRPC := "2.0", ID := request.ID,
                              Result := some (.tools fofa.tools), Error := none }])
      ∧ zoomeye.main.iteration E Dz cz (net, encoder) line
        = (net, encoder ++ [{ JSONRPC := "2.0", ID := request.ID,
                              Result := some (.tools zoomeye.tools), Error := none }]))
    ∧ fofa.tools.map (fun t => t.Name) = ["fofa_search", "fofa_stats", "fofa_host_info"]
    ∧ zoomeye.tools.map (fun t => t.Name) = ["zoomeye_userinfo", "zoomeye_search"]
    ∧ (request.Method = "tools/call" →
      (∀ call : CallToolRequest,
        unmarshalCall "" fofa.callRequestType request.Params = .ok call →
        (call.Name ∈ fofa.tools.map (fun t => t.Name) ↔
          ∃ handler : Handler,
            fofa.dispatch E Df cf call.Name = some handler
            ∧ fofa.main.iteration E Df cf (net, encoder) line
              = ((handler call.Arguments net).2,
                  encoder ++ [resultResponse request.ID
                    (.callToolResult (callResult (handler call.Arguments net).1))])))
      ∧ (∀ call : CallToolRequest,
        unmarshalCall "CallToolRequest" "main.CallToolRequest" request.Params = .ok call →
        (call.Name ∈ zoomeye.tools.map (fun t => t.Name) ↔
          ∃ handler : Handler,
            zoomeye.dispatch E Dz cz call.Name = some handler
            ∧ zoomeye.main.iteration E Dz cz (net, encoder) line
              = ((handler call.Arguments net).2,
                  encoder ++ [resultResponse request.ID
                    (.callToolResult (callResult (handler call.Arguments net).1))])))) := by
  refine ⟨?_, rfl, rfl, ?_⟩
  · intro hm
    rw [fofa.iteration_eq_route, zoomeye.zoomeye_iteration_eq_route]
    unfold fofa.route zoomeye.route
    rw [route_tools_list E _ _ _ _ net line request hreq hm,
      route_tools_list E _ _ _ _ net line request hreq hm]
    exact ⟨rfl, rfl⟩
  · intro hm
    constructor
    · intro call hc
      rw [← fofa.dispatch_some_iff E Df cf call.Name]
      constructor
      · rintro ⟨handler, hd⟩
        refine ⟨handler, hd, ?_⟩
        rw [fofa.iteration_eq_route]
        unfold fofa.route
        rw [route_call E _ _ _ _ net line request call hreq hm hc, hd]
      · rintro ⟨handler, hd, _⟩
        exact ⟨handler, hd⟩
    · intro call hc
      rw [← zoomeye.zoomeye_dispatch_some_iff E Dz cz call.Name]
      constructor
      · rintro ⟨handler, hd⟩
        refine ⟨handler, hd, ?_⟩
        rw [zoomeye.zoomeye_iteration_eq_route]
        unfold zoomeye.route
        rw [route_call E _ _ _ _ net line request call hreq hm hc, hd]
      · rintro ⟨handler, hd, _⟩
        exact ⟨handler, hd⟩


/-- C12, at a tools/list request with the id 8: the response carries `fofa.tools`
(`zoomeye.tools`), and fofa_stats is both in the catalogue and dispatched. -/
theorem catalogue_complete_and_stable_witness :
    (fofa.main.iteration exLib200 fofa.exDecoders (fofa.NewFofaClient "e" "k")
        ({ sent := [] }, []) exToolsList
      = ({ sent := [] }, [] ++ [{ JSONRPC := "2.0", ID := .num 8,
                                  Result := some (.tools fofa.tools), Error := none }])
    ∧ zoomeye.main.iteration exLib200 zoomeye.exDecoders (zoomeye.NewZoomEyeClient "k")
        ({ sent := [] }, []) exToolsList
      = ({ sent := [] }, [] ++ [{ JSONRPC := "2.0", ID := .num 8,
                                  Result := some (.tools zoomeye.tools), Error := none }]))
    ∧ "fofa_stats" ∈ fofa.tools.map (fun t => t.Name) :=
  have h := catalogue_complete_and_stable exLib200 fofa.exDecoders zoomeye.exDecoders
    (fofa.NewFofaClient "e" "k") (zoomeye.NewZoomEyeClient "k") { sent := [] } [] exToolsList
    { JSONRPC := "2.0", ID := .num 8, Method := "tools/list", Params := none } (by rfl)
  ⟨h.1 (by rfl), by rw [h.2.1]; decide⟩

/-! ## C13: one response per line -/

theorem route_invalid_params (E : Lib) (server : String) (catalogue : List Tool)
    (decodeCall : Option Json → Except String CallToolRequest)
    (dispatch : String → Option Handler) (net : Net) (line : String) (request : MCPRequest)
    (err : String) (h : unmarshalRequest E line = .ok request)
    (hm : request.Method = "tools/call") (hc : decodeCall request.Params = .error err) :
    route E server catalogue decodeCall dispatch net line
      = (net, errorResponse request.ID (-32602) "Invalid params" err) := by
  unfold route
  rw [h]
  simp only [hm, hc]
  simp

theorem invalidParams_message (id : Json) (err : String) :
    ∃ rest : String,
      errorResponse id (-32602) "Invalid params" err
        = { JSONRPC := "2.0", ID := id, Result := none,
            Error := some { Code := -32602, Message := "Invalid params" ++ rest } } := by
  by_cases h : err = ""
  · refine ⟨"", ?_⟩
    simp [errorResponse, h]
  · refine ⟨": " ++ err, ?_⟩
    have happ : "Invalid params" ++ ": " ++ err = "Invalid params" ++ (": " ++ err) :=
      String.append_assoc _ _ _
    simp only [errorResponse, h, ne_eq, not_false_eq_true, if_true, happ]

theorem fofa.loop_length (E : Lib) (D : fofa.Decoders) (c : fofa.FofaClient)
    (lines : List String) (state : Net × List MCPResponse) :
    (fofa.main.loop E D c state lines).2.length = state.2.length + lines.length := by
  induction lines generalizing state with
  | nil => simp [fofa.main.loop]
  | cons line rest ih =>
    have hstep : fofa.main.loop E D c state (line :: rest)
        = fofa.main.loop E D c (fofa.main.iteration E D c state line) rest := rfl
    rw [hstep, ih]
    obtain ⟨net, encoder⟩ := state
    rw [fofa.iteration_eq_route]
    simp only [List.length_append, List.length_cons, List.length_nil]
    omega

theorem zoomeye.zoomeye_loop_length (E : Lib) (D : zoomeye.Decoders)
    (c : zoomeye.ZoomEyeClient) (lines : List String) (state : Net × List MCPResponse) :
    (zoomeye.main.loop E D c state lines).2.length = state.2.length + lines.length := by
  induction lines generalizing state with
  | nil => simp [zoomeye.main.loop]
  | cons line rest ih =>
    have hstep : zoomeye.main.loop E D c state (line :: rest)
        = zoomeye.main.loop E D c (zoomeye.main.iteration E D c state line) rest := rfl
    rw [hstep, ih]
    obtain ⟨net, encoder⟩ := state
    rw [zoomeye.zoomeye_iteration_eq_route]
    simp only [List.length_append, List.length_cons, List.length_nil]
    omega

/-- C13. For every input line, in either adapter and whichever branch the loop body
takes, the output after the line is the output before it followed by exactly one
response; so a run over any list of lines writes as many responses as it read lines.
In particular a tools/call whose payload fails to decode gets exactly one response:
the error with code -32602, the identifier of the request, no result, and a message
beginning "Invalid params"; the network is untouched. -/
theorem one_response_per_line (E : Lib) (Df : fofa.Decoders) (Dz : zoomeye.Decoders)
    (cf : fofa.FofaClient) (cz : zoomeye.ZoomEyeClient) (net : Net)
    (encoder : List MCPResponse) (line : String) :
    (∃ (net1 : Net) (resp : MCPResponse),
      fofa.main.iteration E Df cf (net, encoder) line = (net1, encoder ++ [resp]))
    ∧ (∃ (net1 : Net) (resp : MCPResponse),
      zoomeye.main.iteration E Dz cz (net, encoder) line = (net1, encoder ++ [resp]))
    ∧ (∀ (lines : List String),
      (fofa.main.loop E Df cf (net, encoder) lines).2.length = encoder.length + lines.length
      ∧ (zoomeye.main.loop E Dz cz (net, encoder) lines).2.length
          = encoder.length + lines.length)
    ∧ (∀ (request : MCPRequest) (err : String),
      unmarshalRequest E line = .ok request → request.Method = "tools/call" →
      unmarshalCall "" fofa.callRequestType request.Params = .error err →
      ∃ rest : String,
        fofa.main.iteration E Df cf (net, encoder) line
          = (net, encoder ++
              [{ JSONRPC := "2.0", ID := request.ID, Result := none,
                 Error := some { Code := -32602, Message := "Invalid params" ++ rest } }]))
    ∧ (∀ (request : MCPRequest) (err : String),
      unmarshalRequest E line = .ok request → request.Method = "tools/call" →
      unmarshalCall "CallToolRequest" "main.CallToolRequest" request.Params = .error err →
      ∃ rest : String,
        zoomeye.main.iteration E Dz cz (net, encoder) line
          = (net, encoder ++
              [{ JSONRPC := "2.0", ID := request.ID, Result := none,
                 Error := some { Code := -32602, Message := "Invalid params" ++ rest } }])) := by
  refine ⟨⟨_, _, fofa.iteration_eq_route E Df cf net encoder line⟩,
    ⟨_, _, zoomeye.zoomeye_iteration_eq_route E Dz cz net encoder line⟩, ?_, ?_, ?_⟩
  · intro lines
    exact ⟨fofa.loop_length E Df cf lines (net, encoder),
      zoomeye.zoomeye_loop_length E Dz cz lines (net, encoder)⟩
  · intro request err hreq hm hc
    obtain ⟨rest, hrest⟩ := invalidParams_message request.ID err
    refine ⟨rest, ?_⟩
    rw [fofa.iteration_eq_route]
    unfold fofa.route
    rw [route_invalid_params E _ _ _ _ net line request err hreq hm hc, hrest]
  · intro request err hreq hm hc
    obtain ⟨rest, hrest⟩ := invalidParams_message request.ID err
    refine ⟨rest, ?_⟩
    rw [zoomeye.zoomeye_iteration_eq_route]
    unfold zoomeye.route
    rw [route_invalid_params E _ _ _ _ net line request err hreq hm hc, hrest]

/-- C13, at a tools/call line with no params member: one response, the error -32602. -/
theorem one_response_per_line_witness :
    ∃ rest : String,
      fofa.main.iteration exLib200 fofa.exDecoders (fofa.NewFofaClient "e" "k")
          ({ sent := [] }, []) exCallNoParams
        = ({ sent := [] }, [] ++
            [{ JSONRPC := "2.0", ID := .num 6, Result := none,
               Error := some { Code := -32602, Message := "Invalid params" ++ rest } }]) :=
  (one_response_per_line exLib200 fofa.exDecoders zoomeye.exDecoders
    (fofa.NewFofaClient "e" "k") (zoomeye.NewZoomEyeClient "k") { sent := [] } []
    exCallNoParams).2.2.2.1
    { JSONRPC := "2.0", ID := .num 6, Method := "tools/call", Params := none }
    "unexpected end of JSON input" (by rfl) (by rfl) (by rfl)

/-! ## C14: the defaults of the optional arguments -/

theorem fofa.handleFofaSearch_eq (E : Lib) (D : fofa.Decoders) (client : fofa.FofaClient)
    (args : Object) (net : Net) (query : String)
    (hq : assertString (Object.get args "query") = some query) (hne : query ≠ "") :
    fofa.handleFofaSearch E D client args net
      = fofa.handleFofaSearch.finish E
          (client.Search E D (fofa.handleFofaSearch.params query args) net) := by
  unfold fofa.handleFofaSearch fofa.handleFofaSearch.finish
  rw [hq]
  simp only [hne, if_false]

theorem zoomeye.handleZoomEyeSearch_eq (E : Lib) (D : zoomeye.Decoders)
    (client : zoomeye.ZoomEyeClient) (args : Object) (net : Net) (query : String)
    (hq : assertString (Object.get args "query") = some query) (hne : query ≠ "") :
    zoomeye.handleZoomEyeSearch E D client args net
      = zoomeye.handleZoomEyeSearch.finish E
          (client.Search E D (zoomeye.handleZoomEyeSearch.params (E.base64 query) args) net) := by
  unfold zoomeye.handleZoomEyeSearch zoomeye.handleZoomEyeSearch.finish
  rw [hq]
  simp only [hne, if_false]

/-- The parameters `handleFofaSearch` builds, field by field. -/
theorem fofa.params_eq (query : String) (args : Object) :
    fofa.handleFofaSearch.params query args
      = { Query := query
          Page := match assertFloat64 (Object.get args "page") with
            | some page => goInt page
            | none => 1
          Size := match assertFloat64 (Object.get args "size") with
            | some size => goInt size
            | none => 100
          Fields := match assertString (Object.get args "fields") with
            | some fields => if fields ≠ "" then fields else "host,ip,port,protocol"
            | none => "host,ip,port,protocol"
          Full := match assertBool (Object.get args "full") with
            | some full => full
            | none => false
          IsDomain := match assertBool (Object.get args "is_domain") with
            | some isDomain => isDomain
            | none => false } := by
  unfold fofa.handleFofaSearch.params
  cases assertFloat64 (Object.get args "page") <;>
    cases assertFloat64 (Object.get args "size") <;>
    cases assertString (Object.get args "fields") <;>
    cases assertBool (Object.get args "full") <;>
    cases assertBool (Object.get args "is_domain") <;>
    simp only <;> split <;> rfl

/-- The parameters `handleZoomEyeSearch` builds, field by field. -/
theorem zoomeye.zoomeye_params_eq (qbase64 : String) (args : Object) :
    zoomeye.handleZoomEyeSearch.params qbase64 args
      = { QBase64 := qbase64
          Page := match assertFloat64 (Object.get args "page") with
            | some page => goInt page
            | none => 1
          PageSize := match assertFloat64 (Object.get args "pagesize") with
            | some pagesize => goInt pagesize
            | none => 10
          Fields := match assertString (Object.get args "fields") with
            | some fields => if fields ≠ "" then fields else "ip,port,domain,update_time"
            | none => "ip,port,domain,update_time"
          SubType := match assertString (Object.get args "sub_type") with
            | some subType => if subType ≠ "" then subType else "v4"
            | none => "v4"
          Facets := match assertString (Object.get args "facets") with
            | some facets => if facets ≠ "" then facets else ""
            | none => ""
          IgnoreCache := match assertBool (Object.get args "ignore_cache") with
            | some ignoreCache => ignoreCache
            | none => false } := by
  unfold zoomeye.handleZoomEyeSearch.params
  cases assertFloat64 (Object.get args "page") <;>
    cases assertFloat64 (Object.get args "pagesize") <;>
    cases assertString (Object.get args "fields") <;>
    cases assertString (Object.get args "sub_type") <;>
    cases assertString (Object.get args "facets") <;>
    cases assertBool (Object.get args "ignore_cache") <;>
    simp only <;> repeat (split <;> try rfl)

theorem assertFloat64_none (o : Option Json) (h : ∀ q, o ≠ some (.num q)) :
    assertFloat64 o = none := by
  unfold assertFloat64
  split
  · next q => exact absurd rfl (h q)
  · rfl

theorem assertBool_none (o : Option Json) (h : ∀ b, o ≠ some (.bool b)) :
    assertBool o = none := by
  unfold assertBool
  split
  · next b => exact absurd rfl (h b)
  · rfl

theorem assertString_cases (o : Option Json) (h : ∀ s, o = some (.str s) → s = "") :
    assertString o = none ∨ assertString o = some "" := by
  unfold assertString
  split
  · next s => right; rw [h s rfl]
  · left; rfl

/-- C14. For every argument mapping with a usable query, `handleFofaSearch` and
`handleZoomEyeSearch` hand their client parameters `p` and `z` in which each optional
argument has its default when the key is absent or holds a value of another type, and
the string options also when they hold the empty string: page 1, size 100 (pagesize
10), fields "host,ip,port,protocol" ("ip,port,domain,update_time"), sub_type "v4",
full, is_domain and ignore_cache false. A non-empty string and a boolean that are
supplied reach the client as they are. -/
theorem optional_argument_defaults (E : Lib) (Df : fofa.Decoders) (Dz : zoomeye.Decoders)
    (cf : fofa.FofaClient) (cz : zoomeye.ZoomEyeClient) (args : Object) (net : Net)
    (query : String) (hq : assertString (Object.get args "query") = some query)
    (hne : query ≠ "") :
    ∃ (p : fofa.QueryParams) (z : zoomeye.SearchParams),
      fofa.handleFofaSearch E Df cf args net
        = fofa.handleFofaSearch.finish E (cf.Search E Df p net)
      ∧ zoomeye.handleZoomEyeSearch E Dz cz args net
        = zoomeye.handleZoomEyeSearch.finish E (cz.Search E Dz z net)
      ∧ p.Query = query ∧ z.QBase64 = E.base64 query
      ∧ ((∀ q, Object.get args "page" ≠ some (.num q)) → p.Page = 1 ∧ z.Page = 1)
      ∧ ((∀ q, Object.get args "size" ≠ some (.num q)) → p.Size = 100)
      ∧ ((∀ q, Object.get args "pagesize" ≠ some (.num q)) → z.PageSize = 10)
      ∧ ((∀ s, Object.get args "fields" = some (.str s) → s = "") →
          p.Fields = "host,ip,port,protocol" ∧ z.Fields = "ip,port,domain,update_time")
      ∧ ((∀ s, Object.get args "sub_type" = some (.str s) → s = "") → z.SubType = "v4")
      ∧ ((∀ b, Object.get args "full" ≠ some (.bool b)) → p.Full = false)
      ∧ ((∀ b, Object.get args "is_domain" ≠ some (.bool b)) → p.IsDomain = false)
      ∧ ((∀ b, Object.get args "ignore_cache" ≠ some (.bool b)) → z.IgnoreCache = false)
      ∧ (∀ s, s ≠ "" → Object.get args "fields" = some (.str s) →
          p.Fields = s ∧ z.Fields = s)
      ∧ (∀ s, s ≠ "" → Object.get args "sub_type" = some (.str s) → z.SubType = s)
      ∧ (∀ s, s ≠ "" → Object.get args "facets" = some (.str s) → z.Facets = s)
      ∧ (∀ b, Object.get args "full" = some (.bool b) → p.Full = b)
      ∧ (∀ b, Object.get args "is_domain" = some (.bool b) → p.IsDomain = b)
      ∧ (∀ b, Object.get args "ignore_cache" = some (.bool b) → z.IgnoreCache = b) := by
  refine ⟨fofa.handleFofaSearch.params query args,
    zoomeye.handleZoomEyeSearch.params (E.base64 query) args,
    fofa.handleFofaSearch_eq E Df cf args net query hq hne,
    zoomeye.handleZoomEyeSearch_eq E Dz cz args net query hq hne, ?_⟩
  rw [fofa.params_eq, zoomeye.zoomeye_params_eq]
  refine ⟨rfl, rfl, ?_, ?_, ?_, ?_, ?_, ?_, ?_, ?_, ?_, ?_, ?_, ?_, ?_, ?_⟩
  · intro h
    simp only [assertFloat64_none _ h, and_self]
  · intro h
    simp only [assertFloat64_none _ h]
  · intro h
    simp only [assertFloat64_none _ h]
  · intro h
    rcases assertString_cases _ h with h1 | h1 <;> simp [h1]
  · intro h
    rcases assertString_cases _ h with h1 | h1 <;> simp [h1]
  · intro h
    simp only [assertBool_none _ h]
  · intro h
    simp only [assertBool_none _ h]
  · intro h
    simp only [assertBool_none _ h]
  · intro s hs h
    simp [h, assertString, hs]
  · intro s hs h
    simp [h, assertString, hs]
  · intro s hs h
    simp [h, assertString, hs]
  · intro b h
    simp [h, assertBool]
  · intro b h
    simp [h, assertBool]
  · intro b h
    simp [h, assertBool]

/-- C14, at a mapping with only a query, a fields string and ignore_cache true. -/
theorem optional_argument_defaults_witness :
    ∃ (p : fofa.QueryParams) (z : zoomeye.SearchParams),
      fofa.handleFofaSearch exLib fofa.exDecoders (fofa.NewFofaClient "e" "k")
          [("query", .str "x"), ("fields", .str "ip,title"), ("ignore_cache", .bool true),
            ("page", .str "2")] { sent := [] }
        = fofa.handleFofaSearch.finish exLib
            ((fofa.NewFofaClient "e" "k").Search exLib fofa.exDecoders p { sent := [] })
      ∧ zoomeye.handleZoomEyeSearch exLib zoomeye.exDecoders (zoomeye.NewZoomEyeClient "k")
          [("query", .str "x"), ("fields", .str "ip,title"), ("ignore_cache", .bool true),
            ("page", .str "2")] { sent := [] }
        = zoomeye.handleZoomEyeSearch.finish exLib
            ((zoomeye.NewZoomEyeClient "k").Search exLib zoomeye.exDecoders z { sent := [] })
      ∧ p.Page = 1 ∧ z.Page = 1 ∧ p.Size = 100 ∧ z.PageSize = 10
      ∧ p.Fields = "ip,title" ∧ z.Fields = "ip,title" ∧ z.SubType = "v4"
      ∧ p.Full = false ∧ p.IsDomain = false ∧ z.IgnoreCache = true := by
  obtain ⟨p, z, h1, h2, _, _, hpage, hsize, hpagesize, _, hsub, hfull, hdom, _, hfields, _, _,
      _, _, hic⟩ :=
    optional_argument_defaults exLib fofa.exDecoders zoomeye.exDecoders
      (fofa.NewFofaClient "e" "k") (zoomeye.NewZoomEyeClient "k")
      [("query", .str "x"), ("fields", .str "ip,title"), ("ignore_cache", .bool true),
        ("page", .str "2")] { sent := [] } "x" (by rfl) (by decide)
  have hp := hpage (fun q h => nomatch (show some (Json.str "2") = some (Json.num q) from h))
  have hf := hfields "ip,title" (by decide) (by rfl)
  exact ⟨p, z, h1, h2, hp.1, hp.2, hsize (fun q h => nomatch h),
    hpagesize (fun q h => nomatch h), hf.1, hf.2,
    hsub (fun s h => nomatch h), hfull (fun b h => nomatch h), hdom (fun b h => nomatch h),
    hic true (by rfl)⟩

/-! ## C15: keys a handler does not read -/

theorem Object.get_append_other (m : Object) (k key : String) (v : Json) (h : k ≠ key) :
    Object.get (m ++ [(k, v)]) key = Object.get m key := by
  induction m with
  | nil => simp [Object.get, h]
  | cons kv rest ih =>
    obtain ⟨k1, v1⟩ := kv
    have ih1 : Object.get (rest.append [(k, v)]) key = Object.get rest key := ih
    simp only [List.cons_append, Object.get, ih1]

theorem fofa.params_congr (query : String) (a1 a2 : Object)
    (h : ∀ k ∈ ["query", "page", "size", "fields", "full", "is_domain"],
      Object.get a1 k = Object.get a2 k) :
    fofa.handleFofaSearch.params query a1 = fofa.handleFofaSearch.params query a2 := by
  rw [fofa.params_eq, fofa.params_eq, h "page" (by simp), h "size" (by simp),
    h "fields" (by simp), h "full" (by simp), h "is_domain" (by simp)]

theorem zoomeye.zoomeye_params_congr (qbase64 : String) (a1 a2 : Object)
    (h : ∀ k ∈ ["query", "page", "pagesize", "fields", "sub_type", "facets", "ignore_cache"],
      Object.get a1 k = Object.get a2 k) :
    zoomeye.handleZoomEyeSearch.params qbase64 a1
      = zoomeye.handleZoomEyeSearch.params qbase64 a2 := by
  rw [zoomeye.zoomeye_params_eq, zoomeye.zoomeye_params_eq, h "page" (by simp),
    h "pagesize" (by simp), h "fields" (by simp), h "sub_type" (by simp),
    h "facets" (by simp), h "ignore_cache" (by simp)]

theorem fofa.handleFofaSearch_congr (E : Lib) (D : fofa.Decoders) (c : fofa.FofaClient)
    (a1 a2 : Object) (net : Net)
    (h : ∀ k ∈ ["query", "page", "size", "fields", "full", "is_domain"],
      Object.get a1 k = Object.get a2 k) :
    fofa.handleFofaSearch E D c a1 net = fofa.handleFofaSearch E D c a2 net := by
  unfold fofa.handleFofaSearch
  rw [h "query" (by simp)]
  simp only [fofa.params_congr _ a1 a2 h]

theorem fofa.handleFofaStats_congr (E : Lib) (D : fofa.Decoders) (c : fofa.FofaClient)
    (a1 a2 : Object) (net : Net)
    (h : ∀ k ∈ ["query", "fields"], Object.get a1 k = Object.get a2 k) :
    fofa.handleFofaStats E D c a1 net = fofa.handleFofaStats E D c a2 net := by
  unfold fofa.handleFofaStats
  rw [h "query" (by simp), h "fields" (by simp)]

theorem fofa.handleFofaHostInfo_congr (E : Lib) (c : fofa.FofaClient)
    (a1 a2 : Object) (net : Net)
    (h : ∀ k ∈ ["host"], Object.get a1 k = Object.get a2 k) :
    fofa.handleFofaHostInfo E c a1 net = fofa.handleFofaHostInfo E c a2 net := by
  unfold fofa.handleFofaHostInfo
  rw [h "host" (by simp)]

theorem zoomeye.handleZoomEyeSearch_congr (E : Lib) (D : zoomeye.Decoders)
    (c : zoomeye.ZoomEyeClient) (a1 a2 : Object) (net : Net)
    (h : ∀ k ∈ ["query", "page", "pagesize", "fields", "sub_type", "facets", "ignore_cache"],
      Object.get a1 k = Object.get a2 k) :
    zoomeye.handleZoomEyeSearch E D c a1 net = zoomeye.handleZoomEyeSearch E D c a2 net := by
  unfold zoomeye.handleZoomEyeSearch
  rw [h "query" (by simp)]
  simp only [zoomeye.zoomeye_params_congr _ a1 a2 h]

/-- C15. For every tool that takes arguments and every two argument mappings that
hold the same value (or both nothing) under each key the tool reads, the handler
builds the same parameters for its client and, in the same network and environment,
has the same outcome: the same requests issued and the same result or failure. In
particular a mapping with one more member under a key the tool does not read is
handled as the mapping without it. -/
theorem unrecognised_arguments_ignored (E : Lib) (Df : fofa.Decoders)
    (Dz : zoomeye.Decoders) (cf : fofa.FofaClient) (cz : zoomeye.ZoomEyeClient)
    (a1 a2 : Object) (net : Net) :
    ((∀ k ∈ ["query", "page", "size", "fields", "full", "is_domain"],
        Object.get a1 k = Object.get a2 k) →
      (∀ query, fofa.handleFofaSearch.params query a1 = fofa.handleFofaSearch.params query a2)
      ∧ fofa.handleFofaSearch E Df cf a1 net = fofa.handleFofaSearch E Df cf a2 net)
    ∧ ((∀ k ∈ ["query", "fields"], Object.get a1 k = Object.get a2 k) →
      fofa.handleFofaStats E Df cf a1 net = fofa.handleFofaStats E Df cf a2 net)
    ∧ ((∀ k ∈ ["host"], Object.get a1 k = Object.get a2 k) →
      fofa.handleFofaHostInfo E cf a1 net = fofa.handleFofaHostInfo E cf a2 net)
    ∧ ((∀ k ∈ ["query", "page", "pagesize", "fields", "sub_type", "facets", "ignore_cache"],
        Object.get a1 k = Object.get a2 k) →
      (∀ qbase64, zoomeye.handleZoomEyeSearch.params qbase64 a1
        = zoomeye.handleZoomEyeSearch.params qbase64 a2)
      ∧ zoomeye.handleZoomEyeSearch E Dz cz a1 net
        = zoomeye.handleZoomEyeSearch E Dz cz a2 net)
    ∧ (∀ (k : String) (v : Json),
      (k ∉ ["query", "page", "size", "fields", "full", "is_domain"] →
        fofa.handleFofaSearch E Df cf (a1 ++ [(k, v)]) net
          = fofa.handleFofaSearch E Df cf a1 net)
      ∧ (k ∉ ["query", "fields"] →
        fofa.handleFofaStats E Df cf (a1 ++ [(k, v)]) net
          = fofa.handleFofaStats E Df cf a1 net)
      ∧ (k ∉ ["host"] →
        fofa.handleFofaHostInfo E cf (a1 ++ [(k, v)]) net
          = fofa.handleFofaHostInfo E cf a1 net)
      ∧ (k ∉ ["query", "page", "pagesize", "fields", "sub_type", "facets", "ignore_cache"] →
        zoomeye.handleZoomEyeSearch E Dz cz (a1 ++ [(k, v)]) net
          = zoomeye.handleZoomEyeSearch E Dz cz a1 net)) := by
  have hextra : ∀ (keys : List String) (k : String) (v : Json), k ∉ keys →
      ∀ key ∈ keys, Object.get (a1 ++ [(k, v)]) key = Object.get a1 key := by
    intro keys k v hk key hkey
    exact Object.get_append_other a1 k key v (fun heq => hk (heq ▸ hkey))
  refine ⟨?_, ?_, ?_, ?_, ?_⟩
  · intro h
    exact ⟨fun query => fofa.params_congr query a1 a2 h,
      fofa.handleFofaSearch_congr E Df cf a1 a2 net h⟩
  · exact fofa.handleFofaStats_congr E Df cf a1 a2 net
  · exact fofa.handleFofaHostInfo_congr E cf a1 a2 net
  · intro h
    exact ⟨fun qbase64 => zoomeye.zoomeye_params_congr qbase64 a1 a2 h,
      zoomeye.handleZoomEyeSearch_congr E Dz cz a1 a2 net h⟩
  · intro k v
    exact ⟨fun hk => fofa.handleFofaSearch_congr E Df cf _ a1 net (hextra _ k v hk),
      fun hk => fofa.handleFofaStats_congr E Df cf _ a1 net (hextra _ k v hk),
      fun hk => fofa.handleFofaHostInfo_congr E cf _ a1 net (hextra _ k v hk),
      fun hk => zoomeye.handleZoomEyeSearch_congr E Dz cz _ a1 net (hextra _ k v hk)⟩

/-- C15, at a fofa_search mapping with the extra member verbose and at a host lookup
with the extra member page: the outcome is that of the mapping without it. -/
theorem unrecognised_arguments_ignored_witness :
    fofa.handleFofaSearch exLib503 fofa.exDecoders (fofa.NewFofaClient "e" "k")
        ([("query", .str "x"), ("size", .num 5)] ++ [("verbose", .bool true)]) { sent := [] }
      = fofa.handleFofaSearch exLib503 fofa.exDecoders (fofa.NewFofaClient "e" "k")
        [("query", .str "x"), ("size", .num 5)] { sent := [] }
    ∧ fofa.handleFofaHostInfo exLib200 (fofa.NewFofaClient "e" "k")
        ([("host", .str "example.org")] ++ [("page", .num 3)]) { sent := [] }
      = fofa.handleFofaHostInfo exLib200 (fofa.NewFofaClient "e" "k")
        [("host", .str "example.org")] { sent := [] } :=
  ⟨((unrecognised_arguments_ignored exLib503 fofa.exDecoders zoomeye.exDecoders
      (fofa.NewFofaClient "e" "k") (zoomeye.NewZoomEyeClient "k")
      [("query", .str "x"), ("size", .num 5)] [] { sent := [] }).2.2.2.2
      "verbose" (.bool true)).1 (by decide),
   ((unrecognised_arguments_ignored exLib200 fofa.exDecoders zoomeye.exDecoders
      (fofa.NewFofaClient "e" "k") (zoomeye.NewZoomEyeClient "k")
      [("host", .str "example.org")] [] { sent := [] }).2.2.2.2
      "page" (.num 3)).2.2.1 (by decide)⟩

/-! ## C16: the response of a host lookup -/

theorem Object.get_append (a b : Object) (k : String) :
    Object.get (a ++ b) k
      = match Object.get b k with
        | some w => some w
        | none => Object.get a k := by
  induction a with
  | nil =>
    simp only [List.nil_append, Object.get]
    cases Object.get b k <;> rfl
  | cons kv rest ih =>
    obtain ⟨k1, v1⟩ := kv
    have ih1 : Object.get (rest.append b) k
        = match Object.get b k with
          | some w => some w
          | none => Object.get rest k := ih
    simp only [List.cons_append, Object.get, ih1]
    cases Object.get b k <;> rfl

theorem Object.get_filter (m : Object) (p : String → Bool) (k : String) :
    Object.get (m.filter (fun kv => p kv.1)) k = if p k = true then Object.get m k else none := by
  induction m with
  | nil => simp [Object.get]
  | cons kv rest ih =>
    obtain ⟨k1, v1⟩ := kv
    rw [List.filter_cons]
    cases hp1 : p k1 with
    | false =>
      simp only [Bool.false_eq_true, if_false]
      rw [ih]
      cases hp : p k with
      | false => simp
      | true =>
        have hne : k1 ≠ k := fun h => by rw [h, hp] at hp1; cases hp1
        simp only [if_true, Object.get, hne, if_false]
        cases Object.get rest k <;> rfl
    | true =>
      simp only [if_true, Object.get]
      rw [ih]
      cases hp : p k with
      | false =>
        have hne : k1 ≠ k := fun h => by rw [h, hp] at hp1; cases hp1
        simp [hne]
      | true => simp

theorem copyHostFields_eq (response : Object) (result : fofa.HostInfoResponse) :
    fofa.copyHostFields response result
      = response ++ result.filter (fun kv => decide (kv.1 ≠ "error") && decide (kv.1 ≠ "errmsg")) := by
  unfold fofa.copyHostFields
  induction result generalizing response with
  | nil => simp
  | cons kv rest ih =>
    rw [List.foldl_cons, ih]
    by_cases h1 : kv.1 = "error"
    · simp [h1]
    · by_cases h2 : kv.1 = "errmsg"
      · simp [h2]
      · simp [h1, h2]

/-- What a read of the flattened response gives, key by key. -/
theorem copyHostFields_get (result : fofa.HostInfoResponse) (k : String) :
    Object.get (fofa.copyHostFields [("success", .bool true)] result) k
      = if k = "error" ∨ k = "errmsg" then none
        else match Object.get result k with
          | some v => some v
          | none => if k = "success" then some (.bool true) else none := by
  rw [copyHostFields_eq, Object.get_append,
    Object.get_filter result (fun key => decide (key ≠ "error") && decide (key ≠ "errmsg")) k]
  by_cases h1 : k = "error"
  · simp [h1, Object.get]
  · by_cases h2 : k = "errmsg"
    · simp [h2, Object.get]
    · simp only [h1, h2, ne_eq, not_false_eq_true, decide_True, Bool.and_self, if_true,
        or_self, if_false]
      cases Object.get result k with
      | some v => rfl
      | none =>
        by_cases h3 : k = "success"
        · simp [h3, Object.get]
        · have h4 : ¬ "success" = k := fun h => h3 h.symm
          simp [h3, h4, Object.get]

/-- C16. Take a host lookup with a usable host for which `GetHostInfo` succeeds with
the payload `m`. The handler succeeds, and its one text block is the indented JSON of
a response object in which every key `k` of `m` other than "error" and "errmsg" holds
`m[k]`, the keys "error" and "errmsg" are absent, and the only key that need not come
from `m` is "success" (true, unless `m` has a key "success" of its own, whose value it
then holds like any other key of `m`). -/
theorem host_lookup_flattening (E : Lib) (client : fofa.FofaClient) (args : Object)
    (net net1 : Net) (host : String) (m : fofa.HostInfoResponse)
    (hq : assertString (Object.get args "host") = some host) (hne : host ≠ "")
    (hok : client.GetHostInfo E host net = (.ok m, net1)) :
    ∃ response : Object,
      fofa.handleFofaHostInfo E client args net
        = (.ok { Content := [[("type", .str "text"),
                   ("text", .str (E.marshalIndent (.obj response)))]],
                 IsError := false }, net1)
      ∧ (∀ (k : String) (v : Json), k ≠ "error" → k ≠ "errmsg" →
          Object.get m k = some v → Object.get response k = some v)
      ∧ Object.get response "error" = none ∧ Object.get response "errmsg" = none
      ∧ (∀ kv ∈ response, kv.1 ≠ "error" ∧ kv.1 ≠ "errmsg")
      ∧ (∀ k : String, k ≠ "success" → Object.get m k = none → Object.get response k = none)
      ∧ (Object.get m "success" = none → Object.get response "success" = some (.bool true)) := by
  refine ⟨fofa.copyHostFields [("success", .bool true)] m, ?_, ?_, ?_, ?_, ?_, ?_, ?_⟩
  · unfold fofa.handleFofaHostInfo
    rw [hq]
    simp only [hne, if_false, hok]
    rfl
  · intro k v h1 h2 hm
    rw [copyHostFields_get, hm]
    simp [h1, h2]
  · rw [copyHostFields_get]
    simp
  · rw [copyHostFields_get]
    simp
  · intro kv hkv
    rw [copyHostFields_eq] at hkv
    simp only [List.mem_append, List.mem_singleton, List.mem_filter, Bool.and_eq_true,
      decide_eq_true_eq] at hkv
    rcases hkv with h | ⟨_, h⟩
    · rw [h]
      exact ⟨by decide, by decide⟩
    · exact h
  · intro k hk hm
    rw [copyHostFields_get, hm]
    simp [hk]
  · intro hm
    rw [copyHostFields_get, hm]
    simp

/-- C16, at a host lookup answered with the body of `exHostBody`: the response holds
the address and the ports, no error fields, and success. -/
theorem host_lookup_flattening_witness :
    ∃ response : Object,
      fofa.handleFofaHostInfo exLib200 (fofa.NewFofaClient "e" "k")
          [("host", .str "example.org")] { sent := [] }
        = (.ok { Content := [[("type", .str "text"),
                   ("text", .str (exLib200.marshalIndent (.obj response)))]],
                 IsError := false },
            ((fofa.NewFofaClient "e" "k").GetHostInfo exLib200 "example.org"
              { sent := [] }).2)
      ∧ Object.get response "ip" = some (.str "1.2.3.4")
      ∧ Object.get response "port" = some (.arr [.num 80, .num 443])
      ∧ Object.get response "error" = none ∧ Object.get response "errmsg" = none
      ∧ Object.get response "success" = some (.bool true) := by
  obtain ⟨response, h1, h2, h3, h4, _, _, h7⟩ :=
    host_lookup_flattening exLib200 (fofa.NewFofaClient "e" "k")
      [("host", .str "example.org")] { sent := [] }
      ((fofa.NewFofaClient "e" "k").GetHostInfo exLib200 "example.org" { sent := [] }).2
      "example.org"
      [("ip", .str "1.2.3.4"), ("error", .bool false), ("errmsg", .str ""),
        ("port", .arr [.num 80, .num 443])]
      (by rfl) (by decide) (by rfl)
  exact ⟨response, h1, h2 "ip" _ (by decide) (by decide) (by rfl),
    h2 "port" _ (by decide) (by decide) (by rfl), h3, h4, h7 (by rfl)⟩

/-! ## C17: a size within its range is sent as it is -/

/-- The parameters after validation, field by field. -/
theorem fofa.validate_eq (params : fofa.QueryParams) :
    fofa.FofaClient.Search.validate params
      = { Query := params.Query
          Page := if params.Page < 1 then 1 else params.Page
          Size := if params.Size < 1 then 100
            else if params.Size > fofa.sizeCap params.Fields then fofa.sizeCap params.Fields
            else params.Size
          Fields := if params.Fields = "" then "host,ip,port,protocol" else params.Fields
          Full := params.Full
          IsDomain := params.IsDomain } := by
  have hc0 : strings.Contains (strings.ToLower "") "cert" = false := by decide
  have hb0 : strings.Contains (strings.ToLower "") "banner" = false := by decide
  unfold fofa.FofaClient.Search.validate fofa.sizeCap
  by_cases hf : params.Fields = ""
  · by_cases hp : params.Page < 1 <;> by_cases hs : params.Size < 1 <;>
      by_cases h2 : params.Size > 10000 <;>
      simp [hp, hs, hf, hc0, hb0, h2]
  · by_cases hp : params.Page < 1 <;> by_cases hs : params.Size < 1 <;>
      by_cases hc : strings.Contains (strings.ToLower params.Fields) "cert" = true <;>
      by_cases hb : strings.Contains (strings.ToLower params.Fields) "banner" = true <;>
      by_cases h1 : params.Size > 2000 <;> by_cases h2 : params.Size > 10000 <;>
      simp [hp, hs, hf, hc, hb, h1, h2]

theorem fofa.sizeCap_values (fields : String) :
    fofa.sizeCap fields = 2000 ∨ fofa.sizeCap fields = 10000 := by
  unfold fofa.sizeCap
  split
  · left; rfl
  · right; rfl

theorem fofa.validate_size_range (params : fofa.QueryParams) :
    1 ≤ (fofa.FofaClient.Search.validate params).Size
      ∧ (fofa.FofaClient.Search.validate params).Size ≤ fofa.sizeCap params.Fields
      ∧ (1 ≤ params.Size → params.Size ≤ fofa.sizeCap params.Fields →
          (fofa.FofaClient.Search.validate params).Size = params.Size) := by
  rw [fofa.validate_eq]
  simp only
  rcases fofa.sizeCap_values params.Fields with h | h <;> rw [h] <;>
    refine ⟨?_, ?_, ?_⟩ <;> (try intro _ _) <;> split_ifs <;> omega

theorem fofa.sizeCap_validate (params : fofa.QueryParams) :
    fofa.sizeCap (fofa.FofaClient.Search.validate params).Fields
      = fofa.sizeCap params.Fields := by
  rw [fofa.validate_eq]
  simp only
  by_cases hf : params.Fields = ""
  · rw [hf]
    decide
  · simp only [hf, if_false]

theorem fofa.validate_idempotent (params : fofa.QueryParams) :
    fofa.FofaClient.Search.validate (fofa.FofaClient.Search.validate params)
      = fofa.FofaClient.Search.validate params := by
  have hcap := fofa.sizeCap_validate params
  have hr := fofa.validate_size_range params
  rw [fofa.validate_eq (fofa.FofaClient.Search.validate params), hcap]
  have hpage : (fofa.FofaClient.Search.validate params).Page ≥ 1 := by
    rw [fofa.validate_eq]
    simp only
    split_ifs <;> omega
  have hfields : (fofa.FofaClient.Search.validate params).Fields ≠ "" := by
    rw [fofa.validate_eq]
    simp only
    split_ifs with hf
    · decide
    · exact hf
  have h1 : ¬ (fofa.FofaClient.Search.validate params).Page < 1 := by omega
  have h2 : ¬ (fofa.FofaClient.Search.validate params).Size < 1 := by omega
  have h3 : ¬ (fofa.FofaClient.Search.validate params).Size > fofa.sizeCap params.Fields := by
    omega
  simp only [h1, h2, h3, hfields, if_false]

/-- C17. A fofa_search call with a usable query sends exactly one request, and with
`s` the requested size and `f` the effective fields (the `Size` and `Fields` handed to
the client) the size it carries lies between 1 and `sizeCap f`, and is exactly `s`
when `s` itself lies between 1 and `sizeCap f`. For all parameters the validated size
lies between 1 and the cap of the fields, and validating validated parameters changes
nothing. -/
theorem in_range_size_unaltered (E : Lib) (D : fofa.Decoders) (client : fofa.FofaClient)
    (args : Object) (net : Net) (query : String)
    (hq : assertString (Object.get args "query") = some query) (hne : query ≠ "") :
    (∃ (req : HttpRequest) (size : Int),
      (fofa.handleFofaSearch E D client args net).2.sent = net.sent ++ [req]
      ∧ req.queryValue "size" = some (Itoa size)
      ∧ 1 ≤ size
      ∧ size ≤ fofa.sizeCap (fofa.handleFofaSearch.params query args).Fields
      ∧ (1 ≤ (fofa.handleFofaSearch.params query args).Size →
          (fofa.handleFofaSearch.params query args).Size
            ≤ fofa.sizeCap (fofa.handleFofaSearch.params query args).Fields →
          size = (fofa.handleFofaSearch.params query args).Size))
    ∧ (∀ params : fofa.QueryParams,
      1 ≤ (fofa.FofaClient.Search.validate params).Size
      ∧ (fofa.FofaClient.Search.validate params).Size ≤ fofa.sizeCap params.Fields
      ∧ fofa.FofaClient.Search.validate (fofa.FofaClient.Search.validate params)
          = fofa.FofaClient.Search.validate params) := by
  constructor
  · have hr := fofa.validate_size_range (fofa.handleFofaSearch.params query args)
    exact ⟨_, _, fofa.handleFofaSearch_sent E D client args net query hq hne,
      fofa.request_size E client _, hr.1, hr.2.1, hr.2.2⟩
  · intro params
    have hr := fofa.validate_size_range params
    exact ⟨hr.1, hr.2.1, fofa.validate_idempotent params⟩

/-- C17, at size 1500 with fields "host,cert": within the cap 2000, sent as 1500. -/
theorem in_range_size_unaltered_witness :
    ∃ req : HttpRequest,
      (fofa.handleFofaSearch exLib fofa.exDecoders (fofa.NewFofaClient "e" "k")
        [("query", .str "x"), ("size", .num 1500), ("fields", .str "host,cert")]
        { sent := [] }).2.sent = [] ++ [req]
      ∧ req.queryValue "size" = some (Itoa 1500) := by
  obtain ⟨⟨req, size, h1, h2, _, _, h5⟩, _⟩ :=
    in_range_size_unaltered exLib fofa.exDecoders (fofa.NewFofaClient "e" "k")
      [("query", .str "x"), ("size", .num 1500), ("fields", .str "host,cert")]
      { sent := [] } "x" (by rfl) (by decide)
  refine ⟨req, h1, ?_⟩
  rw [h2, h5 (by decide) (by decide)]
  rfl

/-! ## C18: the page size of zoomeye_search -/

theorem zoomeye.validate_pagesize_range (params : zoomeye.SearchParams) :
    1 ≤ (zoomeye.ZoomEyeClient.Search.validate params).PageSize
      ∧ (zoomeye.ZoomEyeClient.Search.validate params).PageSize ≤ 10000
      ∧ (1 ≤ params.PageSize →
          (zoomeye.ZoomEyeClient.Search.validate params).PageSize
            = min params.PageSize 10000) := by
  rw [zoomeye.validate_pagesize]
  refine ⟨?_, ?_, ?_⟩ <;> (try intro _) <;> split_ifs <;> omega

/-- C18, as stated, fails: the pagesize 1e19 is at least 1, and the request carries
pagesize 10, not the smaller of it and 10000 (the conversion `int(pagesize)`
overflows to a negative `int`, which `Search` replaces by the default). -/
theorem zoomeye_pagesize_bound_counterexample :
    1 ≤ truncate 10000000000000000000
    ∧ min (truncate 10000000000000000000) 10000 = 10000
    ∧ ∃ req : HttpRequest,
        (zoomeye.handleZoomEyeSearch exLib zoomeye.exDecoders (zoomeye.NewZoomEyeClient "k")
          [("query", .str "x"), ("pagesize", .num 10000000000000000000)]
          { sent := [] }).2.sent = [req]
        ∧ req.bodyMember "pagesize" = some (.num 10)
        ∧ req.bodyMember "pagesize" ≠ some (.num 10000) := by
  refine ⟨by decide, by decide, _, rfl, rfl, ?_⟩
  intro h
  have h2 : some (Json.num 10) = some (Json.num 10000) := h
  injection h2 with h3
  injection h3 with h4
  norm_num at h4

/-- C18, amended. A zoomeye_search call with a usable query sends exactly one request
whose pagesize lies between 1 and 10000 and, when the requested pagesize is at least
1 as an integer within the range of `int`, is the smaller of it and 10000: when the
`PageSize` handed to the client is at least 1, and so when the `pagesize` argument is
a number whose integer part is at least 1 and fits `int`. A call whose arguments
differ from it only under the key `fields` sends the same pagesize: the fields play
no part, and no cap of 2000 exists for "cert" or "banner". -/
theorem zoomeye_pagesize_bound (E : Lib) (D : zoomeye.Decoders)
    (client : zoomeye.ZoomEyeClient) (args : Object) (net : Net) (query : String)
    (hq : assertString (Object.get args "query") = some query) (hne : query ≠ "") :
    ∃ (req : HttpRequest) (size : Int),
      (zoomeye.handleZoomEyeSearch E D client args net).2.sent = net.sent ++ [req]
      ∧ req.bodyMember "pagesize" = some (.num size)
      ∧ 1 ≤ size ∧ size ≤ 10000
      ∧ (1 ≤ (zoomeye.handleZoomEyeSearch.params (E.base64 query) args).PageSize →
          size = min (zoomeye.handleZoomEyeSearch.params (E.base64 query) args).PageSize 10000)
      ∧ (∀ q : ℚ, assertFloat64 (Object.get args "pagesize") = some q →
          1 ≤ truncate q → truncate q ≤ maxInt → size = min (truncate q) 10000)
      ∧ (∀ args2 : Object,
          (∀ k : String, k ≠ "fields" → Object.get args2 k = Object.get args k) →
          ∃ req2 : HttpRequest,
            (zoomeye.handleZoomEyeSearch E D client args2 net).2.sent = net.sent ++ [req2]
            ∧ req2.bodyMember "pagesize" = some (.num size)) := by
  have hr := zoomeye.validate_pagesize_range
    (zoomeye.handleZoomEyeSearch.params (E.base64 query) args)
  refine ⟨_, _, zoomeye.handleZoomEyeSearch_sent E D client args net query hq hne,
    zoomeye.request_pagesize client _ (by omega), hr.1, hr.2.1, hr.2.2, ?_, ?_⟩
  · intro q hs hge hrange
    have hps : (zoomeye.handleZoomEyeSearch.params (E.base64 query) args).PageSize
        = truncate q := by
      rw [zoomeye.params_PageSize, hs]
      exact goInt_of_pos q 1 (by decide) hge hrange
    rw [hr.2.2 (by rw [hps]; exact hge), hps]
  · intro args2 hagree
    have hq2 : assertString (Object.get args2 "query") = some query := by
      rw [hagree "query" (by decide)]
      exact hq
    have hsame : (zoomeye.ZoomEyeClient.Search.validate
          (zoomeye.handleZoomEyeSearch.params (E.base64 query) args2)).PageSize
        = (zoomeye.ZoomEyeClient.Search.validate
          (zoomeye.handleZoomEyeSearch.params (E.base64 query) args)).PageSize := by
      rw [zoomeye.validate_pagesize, zoomeye.validate_pagesize, zoomeye.params_PageSize,
        zoomeye.params_PageSize, hagree "pagesize" (by decide)]
    refine ⟨_, zoomeye.handleZoomEyeSearch_sent E D client args2 net query hq2 hne, ?_⟩
    rw [zoomeye.request_pagesize client _ (by rw [hsame]; omega), hsame]

/-- C18, amended, at pagesize 10000 with fields "banner,cert": sent as 10000, as it is
with the fields "ip". -/
theorem zoomeye_pagesize_bound_witness :
    (∃ req : HttpRequest,
      (zoomeye.handleZoomEyeSearch exLib zoomeye.exDecoders (zoomeye.NewZoomEyeClient "k")
        [("query", .str "x"), ("pagesize", .num 10000), ("fields", .str "banner,cert")]
        { sent := [] }).2.sent = [] ++ [req]
      ∧ req.bodyMember "pagesize" = some (.num 10000))
    ∧ (∃ req2 : HttpRequest,
      (zoomeye.handleZoomEyeSearch exLib zoomeye.exDecoders (zoomeye.NewZoomEyeClient "k")
        [("query", .str "x"), ("pagesize", .num 10000), ("fields", .str "ip")]
        { sent := [] }).2.sent = [] ++ [req2]
      ∧ req2.bodyMember "pagesize" = some (.num 10000)) := by
  obtain ⟨req, size, h1, h2, _, _, _, h6, h7⟩ :=
    zoomeye_pagesize_bound exLib zoomeye.exDecoders (zoomeye.NewZoomEyeClient "k")
      [("query", .str "x"), ("pagesize", .num 10000), ("fields", .str "banner,cert")]
      { sent := [] } "x" (by rfl) (by decide)
  have hsize : size = 10000 := by
    rw [h6 10000 (by rfl) (by decide) (by decide)]
    decide
  obtain ⟨req2, k1, k2⟩ := h7
    [("query", .str "x"), ("pagesize", .num 10000), ("fields", .str "ip")]
    (by
      intro k hk
      simp only [Object.get]
      by_cases hf : "fields" = k
      · exact absurd hf.symm hk
      · simp [hf])
  rw [hsize] at h2 k2
  exact ⟨⟨req, h1, h2⟩, ⟨req2, k1, k2⟩⟩

end SecurityMCPHub
